import Mathlib

/-!
# Swapchain rebuild and present path of the Vulkan overlay renderer

A shallow embedding of the functions of src/src/VulkanRenderer.cpp (`Initialize`,
`SetupWindow`, `SetupOverlay`, `SetupSwapchain`, `DestroyFrames`, `RenderWindow`,
`RenderOverlay`, `Present`), of the records declared in src/src/VulkanRenderer.h, of
the result-checking statement and the extension queries of src/src/VulkanUtils.h, of
the refresh-rate update and the frame pacer of src/src/Main.cpp, and of the OpenVR
platform backend src/src/backends/imgui_impl_openvr.cpp.

Conventions of the embedding:

* `uint32_t` fields and Vulkan handles are natural numbers; where the C++ arithmetic
  can wrap, the reduction modulo `2 ^ 32` is written out.
* `VkResult` values are integers (status codes are positive, errors negative).
* The Vulkan driver is an explicit input: a record of the values it hands back.
* Every function returns the new renderer and window state together with the list
  of device calls it issued, in issue order.
* `assert` is the C `assert` of a build without `NDEBUG`: a false condition ends the
  run at that point.
* `std::vector` is a list. An element access past the end, which C++ leaves
  undefined, reads the null record and writes nothing.
* The text printed on stderr and the floating point clear colour are not tracked.
-/

namespace OverlayRenderer

/-! ## Constants of the Vulkan headers -/

/-- The null handle of every Vulkan handle type. -/
abbrev VK_NULL_HANDLE : Nat := 0

/-- The result code `VK_SUCCESS`. -/
abbrev VK_SUCCESS : Int := 0

/-- The result code `VK_SUBOPTIMAL_KHR`, a positive status code. -/
abbrev VK_SUBOPTIMAL_KHR : Int := 1000001003

/-- The result code `VK_ERROR_OUT_OF_DATE_KHR`, a negative error code. -/
abbrev VK_ERROR_OUT_OF_DATE_KHR : Int := -1000001004

/-- Present mode `VK_PRESENT_MODE_IMMEDIATE_KHR`. -/
abbrev VK_PRESENT_MODE_IMMEDIATE_KHR : Nat := 0

/-- Present mode `VK_PRESENT_MODE_MAILBOX_KHR`. -/
abbrev VK_PRESENT_MODE_MAILBOX_KHR : Nat := 1

/-- Present mode `VK_PRESENT_MODE_FIFO_KHR`. -/
abbrev VK_PRESENT_MODE_FIFO_KHR : Nat := 2

/-- Present mode `VK_PRESENT_MODE_FIFO_RELAXED_KHR`. -/
abbrev VK_PRESENT_MODE_FIFO_RELAXED_KHR : Nat := 3

/-- Present mode `VK_PRESENT_MODE_SHARED_DEMAND_REFRESH_KHR`. -/
abbrev VK_PRESENT_MODE_SHARED_DEMAND_REFRESH_KHR : Nat := 1000111000

/-- Present mode `VK_PRESENT_MODE_SHARED_CONTINUOUS_REFRESH_KHR`. -/
abbrev VK_PRESENT_MODE_SHARED_CONTINUOUS_REFRESH_KHR : Nat := 1000111001

/-- Surface transform bit `VK_SURFACE_TRANSFORM_IDENTITY_BIT_KHR`. -/
abbrev VK_SURFACE_TRANSFORM_IDENTITY_BIT_KHR : Nat := 1

/-- Image layout `VK_IMAGE_LAYOUT_UNDEFINED`. -/
abbrev VK_IMAGE_LAYOUT_UNDEFINED : Nat := 0

/-- Image layout `VK_IMAGE_LAYOUT_PRESENT_SRC_KHR`. -/
abbrev VK_IMAGE_LAYOUT_PRESENT_SRC_KHR : Nat := 1000001002

/-- The number of values of a `uint32_t`. -/
abbrev UINT32_RANGE : Nat := 2 ^ 32

/-- The extent component `0xffffffff` that marks an undefined surface extent. -/
abbrev UNDEFINED_EXTENT : Nat := 0xffffffff

/-- Length of the local array `VkImage backbuffers[16]` of `SetupSwapchain`. -/
abbrev BACKBUFFER_CAPACITY : Nat := 16

/-! ## Data model (VulkanRenderer.h) -/

/-- The record `Vulkan_Frame`: the per-image resources of a swapchain target. -/
structure Vulkan_Frame where
  command_pool : Nat
  command_buffer : Nat
  fence : Nat
  backbuffer : Nat
  backbuffer_view : Nat
  framebuffer : Nat
deriving DecidableEq, Repr

/-- The record `Vulkan_FrameSemaphore`: an acquire and a render-complete semaphore. -/
structure Vulkan_FrameSemaphore where
  image_acquired_semaphore : Nat
  render_complete_semaphore : Nat
deriving DecidableEq, Repr

/-- The record `VkSurfaceFormatKHR`. -/
structure VkSurfaceFormatKHR where
  format : Nat
  colorSpace : Nat
deriving DecidableEq, Repr

/-- The record `Vulkan_Window`, without its floating point clear value. -/
structure Vulkan_Window where
  width : Nat
  height : Nat
  swapchain : Nat
  surface : Nat
  surface_format : VkSurfaceFormatKHR
  present_mode : Nat
  render_pass : Nat
  pipeline : Nat
  clear_enable : Bool
  frame_index : Nat
  image_count : Nat
  semaphore_count : Nat
  semaphore_index : Nat
  frames : List Vulkan_Frame
  semaphores : List Vulkan_FrameSemaphore
  is_minimized : Bool
deriving DecidableEq, Repr

/-- The clear colour of a target. Its components are kept in thousandths, as the
decimal literals of the source spell them (`0.45f` is 450). -/
structure VkClearValue where
  red : Nat
  green : Nat
  blue : Nat
  alpha : Nat
deriving DecidableEq, Repr

/-- The record `Vulkan_Overlay`: the offscreen target. -/
structure Vulkan_Overlay where
  width : Nat
  height : Nat
  texture_format : VkSurfaceFormatKHR
  command_pool : Nat
  command_buffer : Nat
  fence : Nat
  texture : Nat
  texture_view : Nat
  texture_memory : Nat
  queue : Nat
  clear_enable : Bool
  clear_value : VkClearValue
deriving DecidableEq, Repr

/-- The overlay record after its constructor ran `memset(this, 0, sizeof(*this))`. -/
def Vulkan_Overlay.zero : Vulkan_Overlay :=
  { width := 0, height := 0, texture_format := { format := 0, colorSpace := 0 },
    command_pool := 0, command_buffer := 0, fence := 0, texture := 0, texture_view := 0,
    texture_memory := 0, queue := 0, clear_enable := false,
    clear_value := { red := 0, green := 0, blue := 0, alpha := 0 } }

/-- The data members of the class `VulkanRenderer`. The members after
`should_rebuild_swapchain_` are not touched by the swapchain and present paths. -/
structure VulkanRenderer where
  vulkan_instance_ : Nat
  vulkan_physical_device_ : Nat
  vulkan_queue_family_ : Nat
  vulkan_allocator_ : Nat
  vulkan_device_ : Nat
  vulkan_queue_ : Nat
  vulkan_descriptor_pool_ : Nat
  vulkan_pipeline_cache_ : Nat
  minimum_concurrent_image_count_ : Nat
  should_rebuild_swapchain_ : Bool
  vulkan_instance_extensions_ : List String := []
  vulkan_device_extensions_ : List String := []
  debug_report_ : Nat := 0
  device_list_ : List Nat := []
  should_enable_dynamic_rendering_ : Bool := false
  vulkan_overlay_ : Vulkan_Overlay := Vulkan_Overlay.zero
  f_vkCmdBeginRenderingKHR : Nat := 0
  f_vkCmdEndRenderingKHR : Nat := 0
deriving DecidableEq, Repr

/-- A frame record with every handle null, the result of `memset(..., 0x0, ...)`. -/
def Vulkan_Frame.zero : Vulkan_Frame :=
  { command_pool := VK_NULL_HANDLE, command_buffer := VK_NULL_HANDLE, fence := VK_NULL_HANDLE,
    backbuffer := VK_NULL_HANDLE, backbuffer_view := VK_NULL_HANDLE,
    framebuffer := VK_NULL_HANDLE }

/-- A semaphore pair with both handles null. -/
def Vulkan_FrameSemaphore.zero : Vulkan_FrameSemaphore :=
  { image_acquired_semaphore := VK_NULL_HANDLE, render_complete_semaphore := VK_NULL_HANDLE }

/-- The record `VkSurfaceCapabilitiesKHR`, with `currentExtent` flattened. -/
structure VkSurfaceCapabilitiesKHR where
  minImageCount : Nat
  maxImageCount : Nat
  currentExtent_width : Nat
  currentExtent_height : Nat
  supportedTransforms : Nat
  currentTransform : Nat
deriving DecidableEq, Repr

/-- The fields of `VkSwapchainCreateInfoKHR` that `SetupSwapchain` computes. -/
structure VkSwapchainCreateInfoKHR where
  surface : Nat
  minImageCount : Nat
  imageFormat : Nat
  imageColorSpace : Nat
  imageExtent_width : Nat
  imageExtent_height : Nat
  preTransform : Nat
  presentMode : Nat
  oldSwapchain : Nat
deriving DecidableEq, Repr

/-- The device and compositor calls issued by the renderer, with the arguments that
identify the object each call works on. -/
inductive Call where
  | vkQueueWaitIdle (queue : Nat)
  | vkDeviceWaitIdle (device : Nat)
  | vkDestroySemaphore (device semaphore : Nat)
  | vkDestroyFence (device fence : Nat)
  | vkFreeCommandBuffers (device command_pool command_buffer : Nat)
  | vkDestroyCommandPool (device command_pool : Nat)
  | vkDestroyImageView (device view : Nat)
  | vkDestroyFramebuffer (device framebuffer : Nat)
  | vkDestroyRenderPass (device render_pass : Nat)
  | vkDestroyPipeline (device pipeline : Nat)
  | vkGetPhysicalDeviceSurfaceCapabilitiesKHR (physical_device surface : Nat)
  | vkCreateSwapchainKHR (device : Nat) (info : VkSwapchainCreateInfoKHR)
  | vkGetSwapchainImagesKHR (device swapchain count : Nat) (images : Bool)
  | vkDestroySwapchainKHR (device swapchain : Nat)
  | vkCreateSemaphore (device : Nat)
  | vkCreateImageView (device image : Nat)
  | vkCreateCommandPool (device queue_family : Nat)
  | vkAllocateCommandBuffers (device command_pool : Nat)
  | vkCreateFence (device : Nat)
  | vkBeginCommandBuffer (command_buffer : Nat)
  | vkCmdPipelineBarrier (command_buffer image oldLayout newLayout : Nat)
  | vkEndCommandBuffer (command_buffer : Nat)
  | vkWaitForFences (device fence : Nat)
  | vkResetFences (device fence : Nat)
  | vkQueueSubmit (queue command_buffer fence : Nat)
  | vkQueuePresentKHR (queue wait_semaphore swapchain image_index : Nat)
  | vkAcquireNextImageKHR (device swapchain semaphore : Nat)
  | vkResetCommandPool (device command_pool : Nat)
  | vkCmdBeginRenderingKHR (command_buffer view width height : Nat)
  | ImGui_ImplVulkan_RenderDrawData (command_buffer : Nat)
  | vkCmdEndRenderingKHR (command_buffer : Nat)
  | vkQueueSubmit_synchronized (queue wait_semaphore command_buffer signal_semaphore fence : Nat)
  | IsOverlayVisible
  | SetOverlayTexture (image width height format : Nat)
  | vkGetDeviceQueue (device queue_family : Nat)
  | vkCreateImage (device width height format : Nat)
  | vkGetPhysicalDeviceMemoryProperties (physical_device : Nat)
  | vkGetImageMemoryRequirements (device image : Nat)
  | vkAllocateMemory (device size memoryTypeIndex : Nat)
  | vkBindImageMemory (device image memory : Nat)
  | vkGetPhysicalDeviceSurfaceSupportKHR (physical_device queue_family surface : Nat)
  | vkGetPhysicalDeviceSurfacePresentModesKHR (physical_device surface : Nat)
  | vkCreateInstance
  | vkCreateDebugReportCallbackEXT (instance_handle : Nat)
  | vkEnumeratePhysicalDevices (instance_handle : Nat)
  | vkGetPhysicalDeviceProperties (physical_device : Nat)
  | vkGetPhysicalDeviceQueueFamilyProperties (physical_device : Nat)
  | vkEnumerateDeviceExtensionProperties (physical_device : Nat)
  | vkCreateDevice (physical_device queue_family : Nat)
  | vkCreateDescriptorPool (device : Nat)
  | vkGetInstanceProcAddr (instance_handle : Nat) (name : String)
deriving Repr

/-- The content of a call laid out in one record: the position of the call in the list
of `Call`, its numeric arguments in order, and the arguments of the calls that carry a
creation record, a flag or a name. -/
structure CallCode where
  tag : Nat
  args : List Nat
  info : Option VkSwapchainCreateInfoKHR
  flag : Bool
  name : String
deriving DecidableEq, Repr

/-- The record that lays out a call. -/
def Call.encode : Call → CallCode
  | .vkQueueWaitIdle queue =>
    ⟨0, [queue], none, false, ""⟩
  | .vkDeviceWaitIdle device =>
    ⟨1, [device], none, false, ""⟩
  | .vkDestroySemaphore device semaphore =>
    ⟨2, [device, semaphore], none, false, ""⟩
  | .vkDestroyFence device fence =>
    ⟨3, [device, fence], none, false, ""⟩
  | .vkFreeCommandBuffers device command_pool command_buffer =>
    ⟨4, [device, command_pool, command_buffer], none, false, ""⟩
  | .vkDestroyCommandPool device command_pool =>
    ⟨5, [device, command_pool], none, false, ""⟩
  | .vkDestroyImageView device view =>
    ⟨6, [device, view], none, false, ""⟩
  | .vkDestroyFramebuffer device framebuffer =>
    ⟨7, [device, framebuffer], none, false, ""⟩
  | .vkDestroyRenderPass device render_pass =>
    ⟨8, [device, render_pass], none, false, ""⟩
  | .vkDestroyPipeline device pipeline =>
    ⟨9, [device, pipeline], none, false, ""⟩
  | .vkGetPhysicalDeviceSurfaceCapabilitiesKHR physical_device surface =>
    ⟨10, [physical_device, surface], none, false, ""⟩
  | .vkCreateSwapchainKHR device info =>
    ⟨11, [device], some info, false, ""⟩
  | .vkGetSwapchainImagesKHR device swapchain count images =>
    ⟨12, [device, swapchain, count], none, images, ""⟩
  | .vkDestroySwapchainKHR device swapchain =>
    ⟨13, [device, swapchain], none, false, ""⟩
  | .vkCreateSemaphore device =>
    ⟨14, [device], none, false, ""⟩
  | .vkCreateImageView device image =>
    ⟨15, [device, image], none, false, ""⟩
  | .vkCreateCommandPool device queue_family =>
    ⟨16, [device, queue_family], none, false, ""⟩
  | .vkAllocateCommandBuffers device command_pool =>
    ⟨17, [device, command_pool], none, false, ""⟩
  | .vkCreateFence device =>
    ⟨18, [device], none, false, ""⟩
  | .vkBeginCommandBuffer command_buffer =>
    ⟨19, [command_buffer], none, false, ""⟩
  | .vkCmdPipelineBarrier command_buffer image oldLayout newLayout =>
    ⟨20, [command_buffer, image, oldLayout, newLayout], none, false, ""⟩
  | .vkEndCommandBuffer command_buffer =>
    ⟨21, [command_buffer], none, false, ""⟩
  | .vkWaitForFences device fence =>
    ⟨22, [device, fence], none, false, ""⟩
  | .vkResetFences device fence =>
    ⟨23, [device, fence], none, false, ""⟩
  | .vkQueueSubmit queue command_buffer fence =>
    ⟨24, [queue, command_buffer, fence], none, false, ""⟩
  | .vkQueuePresentKHR queue wait_semaphore swapchain image_index =>
    ⟨25, [queue, wait_semaphore, swapchain, image_index], none, false, ""⟩
  | .vkAcquireNextImageKHR device swapchain semaphore =>
    ⟨26, [device, swapchain, semaphore], none, false, ""⟩
  | .vkResetCommandPool device command_pool =>
    ⟨27, [device, command_pool], none, false, ""⟩
  | .vkCmdBeginRenderingKHR command_buffer view width height =>
    ⟨28, [command_buffer, view, width, height], none, false, ""⟩
  | .ImGui_ImplVulkan_RenderDrawData command_buffer =>
    ⟨29, [command_buffer], none, false, ""⟩
  | .vkCmdEndRenderingKHR command_buffer =>
    ⟨30, [command_buffer], none, false, ""⟩
  | .vkQueueSubmit_synchronized queue wait_semaphore command_buffer signal_semaphore fence =>
    ⟨31, [queue, wait_semaphore, command_buffer, signal_semaphore, fence], none, false, ""⟩
  | .IsOverlayVisible =>
    ⟨32, [], none, false, ""⟩
  | .SetOverlayTexture image width height format =>
    ⟨33, [image, width, height, format], none, false, ""⟩
  | .vkGetDeviceQueue device queue_family =>
    ⟨34, [device, queue_family], none, false, ""⟩
  | .vkCreateImage device width height format =>
    ⟨35, [device, width, height, format], none, false, ""⟩
  | .vkGetPhysicalDeviceMemoryProperties physical_device =>
    ⟨36, [physical_device], none, false, ""⟩
  | .vkGetImageMemoryRequirements device image =>
    ⟨37, [device, image], none, false, ""⟩
  | .vkAllocateMemory device size memoryTypeIndex =>
    ⟨38, [device, size, memoryTypeIndex], none, false, ""⟩
  | .vkBindImageMemory device image memory =>
    ⟨39, [device, image, memory], none, false, ""⟩
  | .vkGetPhysicalDeviceSurfaceSupportKHR physical_device queue_family surface =>
    ⟨40, [physical_device, queue_family, surface], none, false, ""⟩
  | .vkGetPhysicalDeviceSurfacePresentModesKHR physical_device surface =>
    ⟨41, [physical_device, surface], none, false, ""⟩
  | .vkCreateInstance =>
    ⟨42, [], none, false, ""⟩
  | .vkCreateDebugReportCallbackEXT instance_handle =>
    ⟨43, [instance_handle], none, false, ""⟩
  | .vkEnumeratePhysicalDevices instance_handle =>
    ⟨44, [instance_handle], none, false, ""⟩
  | .vkGetPhysicalDeviceProperties physical_device =>
    ⟨45, [physical_device], none, false, ""⟩
  | .vkGetPhysicalDeviceQueueFamilyProperties physical_device =>
    ⟨46, [physical_device], none, false, ""⟩
  | .vkEnumerateDeviceExtensionProperties physical_device =>
    ⟨47, [physical_device], none, false, ""⟩
  | .vkCreateDevice physical_device queue_family =>
    ⟨48, [physical_device, queue_family], none, false, ""⟩
  | .vkCreateDescriptorPool device =>
    ⟨49, [device], none, false, ""⟩
  | .vkGetInstanceProcAddr instance_handle name =>
    ⟨50, [instance_handle], none, false, name⟩

/-- The call a record lays out, when it lays out one. -/
def Call.decode (code : CallCode) : Option Call :=
  match code.tag, code.args with
  | 0, [queue] => some (Call.vkQueueWaitIdle queue)
  | 1, [device] => some (Call.vkDeviceWaitIdle device)
  | 2, [device, semaphore] => some (Call.vkDestroySemaphore device semaphore)
  | 3, [device, fence] => some (Call.vkDestroyFence device fence)
  | 4, [device, command_pool, command_buffer] => some (Call.vkFreeCommandBuffers device command_pool command_buffer)
  | 5, [device, command_pool] => some (Call.vkDestroyCommandPool device command_pool)
  | 6, [device, view] => some (Call.vkDestroyImageView device view)
  | 7, [device, framebuffer] => some (Call.vkDestroyFramebuffer device framebuffer)
  | 8, [device, render_pass] => some (Call.vkDestroyRenderPass device render_pass)
  | 9, [device, pipeline] => some (Call.vkDestroyPipeline device pipeline)
  | 10, [physical_device, surface] => some (Call.vkGetPhysicalDeviceSurfaceCapabilitiesKHR physical_device surface)
  | 11, [device] => code.info.map (fun info => Call.vkCreateSwapchainKHR device info)
  | 12, [device, swapchain, count] => some (Call.vkGetSwapchainImagesKHR device swapchain count code.flag)
  | 13, [device, swapchain] => some (Call.vkDestroySwapchainKHR device swapchain)
  | 14, [device] => some (Call.vkCreateSemaphore device)
  | 15, [device, image] => some (Call.vkCreateImageView device image)
  | 16, [device, queue_family] => some (Call.vkCreateCommandPool device queue_family)
  | 17, [device, command_pool] => some (Call.vkAllocateCommandBuffers device command_pool)
  | 18, [device] => some (Call.vkCreateFence device)
  | 19, [command_buffer] => some (Call.vkBeginCommandBuffer command_buffer)
  | 20, [command_buffer, image, oldLayout, newLayout] => some (Call.vkCmdPipelineBarrier command_buffer image oldLayout newLayout)
  | 21, [command_buffer] => some (Call.vkEndCommandBuffer command_buffer)
  | 22, [device, fence] => some (Call.vkWaitForFences device fence)
  | 23, [device, fence] => some (Call.vkResetFences device fence)
  | 24, [queue, command_buffer, fence] => some (Call.vkQueueSubmit queue command_buffer fence)
  | 25, [queue, wait_semaphore, swapchain, image_index] => some (Call.vkQueuePresentKHR queue wait_semaphore swapchain image_index)
  | 26, [device, swapchain, semaphore] => some (Call.vkAcquireNextImageKHR device swapchain semaphore)
  | 27, [device, command_pool] => some (Call.vkResetCommandPool device command_pool)
  | 28, [command_buffer, view, width, height] => some (Call.vkCmdBeginRenderingKHR command_buffer view width height)
  | 29, [command_buffer] => some (Call.ImGui_ImplVulkan_RenderDrawData command_buffer)
  | 30, [command_buffer] => some (Call.vkCmdEndRenderingKHR command_buffer)
  | 31, [queue, wait_semaphore, command_buffer, signal_semaphore, fence] => some (Call.vkQueueSubmit_synchronized queue wait_semaphore command_buffer signal_semaphore fence)
  | 32, [] => some (Call.IsOverlayVisible)
  | 33, [image, width, height, format] => some (Call.SetOverlayTexture image width height format)
  | 34, [device, queue_family] => some (Call.vkGetDeviceQueue device queue_family)
  | 35, [device, width, height, format] => some (Call.vkCreateImage device width height format)
  | 36, [physical_device] => some (Call.vkGetPhysicalDeviceMemoryProperties physical_device)
  | 37, [device, image] => some (Call.vkGetImageMemoryRequirements device image)
  | 38, [device, size, memoryTypeIndex] => some (Call.vkAllocateMemory device size memoryTypeIndex)
  | 39, [device, image, memory] => some (Call.vkBindImageMemory device image memory)
  | 40, [physical_device, queue_family, surface] => some (Call.vkGetPhysicalDeviceSurfaceSupportKHR physical_device queue_family surface)
  | 41, [physical_device, surface] => some (Call.vkGetPhysicalDeviceSurfacePresentModesKHR physical_device surface)
  | 42, [] => some (Call.vkCreateInstance)
  | 43, [instance_handle] => some (Call.vkCreateDebugReportCallbackEXT instance_handle)
  | 44, [instance_handle] => some (Call.vkEnumeratePhysicalDevices instance_handle)
  | 45, [physical_device] => some (Call.vkGetPhysicalDeviceProperties physical_device)
  | 46, [physical_device] => some (Call.vkGetPhysicalDeviceQueueFamilyProperties physical_device)
  | 47, [physical_device] => some (Call.vkEnumerateDeviceExtensionProperties physical_device)
  | 48, [physical_device, queue_family] => some (Call.vkCreateDevice physical_device queue_family)
  | 49, [device] => some (Call.vkCreateDescriptorPool device)
  | 50, [instance_handle] => some (Call.vkGetInstanceProcAddr instance_handle code.name)
  | _, _ => none

/-- Equality of calls is decided on their records: `Call.decode` reads back every call
from its record, so two calls with the same record are the same call. -/
instance : DecidableEq Call := fun a b =>
  if h : a.encode = b.encode then
    isTrue (by
      have ha : Call.decode a.encode = some a := by cases a <;> rfl
      have hb : Call.decode b.encode = some b := by cases b <;> rfl
      rw [h, hb] at ha
      exact (Option.some.inj ha).symm)
  else
    isFalse (fun hab => h (congrArg Call.encode hab))

/-- How a call of the renderer ended: it returned, an `assert` stopped the run, the
function called `std::exit`, or an exception left the function. -/
inductive Status where
  | returned
  | assertion_failed
  | exited
  | threw
deriving DecidableEq, Repr

/-- The state after a renderer function ran, with the device calls it issued. -/
structure Outcome where
  status : Status
  renderer : VulkanRenderer
  window : Vulkan_Window
  calls : List Call
deriving DecidableEq, Repr

/-! ## VulkanUtils.h -/

/-- The statement `VK_VALIDATE_RESULT(e)`:
`if (e != VK_SUCCESS) fprintf(...); if (e > 0) assert(e);`.
`logged` tells whether the error line is printed, `assertion_holds` whether the
assertion, when reached, lets the run continue. -/
structure Validation where
  logged : Bool
  assertion_holds : Bool
deriving DecidableEq, Repr

/-- The two effects of `VK_VALIDATE_RESULT(e)`. -/
def VK_VALIDATE_RESULT (e : Int) : Validation :=
  { logged := decide (e ≠ VK_SUCCESS)
    assertion_holds := if e > 0 then decide (e ≠ 0) else true }

/-! ## VulkanRenderer::SetupSwapchain, the image count -/

/-- The lambda `set_minimum_concurrent_image_count` of `SetupSwapchain`. -/
def set_minimum_concurrent_image_count (mode : Nat) : Nat :=
  if mode = VK_PRESENT_MODE_MAILBOX_KHR then 3
  else if mode = VK_PRESENT_MODE_FIFO_KHR then 2
  else if mode = VK_PRESENT_MODE_FIFO_RELAXED_KHR then 2
  else if mode = VK_PRESENT_MODE_IMMEDIATE_KHR then 1
  else 1

/-- Lines 543-545 of VulkanRenderer.cpp: `minimum_concurrent_image_count_` is set from
the present mode only while it is still 0. -/
def latch_minimum_concurrent_image_count (current mode : Nat) : Nat :=
  if current = 0 then set_minimum_concurrent_image_count mode else current

/-- Lines 547-553: the local `min_image_count` that becomes
`swapchain_create_info.minImageCount`. -/
def min_image_count (minimum_concurrent present_mode surfaceMin surfaceMax : Nat) : Nat :=
  let start := minimum_concurrent
  let raised :=
    if present_mode ≠ VK_PRESENT_MODE_SHARED_DEMAND_REFRESH_KHR
        ∧ present_mode ≠ VK_PRESENT_MODE_SHARED_CONTINUOUS_REFRESH_KHR
        ∧ surfaceMin > start then surfaceMin
    else start
  if raised > surfaceMax then surfaceMax else raised

/-- Lines 555-564: the width and height stored in the window. -/
def resolve_extent (caps : VkSurfaceCapabilitiesKHR) (width height : Nat) : Nat × Nat :=
  if caps.currentExtent_width ≠ UNDEFINED_EXTENT
      ∧ caps.currentExtent_height ≠ UNDEFINED_EXTENT then
    (caps.currentExtent_width, caps.currentExtent_height)
  else (width, height)

/-- Lines 566-568: the transform passed as `preTransform`. -/
def surface_transform_flags (caps : VkSurfaceCapabilitiesKHR) : Nat :=
  if caps.supportedTransforms &&& VK_SURFACE_TRANSFORM_IDENTITY_BIT_KHR ≠ 0 then
    VK_SURFACE_TRANSFORM_IDENTITY_BIT_KHR
  else caps.currentTransform

/-! ## The driver -/

/-- What the Vulkan driver hands back during one `SetupSwapchain` call. -/
structure SwapchainDriver where
  /-- Written by `vkGetPhysicalDeviceSurfaceCapabilitiesKHR`. -/
  surface_capabilities : VkSurfaceCapabilitiesKHR
  /-- Returned by `vkCreateSwapchainKHR`. -/
  create_result : Int
  /-- The value `window->swapchain` holds after `vkCreateSwapchainKHR`. -/
  swapchain : Nat
  /-- The number of presentable images the driver reports for that chain. -/
  image_count : Nat
  /-- The image handles of the chain, by position. -/
  images : Nat → Nat
  /-- The semaphore pair created for slot `idx`. -/
  semaphores : Nat → Vulkan_FrameSemaphore
  /-- The image view created for frame `idx`. -/
  image_views : Nat → Nat
  /-- The command pool created for frame `idx`. -/
  command_pools : Nat → Nat
  /-- The command buffer allocated for frame `idx`. -/
  command_buffers : Nat → Nat
  /-- The fence created for frame `idx`. -/
  fences : Nat → Nat

/-- The count `vkGetSwapchainImagesKHR` stores through `pSwapchainImageCount`: the
number of images of the chain when no array is passed, and the number of handles
written, at most the capacity passed in, when an array is passed. -/
def vkGetSwapchainImagesKHR (available pSwapchainImageCount : Nat) (images : Bool) : Nat :=
  if images then min pSwapchainImageCount available else available

/-! ## std::vector and memset -/

/-- The effect of `std::vector::resize(n)` with value-initialised new elements. -/
def vector_resize {α : Type} (zero : α) (v : List α) (n : Nat) : List α :=
  v.take n ++ List.replicate (n - v.length) zero

/-- The effect of `memset(v.data(), 0x0, v.size() * sizeof(T))`. -/
def memset_zero {α : Type} (zero : α) (v : List α) : List α :=
  v.map (fun _ => zero)

/-- A loop `for (idx = 0; idx < count; idx++) v[idx] = f(idx, v[idx])`. An index past
the end of the vector leaves the list as it is. -/
def update_each {α : Type} (zero : α) (f : Nat → α → α) (count : Nat) (v : List α) : List α :=
  (List.range count).foldl (fun acc idx => acc.set idx (f idx (acc.getD idx zero))) v

/-! ## VulkanRenderer::DestroyFrames -/

/-- The device calls of one iteration of the semaphore loop of `DestroyFrames`. -/
def destroy_semaphore_calls (r : VulkanRenderer) (fsd : Vulkan_FrameSemaphore) : List Call :=
  [Call.vkDestroySemaphore r.vulkan_device_ fsd.image_acquired_semaphore,
   Call.vkDestroySemaphore r.vulkan_device_ fsd.render_complete_semaphore]

/-- The device calls of one iteration of the frame loop of `DestroyFrames`. -/
def destroy_frame_calls (r : VulkanRenderer) (fd : Vulkan_Frame) : List Call :=
  [Call.vkDestroyFence r.vulkan_device_ fd.fence,
   Call.vkFreeCommandBuffers r.vulkan_device_ fd.command_pool fd.command_buffer,
   Call.vkDestroyCommandPool r.vulkan_device_ fd.command_pool,
   Call.vkDestroyImageView r.vulkan_device_ fd.backbuffer_view,
   Call.vkDestroyFramebuffer r.vulkan_device_ fd.framebuffer]

/-- The device calls of `DestroyFrames`, in issue order. -/
def DestroyFrames_calls (r : VulkanRenderer) (window : Vulkan_Window) : List Call :=
  [Call.vkQueueWaitIdle r.vulkan_queue_]
    ++ (List.range window.semaphore_count).flatMap
        (fun idx => destroy_semaphore_calls r (window.semaphores.getD idx Vulkan_FrameSemaphore.zero))
    ++ (List.range window.image_count).flatMap
        (fun idx => destroy_frame_calls r (window.frames.getD idx Vulkan_Frame.zero))

/-- The window after `DestroyFrames`: the handles of the first `semaphore_count`
semaphore pairs and of the first `image_count` frames are null. -/
def DestroyFrames_window (window : Vulkan_Window) : Vulkan_Window :=
  { window with
    semaphores := (update_each Vulkan_FrameSemaphore.zero
      (fun _ _ => Vulkan_FrameSemaphore.zero) window.semaphore_count window.semaphores)
    frames := (update_each Vulkan_Frame.zero
      (fun _ _ => Vulkan_Frame.zero) window.image_count window.frames) }

/-! ## VulkanRenderer::SetupSwapchain -/

/-- The device calls up to and including the surface capability query (lines 508-526).
`window` is the window as `SetupSwapchain` received it. -/
def teardown_calls (r : VulkanRenderer) (window : Vulkan_Window) : List Call :=
  [Call.vkQueueWaitIdle r.vulkan_queue_, Call.vkDeviceWaitIdle r.vulkan_device_]
    ++ DestroyFrames_calls r { window with swapchain := VK_NULL_HANDLE }
    ++ (if window.render_pass ≠ VK_NULL_HANDLE then
          [Call.vkDestroyRenderPass r.vulkan_device_ window.render_pass] else [])
    ++ (if window.pipeline ≠ VK_NULL_HANDLE then
          [Call.vkDestroyPipeline r.vulkan_device_ window.pipeline] else [])
    ++ [Call.vkGetPhysicalDeviceSurfaceCapabilitiesKHR r.vulkan_physical_device_ window.surface]

/-- The structure `swapchain_create_info` of lines 570-590. -/
def swapchain_create_info (d : SwapchainDriver) (r : VulkanRenderer) (window : Vulkan_Window)
    (width height : Nat) : VkSwapchainCreateInfoKHR :=
  let caps := d.surface_capabilities
  let minimum := latch_minimum_concurrent_image_count r.minimum_concurrent_image_count_
    window.present_mode
  let extent := resolve_extent caps width height
  { surface := window.surface
    minImageCount := (min_image_count minimum window.present_mode
      caps.minImageCount caps.maxImageCount)
    imageFormat := window.surface_format.format
    imageColorSpace := window.surface_format.colorSpace
    imageExtent_width := extent.1
    imageExtent_height := extent.2
    preTransform := surface_transform_flags caps
    presentMode := window.present_mode
    oldSwapchain := window.swapchain }

/-- The local array `VkImage backbuffers[16] = {}` after the driver wrote `written`
image handles into it. -/
def backbuffers (d : SwapchainDriver) (written : Nat) : List Nat :=
  (List.range BACKBUFFER_CAPACITY).map (fun i => if i < written then d.images i else VK_NULL_HANDLE)

/-- The device calls of the semaphore loop of lines 616-628. -/
def create_semaphore_calls (r : VulkanRenderer) (semaphore_count : Nat) : List Call :=
  (List.range semaphore_count).flatMap
    (fun _ => [Call.vkCreateSemaphore r.vulkan_device_, Call.vkCreateSemaphore r.vulkan_device_])

/-- The frame record that the loop body of lines 630-735 leaves at position `idx`. -/
def created_frame (d : SwapchainDriver) (images : List Nat) (idx : Nat) (fd : Vulkan_Frame) :
    Vulkan_Frame :=
  { fd with
    backbuffer := images.getD idx VK_NULL_HANDLE
    backbuffer_view := d.image_views idx
    command_pool := d.command_pools idx
    command_buffer := d.command_buffers idx
    fence := d.fences idx }

/-- The device calls of one iteration of the frame loop of lines 630-735. -/
def create_frame_calls (d : SwapchainDriver) (r : VulkanRenderer) (images : List Nat)
    (idx : Nat) : List Call :=
  [Call.vkCreateImageView r.vulkan_device_ (images.getD idx VK_NULL_HANDLE),
   Call.vkCreateCommandPool r.vulkan_device_ r.vulkan_queue_family_,
   Call.vkAllocateCommandBuffers r.vulkan_device_ (d.command_pools idx),
   Call.vkCreateFence r.vulkan_device_,
   Call.vkBeginCommandBuffer (d.command_buffers idx),
   Call.vkCmdPipelineBarrier (d.command_buffers idx) (images.getD idx VK_NULL_HANDLE)
     VK_IMAGE_LAYOUT_UNDEFINED VK_IMAGE_LAYOUT_PRESENT_SRC_KHR,
   Call.vkEndCommandBuffer (d.command_buffers idx),
   Call.vkWaitForFences r.vulkan_device_ (d.fences idx),
   Call.vkResetFences r.vulkan_device_ (d.fences idx),
   Call.vkQueueSubmit r.vulkan_queue_ (d.command_buffers idx) (d.fences idx)]

/-- The function `VulkanRenderer::SetupSwapchain(window, width, height)`.
Of its `VK_VALIDATE_RESULT` statements the one after `vkCreateSwapchainKHR` is
spelled out; the results of the other calls are used for nothing but that statement,
whose assertion holds for every value (`VK_VALIDATE_RESULT_assertion_holds`). -/
def SetupSwapchain (d : SwapchainDriver) (r : VulkanRenderer) (window : Vulkan_Window)
    (width height : Nat) : Outcome :=
  let old_swapchain := window.swapchain
  -- lines 514-517
  let w1 := { DestroyFrames_window { window with swapchain := VK_NULL_HANDLE } with
              image_count := 0 }
  -- lines 543-545
  let minimum := latch_minimum_concurrent_image_count r.minimum_concurrent_image_count_
    window.present_mode
  let r1 := { r with minimum_concurrent_image_count_ := minimum }
  -- lines 555-564
  let extent := resolve_extent d.surface_capabilities width height
  let w2 := { w1 with width := extent.1, height := extent.2 }
  -- lines 570-593
  let info := swapchain_create_info d r window width height
  let w3 := { w2 with swapchain := d.swapchain }
  let calls_create := teardown_calls r window ++ [Call.vkCreateSwapchainKHR r.vulkan_device_ info]
  if (VK_VALIDATE_RESULT d.create_result).assertion_holds = false then
    { status := Status.assertion_failed, renderer := r1, window := w3, calls := calls_create }
  else
    -- line 595
    let w4 := { w3 with image_count := vkGetSwapchainImagesKHR d.image_count w3.image_count false }
    let calls_count := calls_create
      ++ [Call.vkGetSwapchainImagesKHR r.vulkan_device_ w3.swapchain w3.image_count false]
    -- lines 600-601
    if ¬ (w4.image_count ≥ r1.minimum_concurrent_image_count_) then
      { status := Status.assertion_failed, renderer := r1, window := w4, calls := calls_count }
    else if ¬ (w4.image_count < BACKBUFFER_CAPACITY) then
      { status := Status.assertion_failed, renderer := r1, window := w4, calls := calls_count }
    else
      -- line 603
      let w5 := { w4 with image_count := vkGetSwapchainImagesKHR d.image_count w4.image_count true }
      let images := backbuffers d w5.image_count
      -- lines 606-611
      let w6 := { w5 with semaphore_count := (w5.image_count + 1) % UINT32_RANGE }
      let w7 := { w6 with
                  frames := (memset_zero Vulkan_Frame.zero
                    (vector_resize Vulkan_Frame.zero w6.frames w6.image_count))
                  semaphores := (memset_zero Vulkan_FrameSemaphore.zero
                    (vector_resize Vulkan_FrameSemaphore.zero w6.semaphores w6.semaphore_count)) }
      -- lines 613-735
      let w8 := { w7 with
                  semaphores := (update_each Vulkan_FrameSemaphore.zero
                    (fun idx _ => d.semaphores idx) w7.semaphore_count w7.semaphores)
                  frames := (update_each Vulkan_Frame.zero
                    (created_frame d images) w7.image_count w7.frames) }
      { status := Status.returned
        -- line 737
        renderer := { r1 with should_rebuild_swapchain_ := false }
        window := w8
        calls := calls_count
          ++ [Call.vkGetSwapchainImagesKHR r.vulkan_device_ w4.swapchain w4.image_count true]
          ++ (if old_swapchain ≠ VK_NULL_HANDLE then
                [Call.vkDestroySwapchainKHR r.vulkan_device_ old_swapchain] else [])
          ++ create_semaphore_calls r w7.semaphore_count
          ++ (List.range w7.image_count).flatMap (create_frame_calls d r images) }

/-! ## VulkanRenderer::Present -/

/-- The function `VulkanRenderer::Present(window)`; `present_result` is the value
`vkQueuePresentKHR` returns. The semaphore handle read at `semaphore_index` is only
passed on to the present call; past the end of the vector the null handle stands in
for it. The remainder by `semaphore_count` is the C++ one when `semaphore_count` is
positive. -/
def Present (present_result : Int) (r : VulkanRenderer) (window : Vulkan_Window) : Outcome :=
  -- lines 1019-1020
  if r.should_rebuild_swapchain_ = true ∨ window.is_minimized = true then
    { status := Status.returned, renderer := r, window := window, calls := [] }
  else
    -- line 1024
    let render_complete_semaphore :=
      (window.semaphores.getD window.semaphore_index
        Vulkan_FrameSemaphore.zero).render_complete_semaphore
    -- lines 1026-1036
    let calls := [Call.vkQueuePresentKHR r.vulkan_queue_ render_complete_semaphore
      window.swapchain window.frame_index]
    -- lines 1038-1039
    let r1 :=
      if present_result = VK_ERROR_OUT_OF_DATE_KHR ∨ present_result = VK_SUBOPTIMAL_KHR then
        { r with should_rebuild_swapchain_ := true }
      else r
    -- lines 1041-1042
    if present_result = VK_ERROR_OUT_OF_DATE_KHR then
      { status := Status.returned, renderer := r1, window := window, calls := calls }
    -- lines 1044-1045: the `if (e > 0) assert(e);` half of the macro is not under the guard
    else if (VK_VALIDATE_RESULT present_result).assertion_holds = false then
      { status := Status.assertion_failed, renderer := r1, window := window, calls := calls }
    else
      -- line 1047
      { status := Status.returned
        renderer := r1
        window := { window with
          semaphore_index :=
            ((window.semaphore_index + 1) % UINT32_RANGE) % window.semaphore_count }
        calls := calls }

/-! ## Further constants of the Vulkan and OpenVR headers -/

/-- Device type `VK_PHYSICAL_DEVICE_TYPE_INTEGRATED_GPU`. -/
abbrev VK_PHYSICAL_DEVICE_TYPE_INTEGRATED_GPU : Nat := 1

/-- Device type `VK_PHYSICAL_DEVICE_TYPE_DISCRETE_GPU`. -/
abbrev VK_PHYSICAL_DEVICE_TYPE_DISCRETE_GPU : Nat := 2

/-- Queue capability bit `VK_QUEUE_GRAPHICS_BIT`. -/
abbrev VK_QUEUE_GRAPHICS_BIT : Nat := 1

/-- The `VkBool32` value `VK_TRUE`. -/
abbrev VK_TRUE : Nat := 1

/-- Format `VK_FORMAT_R8G8B8A8_SRGB`. -/
abbrev VK_FORMAT_R8G8B8A8_SRGB : Nat := 43

/-- Colour space `VK_COLOR_SPACE_SRGB_NONLINEAR_KHR`. -/
abbrev VK_COLOR_SPACE_SRGB_NONLINEAR_KHR : Nat := 0

/-- Memory property bit `VK_MEMORY_PROPERTY_DEVICE_LOCAL_BIT`. -/
abbrev VK_MEMORY_PROPERTY_DEVICE_LOCAL_BIT : Nat := 1

/-- Image layout `VK_IMAGE_LAYOUT_COLOR_ATTACHMENT_OPTIMAL`. -/
abbrev VK_IMAGE_LAYOUT_COLOR_ATTACHMENT_OPTIMAL : Nat := 2

/-- Image layout `VK_IMAGE_LAYOUT_TRANSFER_SRC_OPTIMAL`. -/
abbrev VK_IMAGE_LAYOUT_TRANSFER_SRC_OPTIMAL : Nat := 6

/-- The length `VK_MAX_MEMORY_TYPES` of the array `memoryTypes`. -/
abbrev VK_MAX_MEMORY_TYPES : Nat := 32

/-- The OpenVR error codes `VROverlayError_None` and `TrackedProp_Success`. -/
abbrev VR_NO_ERROR : Int := 0

/-! ## VulkanRenderer::Initialize, the selections -/

/-- The device loop of lines 120-134. `device_type` is what
`vkGetPhysicalDeviceProperties` reports for a handle, `current` the value of
`vulkan_physical_device_` when the loop reaches the rest of the list: an integrated
GPU is stored and the loop continues, a discrete GPU is stored and the loop ends. -/
def select_physical_device (device_type : Nat → Nat) (current : Nat) : List Nat → Nat
  | [] => current
  | device :: rest =>
    if device_type device = VK_PHYSICAL_DEVICE_TYPE_INTEGRATED_GPU then
      select_physical_device device_type device rest
    else if device_type device = VK_PHYSICAL_DEVICE_TYPE_DISCRETE_GPU then
      device
    else select_physical_device device_type current rest

/-- The queue family loop of lines 150-156, from position `idx` on: the first family
whose flags have the graphics bit is stored, as a `uint32_t`, and the loop ends. -/
def select_queue_family (current : Nat) : Nat → List Nat → Nat
  | _, [] => current
  | idx, queueFlags :: rest =>
    if queueFlags &&& VK_QUEUE_GRAPHICS_BIT ≠ 0 then idx % UINT32_RANGE
    else select_queue_family current (idx + 1) rest

/-! ## VulkanRenderer::SetupWindow, the present mode -/

/-- Lines 317-325: the present mode chosen from the modes the surface advertises.
`std::find(...) != m_modes.end()` is membership in the list. -/
def select_present_mode (m_modes : List Nat) : Nat :=
  let present_mode := VK_PRESENT_MODE_FIFO_KHR
  let mailbox := m_modes.contains VK_PRESENT_MODE_MAILBOX_KHR
  let present_mode := if mailbox then VK_PRESENT_MODE_MAILBOX_KHR else present_mode
  let relaxed := m_modes.contains VK_PRESENT_MODE_FIFO_RELAXED_KHR
  if relaxed ∧ ¬ mailbox then VK_PRESENT_MODE_FIFO_RELAXED_KHR else present_mode

/-! ## VulkanRenderer::SetupOverlay, the memory type -/

/-- The record `VkPhysicalDeviceMemoryProperties`: `memoryTypes` holds the
`propertyFlags` of the entries of the array. -/
structure VkPhysicalDeviceMemoryProperties where
  memoryTypeCount : Nat
  memoryTypes : List Nat
deriving DecidableEq, Repr

/-- The test of line 420 for index `i`:
`(type & (1 << i)) && (memoryTypes[i].propertyFlags & properties) == properties`.
`1 << i` is converted to `uint32_t` for the conjunction with `type`. -/
def memory_type_matches (memory : VkPhysicalDeviceMemoryProperties) (type properties i : Nat) :
    Bool :=
  decide (type &&& ((1 <<< i) % UINT32_RANGE) ≠ 0)
    && decide ((memory.memoryTypes.getD i 0) &&& properties = properties)

/-- The loop of lines 419-423 from index `i` on, with `remaining` iterations left
before `i` reaches `memoryTypeCount`; `none` stands for the `throw` of line 424. -/
def find_memory_type_index_from (memory : VkPhysicalDeviceMemoryProperties)
    (type properties : Nat) : Nat → Nat → Option Nat
  | _, 0 => none
  | i, remaining + 1 =>
    if memory_type_matches memory type properties i then some i
    else find_memory_type_index_from memory type properties (i + 1) remaining

/-- The lambda `find_memory_type_index` of lines 415-425; `memory` is what
`vkGetPhysicalDeviceMemoryProperties` reports. -/
def find_memory_type_index (memory : VkPhysicalDeviceMemoryProperties)
    (type properties : Nat) : Option Nat :=
  find_memory_type_index_from memory type properties 0 memory.memoryTypeCount

/-! ## VulkanRenderer::RenderWindow -/

/-- What `vkAcquireNextImageKHR` hands back during one `RenderWindow` call. -/
structure AcquireDriver where
  /-- The result of `vkAcquireNextImageKHR`. -/
  acquire_result : Int
  /-- The value `window->frame_index` holds after the call. -/
  image_index : Nat
deriving DecidableEq, Repr

/-- Whether a call is a queue submission, with or without semaphores. -/
def Call.is_queue_submit : Call → Bool
  | Call.vkQueueSubmit _ _ _ => true
  | Call.vkQueueSubmit_synchronized _ _ _ _ _ => true
  | _ => false

/-- The queue submissions among the calls, in issue order. -/
def queue_submissions (calls : List Call) : List Call :=
  calls.filter Call.is_queue_submit

/-- Lines 808-841 of `RenderWindow`: the calls that wait for the frame `fd`, record
its command buffer and submit it. -/
def record_and_submit_calls (r : VulkanRenderer) (window : Vulkan_Window)
    (fsd : Vulkan_FrameSemaphore) (fd : Vulkan_Frame) : List Call :=
  [Call.vkWaitForFences r.vulkan_device_ fd.fence,
   Call.vkResetFences r.vulkan_device_ fd.fence,
   Call.vkResetCommandPool r.vulkan_device_ fd.command_pool,
   Call.vkBeginCommandBuffer fd.command_buffer,
   Call.vkCmdBeginRenderingKHR fd.command_buffer fd.backbuffer_view window.width window.height,
   Call.ImGui_ImplVulkan_RenderDrawData fd.command_buffer,
   Call.vkCmdEndRenderingKHR fd.command_buffer,
   Call.vkEndCommandBuffer fd.command_buffer,
   Call.vkQueueSubmit_synchronized r.vulkan_queue_ fsd.image_acquired_semaphore
     fd.command_buffer fsd.render_complete_semaphore fd.fence]

/-- The function `VulkanRenderer::RenderWindow(draw_data, window)`. The calls through
`f_vkCmdBeginRenderingKHR` and `f_vkCmdEndRenderingKHR` and the call into the UI
library appear as one call each. -/
def RenderWindow (d : AcquireDriver) (r : VulkanRenderer) (window : Vulkan_Window) : Outcome :=
  -- lines 742-743
  if window.is_minimized = true then
    { status := Status.returned, renderer := r, window := window, calls := [] }
  else
    -- lines 747-748
    let fsd := window.semaphores.getD window.semaphore_index Vulkan_FrameSemaphore.zero
    -- line 750
    let calls := [Call.vkAcquireNextImageKHR r.vulkan_device_ window.swapchain
      fsd.image_acquired_semaphore]
    let w1 := { window with frame_index := d.image_index }
    -- lines 751-752
    let r1 :=
      if d.acquire_result = VK_ERROR_OUT_OF_DATE_KHR ∨ d.acquire_result = VK_SUBOPTIMAL_KHR then
        { r with should_rebuild_swapchain_ := true }
      else r
    -- lines 753-754
    if d.acquire_result = VK_ERROR_OUT_OF_DATE_KHR then
      { status := Status.returned, renderer := r1, window := w1, calls := calls }
    -- lines 755-756: the `if (e > 0) assert(e);` half of the macro is not under the guard
    else if (VK_VALIDATE_RESULT d.acquire_result).assertion_holds = false then
      { status := Status.assertion_failed, renderer := r1, window := w1, calls := calls }
    else
      -- line 758
      let fd := w1.frames.getD w1.frame_index Vulkan_Frame.zero
      { status := Status.returned, renderer := r1, window := w1,
        calls := calls ++ record_and_submit_calls r w1 fsd fd }

/-! ## VulkanRenderer::SetupOverlay and VulkanRenderer::RenderOverlay -/

/-- The state after a renderer function that works on the offscreen target ran: the
target is the member `vulkan_overlay_` of the renderer. -/
structure OverlayOutcome where
  status : Status
  renderer : VulkanRenderer
  calls : List Call
deriving DecidableEq, Repr

/-- What the driver hands back during `SetupOverlay`. -/
structure OverlayDriver where
  command_pool : Nat
  command_buffer : Nat
  fence : Nat
  queue : Nat
  texture : Nat
  /-- Written by `vkGetPhysicalDeviceMemoryProperties`. -/
  memory_properties : VkPhysicalDeviceMemoryProperties
  /-- The field `memoryTypeBits` written by `vkGetImageMemoryRequirements`. -/
  memoryTypeBits : Nat
  /-- The field `size` written by `vkGetImageMemoryRequirements`. -/
  size : Nat
  texture_memory : Nat
  texture_view : Nat
deriving DecidableEq, Repr

/-- The function `VulkanRenderer::SetupOverlay(width, height, format)`. The exception
of `find_memory_type_index` is not caught here. -/
def SetupOverlay (d : OverlayDriver) (r : VulkanRenderer) (width height : Nat)
    (format : VkSurfaceFormatKHR) : OverlayOutcome :=
  -- lines 342-382
  let o1 := { r.vulkan_overlay_ with
              width := width, height := height, texture_format := format, clear_enable := true,
              command_pool := d.command_pool, command_buffer := d.command_buffer,
              fence := d.fence, queue := d.queue }
  let calls_queue :=
    [Call.vkCreateCommandPool r.vulkan_device_ r.vulkan_queue_family_,
     Call.vkAllocateCommandBuffers r.vulkan_device_ o1.command_pool,
     Call.vkCreateFence r.vulkan_device_,
     Call.vkWaitForFences r.vulkan_device_ o1.fence,
     Call.vkResetFences r.vulkan_device_ o1.fence,
     Call.vkGetDeviceQueue r.vulkan_device_ r.vulkan_queue_family_]
  -- lines 390-428
  let o2 := { o1 with texture := d.texture }
  let calls_image := calls_queue ++
    [Call.vkBeginCommandBuffer o2.command_buffer,
     Call.vkCreateImage r.vulkan_device_ o2.width o2.height o2.texture_format.format,
     Call.vkGetImageMemoryRequirements r.vulkan_device_ o2.texture,
     Call.vkGetPhysicalDeviceMemoryProperties r.vulkan_physical_device_]
  -- lines 430-435
  match find_memory_type_index d.memory_properties (d.memoryTypeBits % UINT32_RANGE)
      VK_MEMORY_PROPERTY_DEVICE_LOCAL_BIT with
  | none =>
    { status := Status.threw, renderer := { r with vulkan_overlay_ := o2 },
      calls := calls_image }
  | some memoryTypeIndex =>
    -- lines 437-500
    let o3 := { o2 with texture_memory := d.texture_memory, texture_view := d.texture_view }
    { status := Status.returned
      renderer := { r with vulkan_overlay_ := o3 }
      calls := calls_image ++
        [Call.vkAllocateMemory r.vulkan_device_ d.size memoryTypeIndex,
         Call.vkBindImageMemory r.vulkan_device_ o3.texture o3.texture_memory,
         Call.vkCreateImageView r.vulkan_device_ o3.texture,
         Call.vkCmdPipelineBarrier o3.command_buffer o3.texture VK_IMAGE_LAYOUT_UNDEFINED
           VK_IMAGE_LAYOUT_COLOR_ATTACHMENT_OPTIMAL,
         Call.vkEndCommandBuffer o3.command_buffer,
         Call.vkQueueSubmit o3.queue o3.command_buffer o3.fence] }

/-- What the compositor answers during one `RenderOverlay` call. -/
structure OverlayTick where
  /-- The answer of `overlay->IsVisible()`. -/
  visible : Bool
  /-- The `EVROverlayError` that `SetOverlayTexture` returns. -/
  set_texture_result : Int
deriving DecidableEq, Repr

/-- The member function `VrOverlay::SetTexture` (VrOverlay.h): it throws a
`std::runtime_error` when the compositor returns an error; `true` means it returned. -/
def SetTexture (set_texture_result : Int) : Bool :=
  if set_texture_result > VR_NO_ERROR then false else true

/-- The background colour `ImVec4(0.45f, 0.55f, 0.60f, 1.00f)` of line 851, each of the
first three components multiplied by the fourth, which is 1. -/
def overlay_background : VkClearValue :=
  { red := 450, green := 550, blue := 600, alpha := 1000 }

/-- Lines 896-945 of `RenderOverlay`: wait for the fence, record the render pass and
the transition to the transfer-source layout, submit. -/
def overlay_render_calls (r : VulkanRenderer) (o : Vulkan_Overlay) : List Call :=
  [Call.vkWaitForFences r.vulkan_device_ o.fence,
   Call.vkResetFences r.vulkan_device_ o.fence,
   Call.vkResetCommandPool r.vulkan_device_ o.command_pool,
   Call.vkBeginCommandBuffer o.command_buffer,
   Call.vkCmdBeginRenderingKHR o.command_buffer o.texture_view o.width o.height,
   Call.ImGui_ImplVulkan_RenderDrawData o.command_buffer,
   Call.vkCmdEndRenderingKHR o.command_buffer,
   Call.vkCmdPipelineBarrier o.command_buffer o.texture
     VK_IMAGE_LAYOUT_COLOR_ATTACHMENT_OPTIMAL VK_IMAGE_LAYOUT_TRANSFER_SRC_OPTIMAL,
   Call.vkEndCommandBuffer o.command_buffer,
   Call.vkQueueSubmit o.queue o.command_buffer o.fence]

/-- Lines 976-1014 of `RenderOverlay`: wait for the fence, record the transition back
to the colour-attachment layout, submit. -/
def overlay_restore_calls (r : VulkanRenderer) (o : Vulkan_Overlay) : List Call :=
  [Call.vkWaitForFences r.vulkan_device_ o.fence,
   Call.vkResetFences r.vulkan_device_ o.fence,
   Call.vkResetCommandPool r.vulkan_device_ o.command_pool,
   Call.vkBeginCommandBuffer o.command_buffer,
   Call.vkCmdPipelineBarrier o.command_buffer o.texture
     VK_IMAGE_LAYOUT_TRANSFER_SRC_OPTIMAL VK_IMAGE_LAYOUT_COLOR_ATTACHMENT_OPTIMAL,
   Call.vkEndCommandBuffer o.command_buffer,
   Call.vkQueueSubmit o.queue o.command_buffer o.fence]

/-- The function `VulkanRenderer::RenderOverlay(draw_data, overlay)`. The exception of
`SetTexture` is caught at lines 971-974, where the function returns. -/
def RenderOverlay (tick : OverlayTick) (r : VulkanRenderer) : OverlayOutcome :=
  -- lines 846-847
  if tick.visible = false then
    { status := Status.returned, renderer := r, calls := [Call.IsOverlayVisible] }
  else
    -- lines 851-856
    let o := { r.vulkan_overlay_ with clear_value := overlay_background }
    let r1 := { r with vulkan_overlay_ := o }
    -- lines 896-969
    let calls := [Call.IsOverlayVisible] ++ overlay_render_calls r1 o
      ++ [Call.SetOverlayTexture o.texture o.width o.height o.texture_format.format]
    if SetTexture tick.set_texture_result = false then
      { status := Status.returned, renderer := r1, calls := calls }
    else
      { status := Status.returned, renderer := r1, calls := calls ++ overlay_restore_calls r1 o }

/-- The outcomes of consecutive `RenderOverlay` calls, one per tick, each starting
from the renderer the previous call left. -/
def RenderOverlay_ticks (r : VulkanRenderer) : List OverlayTick → List OverlayOutcome
  | [] => []
  | tick :: rest =>
    RenderOverlay tick r :: RenderOverlay_ticks (RenderOverlay tick r).renderer rest

/-- The submission of lines 944 and 1013: both name the overlay's queue, command
buffer and fence. -/
def overlay_submission (r : VulkanRenderer) : Call :=
  Call.vkQueueSubmit r.vulkan_overlay_.queue r.vulkan_overlay_.command_buffer
    r.vulkan_overlay_.fence

/-! ## VulkanRenderer::SetupWindow -/

/-- The compile-time switches of the sources. -/
structure Build where
  IMGUI_SDL_PLATFORM_BACKEND : Bool
  ENABLE_VULKAN_VALIDATION : Bool
deriving DecidableEq, Repr

/-- What the driver hands back during `SetupWindow`. -/
structure WindowDriver where
  /-- The `VkBool32` written by `vkGetPhysicalDeviceSurfaceSupportKHR`. -/
  surface_support : Nat
  /-- The modes written by `vkGetPhysicalDeviceSurfacePresentModesKHR`. -/
  present_modes : List Nat
  /-- The answers to the `SetupSwapchain` call at the end. -/
  swapchain : SwapchainDriver

/-- The function `VulkanRenderer::SetupWindow(window, surface, width, height)`. -/
def SetupWindow (build : Build) (d : WindowDriver) (r : VulkanRenderer)
    (window : Vulkan_Window) (surface width height : Nat) : Outcome :=
  -- lines 262-266
  let w1 := { window with surface := surface }
  let calls_support := [Call.vkGetPhysicalDeviceSurfaceSupportKHR r.vulkan_physical_device_
    r.vulkan_queue_family_ w1.surface]
  -- lines 268-271
  if d.surface_support ≠ VK_TRUE then
    { status := Status.exited, renderer := r, window := w1, calls := calls_support }
  else
    -- lines 275-331
    let calls_modes := calls_support ++
      [Call.vkGetPhysicalDeviceSurfacePresentModesKHR r.vulkan_physical_device_ w1.surface,
       Call.vkGetPhysicalDeviceSurfacePresentModesKHR r.vulkan_physical_device_ w1.surface]
    let w2 := { w1 with
                surface_format := { format := VK_FORMAT_R8G8B8A8_SRGB,
                                    colorSpace := VK_COLOR_SPACE_SRGB_NONLINEAR_KHR }
                present_mode := select_present_mode d.present_modes
                clear_enable := true }
    -- lines 333-335
    if build.IMGUI_SDL_PLATFORM_BACKEND = true then
      let rebuilt := SetupSwapchain d.swapchain r w2 width height
      { rebuilt with calls := calls_modes ++ rebuilt.calls }
    else
      { status := Status.returned, renderer := r, window := w2, calls := calls_modes }

/-! ## VulkanRenderer::VulkanRenderer and VulkanRenderer::Initialize -/

/-- The renderer as its constructor leaves it (lines 20-42): every handle null, the
queue family `(uint32_t)-1`. -/
def VulkanRenderer.constructed : VulkanRenderer :=
  { vulkan_instance_ := VK_NULL_HANDLE, vulkan_physical_device_ := VK_NULL_HANDLE,
    vulkan_queue_family_ := UINT32_RANGE - 1, vulkan_allocator_ := 0,
    vulkan_device_ := VK_NULL_HANDLE, vulkan_queue_ := VK_NULL_HANDLE,
    vulkan_descriptor_pool_ := VK_NULL_HANDLE, vulkan_pipeline_cache_ := VK_NULL_HANDLE,
    minimum_concurrent_image_count_ := 0, should_rebuild_swapchain_ := false,
    vulkan_instance_extensions_ := [], vulkan_device_extensions_ := [],
    debug_report_ := VK_NULL_HANDLE, device_list_ := [],
    should_enable_dynamic_rendering_ := false, vulkan_overlay_ := Vulkan_Overlay.zero,
    f_vkCmdBeginRenderingKHR := 0, f_vkCmdEndRenderingKHR := 0 }

/-- The accessors `Instance`, `PhysicalDevice`, `QueueFamily`, `Allocator`, `Device`,
`Queue`, `DescriptorPool` and `PipelineCache` of VulkanRenderer.h, in that order. -/
def VulkanRenderer.accessors (r : VulkanRenderer) : List Nat :=
  [r.vulkan_instance_, r.vulkan_physical_device_, r.vulkan_queue_family_, r.vulkan_allocator_,
   r.vulkan_device_, r.vulkan_queue_, r.vulkan_descriptor_pool_, r.vulkan_pipeline_cache_]

/-- The accessor `PipelineCache()`. -/
def VulkanRenderer.PipelineCache (r : VulkanRenderer) : Nat := r.vulkan_pipeline_cache_

/-- What the driver and the compositor hand back during `Initialize`. -/
structure InitializeDriver where
  /-- The list `GetVulkanInstanceExtensionsRequiredByOpenVR()` returns; `none` when
  that function ends the process. -/
  openvr_instance_extensions : Option (List String)
  /-- Written by `vkCreateInstance`. -/
  vulkan_instance : Nat
  /-- Written by `vkCreateDebugReportCallbackEXT`. -/
  debug_report : Nat
  /-- The handles written by `vkEnumeratePhysicalDevices`. -/
  device_list : List Nat
  /-- The `deviceType` that `vkGetPhysicalDeviceProperties` reports for a handle. -/
  device_type : Nat → Nat
  /-- The `queueFlags` of the queue families of a physical device. -/
  queue_flags : Nat → List Nat
  /-- The list `GetVulkanDeviceExtensionsRequiredByOpenVR(device)` returns; `none` when
  that function ends the process. -/
  openvr_device_extensions : Nat → Option (List String)
  /-- The extension names `vkEnumerateDeviceExtensionProperties` reports for a device. -/
  device_extension_properties : Nat → List String
  /-- Written by `vkCreateDevice`. -/
  device : Nat
  /-- Written by `vkGetDeviceQueue`. -/
  queue : Nat
  /-- Written by `vkCreateDescriptorPool`. -/
  descriptor_pool : Nat
  /-- Returned by `vkGetInstanceProcAddr` for a function name. -/
  proc_addr : String → Nat

/-- The function `IsVulkanDeviceExtensionAvailable` (VulkanUtils.h) on the extension
names the driver reports; `none` stands for its `std::exit`. -/
def IsVulkanDeviceExtensionAvailable (extension_properties : List String)
    (extension : String) : Option Bool :=
  if extension_properties.length > 0 then some (extension_properties.contains extension)
  else none

/-- The physical devices the loop of lines 120-134 queries, in order: it stops after
the first discrete GPU. -/
def queried_devices (device_type : Nat → Nat) : List Nat → List Nat
  | [] => []
  | device :: rest =>
    if device_type device = VK_PHYSICAL_DEVICE_TYPE_INTEGRATED_GPU then
      device :: queried_devices device_type rest
    else if device_type device = VK_PHYSICAL_DEVICE_TYPE_DISCRETE_GPU then [device]
    else device :: queried_devices device_type rest

/-- Lines 191-255 of `Initialize`, after the extension checks passed: the logical
device, its queue and the descriptor pool are created and the two dynamic-rendering
entry points are resolved. -/
def Initialize_objects (d : InitializeDriver) (r : VulkanRenderer) (calls : List Call) :
    OverlayOutcome :=
  -- lines 191-250
  let r1 := { r with
              vulkan_device_extensions_ := (r.vulkan_device_extensions_ ++
                ["VK_KHR_dynamic_rendering", "VK_KHR_depth_stencil_resolve",
                 "VK_KHR_create_renderpass2"])
              vulkan_device_ := d.device
              vulkan_queue_ := d.queue
              vulkan_descriptor_pool_ := d.descriptor_pool }
  let calls_pool := calls ++
    [Call.vkCreateDevice r.vulkan_physical_device_ r.vulkan_queue_family_,
     Call.vkGetDeviceQueue r1.vulkan_device_ r1.vulkan_queue_family_,
     Call.vkCreateDescriptorPool r1.vulkan_device_]
  -- lines 252-253
  let r2 := { r1 with f_vkCmdBeginRenderingKHR := d.proc_addr "vkCmdBeginRenderingKHR" }
  let calls_begin := calls_pool ++
    [Call.vkGetInstanceProcAddr r2.vulkan_instance_ "vkCmdBeginRenderingKHR"]
  if r2.f_vkCmdBeginRenderingKHR = 0 then
    { status := Status.assertion_failed, renderer := r2, calls := calls_begin }
  else
    -- lines 254-255
    let r3 := { r2 with f_vkCmdEndRenderingKHR := d.proc_addr "vkCmdEndRenderingKHR" }
    let calls_end := calls_begin ++
      [Call.vkGetInstanceProcAddr r3.vulkan_instance_ "vkCmdEndRenderingKHR"]
    if r3.f_vkCmdEndRenderingKHR = 0 then
      { status := Status.assertion_failed, renderer := r3, calls := calls_end }
    else
      { status := Status.returned, renderer := r3, calls := calls_end }

/-- Lines 161-256 of `Initialize`, after the queue family assertion passed: `r` holds
the selected physical device and queue family, `calls` the calls issued so far. -/
def Initialize_device (build : Build) (d : InitializeDriver) (r : VulkanRenderer)
    (calls : List Call) : OverlayOutcome :=
  let available := d.device_extension_properties r.vulkan_physical_device_
  let enumerate := Call.vkEnumerateDeviceExtensionProperties r.vulkan_physical_device_
  -- line 168
  match d.openvr_device_extensions r.vulkan_physical_device_ with
  | none => { status := Status.exited, renderer := r, calls := calls }
  | some extensions =>
    let r1 := { r with vulkan_device_extensions_ := extensions }
    -- lines 170-175
    if build.IMGUI_SDL_PLATFORM_BACKEND = true
        ∧ IsVulkanDeviceExtensionAvailable available "VK_KHR_swapchain" ≠ some true then
      { status := Status.exited, renderer := r1, calls := calls ++ [enumerate] }
    else
      let r2 := { r1 with vulkan_device_extensions_ :=
                    (if build.IMGUI_SDL_PLATFORM_BACKEND = true then
                      r1.vulkan_device_extensions_ ++ ["VK_KHR_swapchain"]
                    else r1.vulkan_device_extensions_) }
      -- lines 177-186
      let dynamic_rendering :=
        IsVulkanDeviceExtensionAvailable available "VK_KHR_dynamic_rendering"
      let depth_stencil_resolve :=
        IsVulkanDeviceExtensionAvailable available "VK_KHR_depth_stencil_resolve"
      let create_renderpass2 :=
        IsVulkanDeviceExtensionAvailable available "VK_KHR_create_renderpass2"
      if dynamic_rendering = none ∨ depth_stencil_resolve = none ∨ create_renderpass2 = none then
        { status := Status.exited, renderer := { r2 with should_enable_dynamic_rendering_ := true },
          calls := calls ++ [enumerate] }
      else
        let r3 := { r2 with should_enable_dynamic_rendering_ :=
                      (dynamic_rendering = some true ∧ depth_stencil_resolve = some true
                        ∧ create_renderpass2 = some true : Bool) }
        -- lines 188-189
        if r3.should_enable_dynamic_rendering_ = false then
          { status := Status.exited, renderer := r3, calls := calls ++ [enumerate] }
        else Initialize_objects d r3 (calls ++ [enumerate])

/-- The function `VulkanRenderer::Initialize()`. The extension enumerations behind the
calls of `IsVulkanDeviceExtensionAvailable` appear in the trace as a single call. -/
def Initialize (build : Build) (d : InitializeDriver) (r : VulkanRenderer) : OverlayOutcome :=
  -- line 55
  match d.openvr_instance_extensions with
  | none => { status := Status.exited, renderer := r, calls := [] }
  | some extensions =>
    -- lines 56-79
    let r1 := { r with vulkan_instance_extensions_ := extensions,
                       vulkan_instance_ := d.vulkan_instance }
    -- lines 81-106
    let r2 := { r1 with debug_report_ :=
                  (if build.ENABLE_VULKAN_VALIDATION = true then d.debug_report
                   else r1.debug_report_) }
    let calls_instance := [Call.vkCreateInstance] ++
      (if build.ENABLE_VULKAN_VALIDATION = true then
        [Call.vkGetInstanceProcAddr r1.vulkan_instance_ "vkCreateDebugReportCallbackEXT",
         Call.vkCreateDebugReportCallbackEXT r1.vulkan_instance_] else [])
    -- lines 108-117
    let r3 := { r2 with device_list_ := d.device_list }
    -- lines 120-137
    let r4 := { r3 with vulkan_physical_device_ :=
                  (select_physical_device d.device_type r3.vulkan_physical_device_
                    r3.device_list_) }
    let calls_devices := calls_instance ++
      [Call.vkEnumeratePhysicalDevices r3.vulkan_instance_,
       Call.vkEnumeratePhysicalDevices r3.vulkan_instance_]
      ++ (queried_devices d.device_type r3.device_list_).map Call.vkGetPhysicalDeviceProperties
      ++ [Call.vkGetPhysicalDeviceProperties r4.vulkan_physical_device_]
    -- line 140
    if r4.vulkan_physical_device_ = VK_NULL_HANDLE then
      { status := Status.assertion_failed, renderer := r4, calls := calls_devices }
    else
      -- lines 142-158
      let r5 := { r4 with vulkan_queue_family_ :=
                    (select_queue_family r4.vulkan_queue_family_ 0
                      (d.queue_flags r4.vulkan_physical_device_)) }
      let calls_families := calls_devices ++
        [Call.vkGetPhysicalDeviceQueueFamilyProperties r4.vulkan_physical_device_,
         Call.vkGetPhysicalDeviceQueueFamilyProperties r4.vulkan_physical_device_]
      -- line 159
      if r5.vulkan_queue_family_ = UINT32_RANGE - 1 then
        { status := Status.assertion_failed, renderer := r5, calls := calls_families }
      else Initialize_device build d r5 calls_families

/-! ## Main.cpp: the refresh rate and the frame pacer -/

/-- The initial value `24.0f` of `g_hmd_refresh_rate`. A `float` is the rational
number it stands for; infinities and NaN are left out. -/
abbrev DEFAULT_REFRESH_RATE : ℚ := 24

/-- What the compositor answers during `UpdateApplicationRefreshRate`. -/
structure HmdDriver where
  /-- The answer of `IsTrackedDeviceConnected`. -/
  connected : Bool
  /-- The `ETrackedPropertyError` written by `GetFloatTrackedDeviceProperty`. -/
  property_error : Int
  /-- The value `GetFloatTrackedDeviceProperty` returns. -/
  display_frequency : ℚ
deriving DecidableEq, Repr

/-- The member function `VrTrackedDeviceProperties::CheckConnection` (VrUtils.h): it
throws a `std::runtime_error` when the device is not connected; `true` means it
returned. -/
def CheckConnection (d : HmdDriver) : Bool := d.connected

/-- The member function `VrTrackedDeviceProperties::GetFloat` (VrUtils.h); `none`
stands for the `std::runtime_error` it throws on an error code. -/
def GetFloat (d : HmdDriver) : Option ℚ :=
  if d.property_error > VR_NO_ERROR then none else some d.display_frequency

/-- The process state after `UpdateApplicationRefreshRate`. -/
structure RefreshOutcome where
  status : Status
  g_hmd_refresh_rate : ℚ
deriving DecidableEq, Repr

/-- The handler of lines 70-74 of Main.cpp. -/
def refresh_rate_unavailable (g_hmd_refresh_rate : ℚ) : RefreshOutcome :=
  if g_hmd_refresh_rate = DEFAULT_REFRESH_RATE then
    { status := Status.exited, g_hmd_refresh_rate := g_hmd_refresh_rate }
  else { status := Status.returned, g_hmd_refresh_rate := g_hmd_refresh_rate }

/-- The function `UpdateApplicationRefreshRate` of Main.cpp. -/
def UpdateApplicationRefreshRate (d : HmdDriver) (g_hmd_refresh_rate : ℚ) : RefreshOutcome :=
  if CheckConnection d = false then refresh_rate_unavailable g_hmd_refresh_rate
  else
    match GetFloat d with
    | none => refresh_rate_unavailable g_hmd_refresh_rate
    | some value => { status := Status.returned, g_hmd_refresh_rate := value }

/-- The number of values of a `uint64_t`. -/
abbrev UINT64_RANGE : Nat := 2 ^ 64

/-- The number `⌊log₂ n⌋` for `n ≥ 1`, by halving; `fuel ≥ n` is enough. -/
def floor_log2 : Nat → Nat → Nat
  | 0, _ => 0
  | fuel + 1, n => if n < 2 then 0 else floor_log2 fuel (n / 2) + 1

/-- The exponent `e` with `2 ^ e ≤ N / D < 2 ^ (e + 1)`, for positive `N` and `D`. -/
def binary_exponent (N D : Nat) : Int :=
  if D ≤ N then (floor_log2 (N / D) (N / D) : Int)
  else
    let t := floor_log2 (D / N) (D / N)
    if N * 2 ^ t = D then -(t : Int) else -((t : Int) + 1)

/-- The single-precision value nearest to the positive quotient `N / D`, ties to the
even significand, as the pair of its 24-bit significand and the exponent of its last
place: the pair `(n, x)` is the number `n * 2 ^ x`. -/
def round_to_float (N D : Nat) : Nat × Int :=
  let e := binary_exponent N D
  let numerator := N * 2 ^ (23 - e).toNat
  let denominator := D * 2 ^ (e - 23).toNat
  let low := numerator / denominator
  let rest := numerator % denominator
  let significand :=
    if 2 * rest < denominator then low
    else if denominator < 2 * rest then low + 1
    else if low % 2 = 0 then low else low + 1
  (significand, e - 23)

/-- The conversion `static_cast<uint64_t>` of the non-negative float `n * 2 ^ x`: the
fraction is dropped; `none` when the value does not fit, where C++ leaves the
conversion undefined. -/
def float_to_uint64 (value : Nat × Int) : Option Nat :=
  let truncated := value.1 * 2 ^ value.2.toNat / 2 ^ (-value.2).toNat
  if truncated < UINT64_RANGE then some truncated else none

/-- Line 305 of Main.cpp:
`static_cast<uint64_t>(static_cast<float>(1000000000) / g_hmd_refresh_rate)`; the
dividend is a float exactly. A rate that is not positive gives no defined value. -/
def target_time (g_hmd_refresh_rate : ℚ) : Option Nat :=
  if g_hmd_refresh_rate.num ≤ 0 then none
  else float_to_uint64
    (round_to_float (1000000000 * g_hmd_refresh_rate.den) g_hmd_refresh_rate.num.toNat)

/-- Line 306: `SDL_GetTicksNS() - g_last_frame_time` in `uint64_t` arithmetic. -/
def frame_duration (now g_last_frame_time : Nat) : Nat :=
  (now + UINT64_RANGE - g_last_frame_time) % UINT64_RANGE

/-- Lines 308-310: the argument of `SDL_DelayPrecise`, in `uint64_t` arithmetic;
`none` when the call is not made. -/
def frame_delay (target frame_duration : Nat) : Option Nat :=
  if frame_duration < target then
    some ((target + UINT64_RANGE - frame_duration) % UINT64_RANGE)
  else none

/-- Lines 305-310: one pass of the frame pacer; the outer `none` stands for a target
time without defined value. -/
def frame_pacer (g_hmd_refresh_rate : ℚ) (now g_last_frame_time : Nat) : Option (Option Nat) :=
  (target_time g_hmd_refresh_rate).map
    (fun target => frame_delay target (frame_duration now g_last_frame_time))

/-! ## VulkanUtils.h: the extensions the compositor asks for -/

/-- The space character, the delimiter of the extension lists. -/
abbrev SPACE : Char := Char.ofNat 32

/-- The characters of the C string that starts in a buffer: those before the first
NUL. -/
def c_string (buffer : List Char) : List Char :=
  buffer.takeWhile (fun c => c ≠ Char.ofNat 0)

/-- The loop `while (std::getline(token_stream, token, ' '))` on the characters left
in the stream, `token` being what the running `getline` has extracted so far. A space
ends the token, which may be empty, and is dropped; at the end of the stream a
`getline` that extracted characters yields a last token, one that extracted nothing
fails and ends the loop. -/
def getline_tokens : List Char → List Char → List String
  | [], token => if token = [] then [] else [String.mk token]
  | c :: rest, token =>
    if c = SPACE then String.mk token :: getline_tokens rest []
    else getline_tokens rest (token ++ [c])

/-- The function `IsVulkanInstanceExtensionAvailable` on the extension names
`vkEnumerateInstanceExtensionProperties` reports; `none` stands for its `std::exit`. -/
def IsVulkanInstanceExtensionAvailable (extension_properties : List String)
    (extension : String) : Option Bool :=
  if extension_properties.length > 0 then some (extension_properties.contains extension)
  else none

/-- What the compositor and the driver answer during
`GetVulkanInstanceExtensionsRequiredByOpenVR` or its device counterpart. -/
structure ExtensionDriver where
  /-- Whether `vr::VRCompositor()` is not null. -/
  compositor : Bool
  /-- The length the compositor returns for the null buffer. -/
  buffer_len : Nat
  /-- The characters the compositor writes into a buffer with room for them. -/
  extensions : List Char
  /-- The extension names the Vulkan driver reports. -/
  extension_properties : List String
deriving DecidableEq, Repr

/-- The body of the `while` loop of lines 91-98 and 122-129 over the tokens still to
come: an available token is pushed onto `result`, any other ends the process
(`none`), either in the availability test or in the `else` branch. -/
def collect_extensions (available : String → Option Bool) :
    List String → List String → Option (List String)
  | [], result => some result
  | token :: rest, result =>
    if available token = some true then
      collect_extensions available rest (result ++ [token])
    else none

/-- The function `GetVulkanInstanceExtensionsRequiredByOpenVR`; `none` stands for
`std::exit`. The buffer has `buffer_len + 1` zeroed characters, of which the
compositor fills at most `buffer_len`; the stream reads it as a C string. -/
def GetVulkanInstanceExtensionsRequiredByOpenVR (d : ExtensionDriver) : Option (List String) :=
  -- lines 77-80
  if d.compositor = false then none
  -- lines 82-98
  else if d.buffer_len > 0 then
    collect_extensions (IsVulkanInstanceExtensionAvailable d.extension_properties)
      (getline_tokens (c_string (d.extensions.take d.buffer_len)) []) []
  -- lines 99-101
  else none

/-- The function `GetVulkanDeviceExtensionsRequiredByOpenVR(device)`, on the answers
for that device; `none` stands for `std::exit`. -/
def GetVulkanDeviceExtensionsRequiredByOpenVR (d : ExtensionDriver) : Option (List String) :=
  -- lines 110-112
  if d.compositor = false then none
  -- lines 114-129
  else if d.buffer_len > 0 then
    collect_extensions (IsVulkanDeviceExtensionAvailable d.extension_properties)
      (getline_tokens (c_string (d.extensions.take d.buffer_len)) []) []
  -- lines 130-132
  else none

/-! ## Sequences of renderer calls -/

/-- Consecutive `Present` calls, one per result of `vkQueuePresentKHR`, each on the
state the previous call left. -/
def Present_sequence (r : VulkanRenderer) (window : Vulkan_Window) :
    List Int → VulkanRenderer × Vulkan_Window
  | [] => (r, window)
  | present_result :: rest =>
    Present_sequence (Present present_result r window).renderer
      (Present present_result r window).window rest

/-- One later `SetupSwapchain` call: the answers of the driver, the present mode the
window has by then, and the size asked for. -/
structure SwapchainRebuild where
  driver : SwapchainDriver
  present_mode : Nat
  width : Nat
  height : Nat

/-- Consecutive `SetupSwapchain` calls, each on the state the previous call left,
with the window's present mode set to the one of the call. -/
def SetupSwapchain_sequence (r : VulkanRenderer) (window : Vulkan_Window) :
    List SwapchainRebuild → VulkanRenderer × Vulkan_Window
  | [] => (r, window)
  | call :: rest =>
    SetupSwapchain_sequence
      (SetupSwapchain call.driver r { window with present_mode := call.present_mode }
        call.width call.height).renderer
      (SetupSwapchain call.driver r { window with present_mode := call.present_mode }
        call.width call.height).window rest

/-- One call of the window path of the main loop. -/
inductive WindowStep where
  | SetupSwapchain (d : SwapchainDriver) (width height : Nat)
  | RenderWindow (d : AcquireDriver)
  | Present (present_result : Int)

/-- The renderer function a step calls. -/
def run_window_step (r : VulkanRenderer) (window : Vulkan_Window) : WindowStep → Outcome
  | WindowStep.SetupSwapchain d width height => SetupSwapchain d r window width height
  | WindowStep.RenderWindow d => RenderWindow d r window
  | WindowStep.Present present_result => Present present_result r window

/-- An interleaving of `SetupSwapchain`, `RenderWindow` and `Present` calls, each on the
state the previous call left; the run ends at the first call that does not return.
The calls of all steps are collected in order. -/
def run_window_steps (r : VulkanRenderer) (window : Vulkan_Window) : List WindowStep → Outcome
  | [] => { status := Status.returned, renderer := r, window := window, calls := [] }
  | step :: rest =>
    let o := run_window_step r window step
    if o.status = Status.returned then
      let later := run_window_steps o.renderer o.window rest
      { later with calls := o.calls ++ later.calls }
    else o

/-! ## The layout of the offscreen image -/

/-- The layout of `image` after the barriers among the calls took effect in order,
when it was `layout` before: a barrier on the image leaves it in its `newLayout`. -/
def image_layout_after (image : Nat) : Nat → List Call → Nat
  | layout, [] => layout
  | layout, Call.vkCmdPipelineBarrier _ barrier_image _ newLayout :: rest =>
    image_layout_after image (if barrier_image = image then newLayout else layout) rest
  | layout, _ :: rest => image_layout_after image layout rest

/-- The layouts `image` is in at the calls of `vkCmdBeginRenderingKHR` on the
attachment `view` among the calls, in order, when it was `layout` before them. -/
def render_pass_layouts (image view : Nat) : Nat → List Call → List Nat
  | _, [] => []
  | layout, Call.vkCmdPipelineBarrier _ barrier_image _ newLayout :: rest =>
    render_pass_layouts image view (if barrier_image = image then newLayout else layout) rest
  | layout, Call.vkCmdBeginRenderingKHR _ attachment _ _ :: rest =>
    if attachment = view then layout :: render_pass_layouts image view layout rest
    else render_pass_layouts image view layout rest
  | layout, _ :: rest => render_pass_layouts image view layout rest

/-- The calls of `SetupOverlay` followed by those of one `RenderOverlay` call per tick,
each on the renderer the previous call left. -/
def overlay_session_calls (d : OverlayDriver) (r : VulkanRenderer) (width height : Nat)
    (format : VkSurfaceFormatKHR) (ticks : List OverlayTick) : List Call :=
  (SetupOverlay d r width height format).calls
    ++ (RenderOverlay_ticks (SetupOverlay d r width height format).renderer ticks).flatMap
        (fun o => o.calls)

/-! ## backends/imgui_impl_openvr.cpp -/

/-- The bit `vr::VRMouseButton_Left` of openvr.h. -/
abbrev VRMouseButton_Left : Nat := 1

/-- The bit `vr::VRMouseButton_Right` of openvr.h. -/
abbrev VRMouseButton_Right : Nat := 2

/-- The bit `vr::VRMouseButton_Middle` of openvr.h. -/
abbrev VRMouseButton_Middle : Nat := 4

/-- The button `ImGuiMouseButton_Left` of imgui.h. -/
abbrev ImGuiMouseButton_Left : Nat := 0

/-- The button `ImGuiMouseButton_Right` of imgui.h. -/
abbrev ImGuiMouseButton_Right : Nat := 1

/-- The button `ImGuiMouseButton_Middle` of imgui.h. -/
abbrev ImGuiMouseButton_Middle : Nat := 2

/-- The count `ImGuiMouseButton_COUNT` of imgui.h. -/
abbrev ImGuiMouseButton_COUNT : Nat := 5

/-- The keys of imgui.h that the backend sends. -/
inductive ImGuiKey where
  | Backspace
  | Enter
  | LeftArrow
  | RightArrow
  | UpArrow
  | DownArrow
deriving DecidableEq, Repr

/-- The events `vr::VREvent_t` that `ImGui_ImplOpenVR_ProcessOverlayEvent` tells
apart by `eventType`, each with the part of `event.data` that its case reads; every
other event type is `other`. A `float` is the rational number it stands for. -/
inductive VREvent where
  | MouseMove (x y : ℚ)
  | MouseButtonDown (button : Nat)
  | MouseButtonUp (button : Nat)
  | ScrollDiscrete (ydelta : ℚ)
  | ScrollSmooth (ydelta : ℚ)
  | KeyboardCharInput (cNewInput : List Nat)
  | KeyboardClosed_Global (overlayHandle : Nat)
  | other (eventType : Nat)
deriving DecidableEq, Repr

/-- The calls the backend makes into the UI library (`io.Add...`) and into the
compositor (`vr::VROverlay()->...`). The flipped coordinate
`io.DisplaySize.y - event.data.mouse.y` of a mouse move is recorded by its two
operands, the second argument of `AddMouseWheelEvent` alone is recorded (the first is
`0.0f`), and `SetOverlayMouseScale` by the two sizes the scale is converted from. -/
inductive BackendCall where
  | AddMousePosEvent (x : ℚ) (display_height : Nat) (y : ℚ)
  | AddMouseButtonEvent (mouse_button : Nat) (down : Bool)
  | AddMouseWheelEvent (y : ℚ)
  | AddKeyEvent (key : ImGuiKey) (down : Bool)
  | AddInputCharactersUTF8 (text : List Nat)
  | HideKeyboard
  | IsOverlayVisible (handle : Nat)
  | ShowKeyboardForOverlay (handle : Nat)
  | SetOverlayMouseScale (handle width height : Nat)
deriving DecidableEq, Repr

/-- The record `ImGui_ImplOpenVR_Data`. The member `mouse_scale` holds the two sizes its
floats are converted from. -/
structure ImGui_ImplOpenVR_Data where
  handle : Nat
  width : Nat
  height : Nat
  keyboard_active : Bool
  ticks_per_second : Nat
  time : Nat
  mouse_scale : Nat × Nat
deriving DecidableEq, Repr

/-- The record after its constructor ran `memset((void*)this, 0, sizeof(*this))`. -/
def ImGui_ImplOpenVR_Data.zero : ImGui_ImplOpenVR_Data :=
  { handle := 0, width := 0, height := 0, keyboard_active := false, ticks_per_second := 0,
    time := 0, mouse_scale := (0, 0) }

/-- The record `ImGui_ImplOpenVR_InitInfo`; `width` and `height` are `int`. -/
structure ImGui_ImplOpenVR_InitInfo where
  handle : Nat
  width : Int
  height : Int
deriving DecidableEq, Repr

/-- The platform the backend is compiled for and what its clock answers during
`ImGui_ImplOpenVR_Init`: with `_WIN32` defined, the values written by
`QueryPerformanceFrequency` and `QueryPerformanceCounter`, `none` when the call
fails. -/
structure BackendPlatform where
  WIN32 : Bool
  perf_frequency : Option Nat
  current_time : Option Nat
deriving DecidableEq, Repr

/-- The function `ImGui_ImplOpenVR_Init(initInfo)`, called with no platform backend
installed yet: the value it returns and the backend data it installs in
`io.BackendPlatformUserData`. The conversions of `width` and `height` to `uint32_t`
are written out. -/
def ImGui_ImplOpenVR_Init (platform : BackendPlatform) (initInfo : ImGui_ImplOpenVR_InitInfo) :
    Bool × ImGui_ImplOpenVR_Data :=
  -- lines 59-67
  let bd := { ImGui_ImplOpenVR_Data.zero with
              handle := initInfo.handle
              width := (initInfo.width % (UINT32_RANGE : Int)).toNat
              height := (initInfo.height % (UINT32_RANGE : Int)).toNat
              keyboard_active := false }
  -- lines 69-81
  if platform.WIN32 = true then
    match platform.perf_frequency, platform.current_time with
    | some perf_frequency, some current_time =>
      (true, { bd with ticks_per_second := perf_frequency, time := current_time })
    | _, _ => (false, bd)
  else (true, bd)

/-- The test `mask && (mask & (mask - 1))` of lines 101-105 and 128-130 on
`event.data.mouse.button`, in `uint64_t` arithmetic: more than one of the three
button bits is set. -/
def more_than_one_button (button : Nat) : Bool :=
  let mask := button &&& (VRMouseButton_Left ||| VRMouseButton_Right ||| VRMouseButton_Middle)
  decide (mask ≠ 0) && decide (mask &&& ((mask + UINT64_RANGE - 1) % UINT64_RANGE) ≠ 0)

/-- The local `mouse_button` of lines 109-120 and 134-141. -/
def mouse_button (button : Nat) : Nat :=
  if button &&& VRMouseButton_Left ≠ 0 then ImGuiMouseButton_Left
  else if button &&& VRMouseButton_Right ≠ 0 then ImGuiMouseButton_Right
  else if button &&& VRMouseButton_Middle ≠ 0 then ImGuiMouseButton_Middle
  else ImGuiMouseButton_COUNT

/-- The cases `VREvent_MouseButtonDown` (`down = true`) and `VREvent_MouseButtonUp` of
the switch: the calls made before the `break`. -/
def mouse_button_event (button : Nat) (down : Bool) : List BackendCall :=
  if more_than_one_button button = true then []
  else if mouse_button button < ImGuiMouseButton_COUNT then
    [BackendCall.AddMouseButtonEvent (mouse_button button) down]
  else []

/-- A key pressed and released. -/
def key_stroke (key : ImGuiKey) : List BackendCall :=
  [BackendCall.AddKeyEvent key true, BackendCall.AddKeyEvent key false]

/-- The case `VREvent_KeyboardCharInput` of the switch (lines 158-217), on the bytes of
`event.data.keyboard.cNewInput`. -/
def keyboard_char_input (cNewInput : List Nat) : List BackendCall :=
  let first := cNewInput.getD 0 0
  if first = 8 then key_stroke ImGuiKey.Backspace
  else if first = 10 then key_stroke ImGuiKey.Enter ++ [BackendCall.HideKeyboard]
  else if first = 27 then
    let direction := cNewInput.getD 2 0
    if direction = 68 then key_stroke ImGuiKey.LeftArrow
    else if direction = 67 then key_stroke ImGuiKey.RightArrow
    else if direction = 65 then key_stroke ImGuiKey.UpArrow
    else if direction = 66 then key_stroke ImGuiKey.DownArrow
    else []
  else [BackendCall.AddInputCharactersUTF8 cNewInput]

/-- The function `ImGui_ImplOpenVR_ProcessOverlayEvent(event)` on the backend data
`bd`: the value it returns and the calls it makes. `display_height` is the size
`io.DisplaySize.y` was converted from, `vr_overlay` whether `vr::VROverlay()` is not
null. The function does not write to the backend data. -/
def ImGui_ImplOpenVR_ProcessOverlayEvent (bd : ImGui_ImplOpenVR_Data) (display_height : Nat)
    (vr_overlay : Bool) : VREvent → Bool × List BackendCall
  -- lines 92-98
  | VREvent.MouseMove x y => (true, [BackendCall.AddMousePosEvent x display_height y])
  -- lines 99-125
  | VREvent.MouseButtonDown button => (true, mouse_button_event button true)
  -- lines 126-146
  | VREvent.MouseButtonUp button => (true, mouse_button_event button false)
  -- lines 147-157
  | VREvent.ScrollDiscrete ydelta =>
    (true, if ydelta ≠ 0 then [BackendCall.AddMouseWheelEvent ydelta] else [])
  | VREvent.ScrollSmooth ydelta =>
    (true, if ydelta ≠ 0 then [BackendCall.AddMouseWheelEvent ydelta] else [])
  -- lines 158-217
  | VREvent.KeyboardCharInput cNewInput => (true, keyboard_char_input cNewInput)
  -- lines 218-231
  | VREvent.KeyboardClosed_Global overlayHandle =>
    if vr_overlay = false then (false, [])
    else if overlayHandle = bd.handle ∧ bd.keyboard_active = true then
      (true, key_stroke ImGuiKey.Enter ++ [BackendCall.HideKeyboard])
    else (true, [])
  | VREvent.other _ => (true, [])

/-- What the UI library, the compositor and the clock answer during one
`ImGui_ImplOpenVR_NewFrame` call. -/
structure FrameInput where
  /-- The flag `io.WantTextInput`. -/
  WantTextInput : Bool
  /-- The answer of `IsOverlayVisible(bd->handle)`. -/
  overlay_visible : Bool
  /-- The clock reading that `ImGui_ImplOpenVR_GetDeltaTime` stores in `bd->time`. -/
  current_time : Nat
deriving DecidableEq, Repr

/-- The state after `ImGui_ImplOpenVR_NewFrame`: the backend data, the sizes
`io.DisplaySize` was converted from, and the compositor calls. The values of
`io.DisplayFramebufferScale` and `io.DeltaTime` are not tracked. -/
structure FrameOutcome where
  bd : ImGui_ImplOpenVR_Data
  DisplaySize : Nat × Nat
  calls : List BackendCall
deriving DecidableEq, Repr

/-- The function `ImGui_ImplOpenVR_NewFrame()` on the backend data `bd`. The
visibility query is the first operand of the `&&` of line 281, so it is made on every
call. -/
def ImGui_ImplOpenVR_NewFrame (input : FrameInput) (bd : ImGui_ImplOpenVR_Data) : FrameOutcome :=
  -- lines 277-279
  let bd1 := { bd with keyboard_active :=
                 (if input.WantTextInput = false then false else bd.keyboard_active) }
  -- lines 281-283
  let calls_keyboard := [BackendCall.IsOverlayVisible bd1.handle] ++
    (if input.overlay_visible = true ∧ bd1.keyboard_active = false
        ∧ input.WantTextInput = true then
      [BackendCall.ShowKeyboardForOverlay bd1.handle] else [])
  -- lines 285-290
  let bd2 := { bd1 with mouse_scale :=
                 (if bd1.width > 0 ∧ bd1.height > 0 then (bd1.width, bd1.height)
                  else bd1.mouse_scale) }
  let calls_scale := calls_keyboard ++
    (if bd1.width > 0 ∧ bd1.height > 0 then
      [BackendCall.SetOverlayMouseScale bd2.handle bd2.width bd2.height] else [])
  -- line 292
  { bd := { bd2 with time := input.current_time }
    DisplaySize := (bd2.width, bd2.height)
    calls := calls_scale }

/-- One call into the backend after `ImGui_ImplOpenVR_Init`. -/
inductive BackendStep where
  | NewFrame (input : FrameInput)
  | ProcessOverlayEvent (display_height : Nat) (vr_overlay : Bool) (event : VREvent)
deriving DecidableEq, Repr

/-- The backend data after a step: `ImGui_ImplOpenVR_ProcessOverlayEvent` leaves it as
it is. -/
def run_backend_step (bd : ImGui_ImplOpenVR_Data) : BackendStep → ImGui_ImplOpenVR_Data
  | BackendStep.NewFrame input => (ImGui_ImplOpenVR_NewFrame input bd).bd
  | BackendStep.ProcessOverlayEvent _ _ _ => bd

/-- The backend data after a sequence of steps. -/
def run_backend_steps (bd : ImGui_ImplOpenVR_Data) : List BackendStep → ImGui_ImplOpenVR_Data
  | [] => bd
  | step :: rest => run_backend_steps (run_backend_step bd step) rest

/-! ## Concrete inputs -/

/-- A renderer as `Initialize` leaves it: handles set, no image count latched yet, no
rebuild pending. -/
def example_renderer : VulkanRenderer :=
  { vulkan_instance_ := 1, vulkan_physical_device_ := 2, vulkan_queue_family_ := 0,
    vulkan_allocator_ := 0, vulkan_device_ := 3, vulkan_queue_ := 4,
    vulkan_descriptor_pool_ := 5, vulkan_pipeline_cache_ := 6,
    minimum_concurrent_image_count_ := 0, should_rebuild_swapchain_ := false }

/-- A window as `SetupWindow` hands it to `SetupSwapchain` the first time: zeroed by
its constructor, then given a surface, the RGBA surface format and a present mode. -/
def example_window (present_mode : Nat) : Vulkan_Window :=
  { width := 0, height := 0, swapchain := VK_NULL_HANDLE, surface := 9,
    surface_format := { format := 37, colorSpace := 0 }, present_mode := present_mode,
    render_pass := VK_NULL_HANDLE, pipeline := VK_NULL_HANDLE, clear_enable := true,
    frame_index := 0, image_count := 0, semaphore_count := 0, semaphore_index := 0,
    frames := [], semaphores := [], is_minimized := false }

/-- A window that already holds swapchain 7 with two images and three semaphore
pairs, presenting in FIFO mode. -/
def example_rebuilt_window : Vulkan_Window :=
  { width := 640, height := 480, swapchain := 7, surface := 9,
    surface_format := { format := 37, colorSpace := 0 },
    present_mode := VK_PRESENT_MODE_FIFO_KHR,
    render_pass := VK_NULL_HANDLE, pipeline := VK_NULL_HANDLE, clear_enable := true,
    frame_index := 1, image_count := 2, semaphore_count := 3, semaphore_index := 1,
    frames := [⟨41, 51, 61, 71, 81, 0⟩, ⟨42, 52, 62, 72, 82, 0⟩],
    semaphores := [⟨21, 22⟩, ⟨23, 24⟩, ⟨25, 26⟩], is_minimized := false }

/-- A driver that reports the given image count limits and current extent, returns
`create_result` from `vkCreateSwapchainKHR` and reports `image_count` images. -/
def example_driver (surfaceMin surfaceMax extent_width extent_height : Nat)
    (create_result : Int) (swapchain image_count : Nat) : SwapchainDriver :=
  { surface_capabilities :=
      { minImageCount := surfaceMin, maxImageCount := surfaceMax,
        currentExtent_width := extent_width, currentExtent_height := extent_height,
        supportedTransforms := 1, currentTransform := 1 }
    create_result := create_result
    swapchain := swapchain
    image_count := image_count
    images := fun idx => 100 + idx
    semaphores := fun idx => ⟨200 + 2 * idx, 201 + 2 * idx⟩
    image_views := fun idx => 300 + idx
    command_pools := fun idx => 400 + idx
    command_buffers := fun idx => 500 + idx
    fences := fun idx => 600 + idx }

/-- A surface that allows exactly two images, with a chain of two images. -/
def driver_two_images_only : SwapchainDriver := example_driver 2 2 800 600 VK_SUCCESS 11 2

/-- A surface that reports `maxImageCount = 0`, the Vulkan encoding of "no upper
limit", with a chain of two images. -/
def driver_no_image_limit : SwapchainDriver := example_driver 2 0 800 600 VK_SUCCESS 11 2

/-- A surface that needs at least sixteen images. -/
def driver_sixteen_images : SwapchainDriver := example_driver 16 32 800 600 VK_SUCCESS 11 16

/-- A surface with between two and eight images whose chain has three images. -/
def driver_three_images : SwapchainDriver := example_driver 2 8 800 600 VK_SUCCESS 11 3

/-- A surface that reports the undefined extent `(0xffffffff, 0xffffffff)`. -/
def driver_undefined_extent : SwapchainDriver :=
  example_driver 2 8 UNDEFINED_EXTENT UNDEFINED_EXTENT VK_SUCCESS 11 3

/-- The renderer after an earlier FIFO swapchain build, with a rebuild pending. -/
def example_latched_renderer : VulkanRenderer :=
  { example_renderer with minimum_concurrent_image_count_ := 2, should_rebuild_swapchain_ := true }

/-- The renderer between rebuilds: the FIFO minimum latched, no rebuild pending. -/
def example_idle_renderer : VulkanRenderer :=
  { example_renderer with minimum_concurrent_image_count_ := 2 }

/-- A window on a three-image chain with four semaphore pairs, about to present
image 1 with the last semaphore pair. -/
def example_presenting_window : Vulkan_Window :=
  { width := 800, height := 600, swapchain := 11, surface := 9,
    surface_format := { format := 37, colorSpace := 0 },
    present_mode := VK_PRESENT_MODE_FIFO_KHR,
    render_pass := VK_NULL_HANDLE, pipeline := VK_NULL_HANDLE, clear_enable := true,
    frame_index := 1, image_count := 3, semaphore_count := 4, semaphore_index := 3,
    frames := [⟨400, 500, 600, 100, 300, 0⟩, ⟨401, 501, 601, 101, 301, 0⟩,
      ⟨402, 502, 602, 102, 302, 0⟩],
    semaphores := [⟨200, 201⟩, ⟨202, 203⟩, ⟨204, 205⟩, ⟨206, 207⟩], is_minimized := false }

/-- An acquire that reports `VK_ERROR_OUT_OF_DATE_KHR`. -/
def acquire_out_of_date : AcquireDriver :=
  { acquire_result := VK_ERROR_OUT_OF_DATE_KHR, image_index := 1 }

/-- An acquire that hands out image 1 with `VK_SUBOPTIMAL_KHR`. -/
def acquire_suboptimal : AcquireDriver :=
  { acquire_result := VK_SUBOPTIMAL_KHR, image_index := 1 }

/-- An acquire that hands out image 1 with `VK_SUCCESS`. -/
def acquire_success : AcquireDriver :=
  { acquire_result := VK_SUCCESS, image_index := 1 }

/-- A renderer whose offscreen target has been set up at 1280 by 720. -/
def example_overlay_renderer : VulkanRenderer :=
  { example_idle_renderer with
    vulkan_overlay_ :=
      { width := 1280, height := 720,
        texture_format := { format := VK_FORMAT_R8G8B8A8_SRGB, colorSpace := 0 },
        command_pool := 31, command_buffer := 32, fence := 33, texture := 34,
        texture_view := 35, texture_memory := 36, queue := 4, clear_enable := true,
        clear_value := { red := 0, green := 0, blue := 0, alpha := 0 } } }

/-- A tick on which the overlay is visible and the compositor refuses the texture
with error code 10. -/
def tick_handoff_fails : OverlayTick := { visible := true, set_texture_result := 10 }

/-- A tick on which the overlay is visible and the compositor takes the texture. -/
def tick_visible : OverlayTick := { visible := true, set_texture_result := 0 }

/-- The compile-time switches of the desktop build. -/
def example_build : Build :=
  { IMGUI_SDL_PLATFORM_BACKEND := true, ENABLE_VULKAN_VALIDATION := false }

/-- A machine whose device list is an integrated GPU (handle 10) followed by a
discrete GPU (handle 20), with every required extension and entry point. -/
def example_initialize_driver : InitializeDriver :=
  { openvr_instance_extensions := some ["VK_KHR_surface"]
    vulkan_instance := 1
    debug_report := 0
    device_list := [10, 20]
    device_type := fun device =>
      if device = 10 then VK_PHYSICAL_DEVICE_TYPE_INTEGRATED_GPU
      else if device = 20 then VK_PHYSICAL_DEVICE_TYPE_DISCRETE_GPU else 0
    queue_flags := fun _ => [2, 1]
    openvr_device_extensions := fun _ => some []
    device_extension_properties := fun _ =>
      ["VK_KHR_swapchain", "VK_KHR_dynamic_rendering", "VK_KHR_depth_stencil_resolve",
       "VK_KHR_create_renderpass2"]
    device := 3
    queue := 4
    descriptor_pool := 5
    proc_addr := fun _ => 77 }

/-- A surface that the queue family can present to and that advertises FIFO, relaxed
FIFO and immediate presentation, on the driver of the three-image chain. -/
def example_window_driver : WindowDriver :=
  { surface_support := VK_TRUE
    present_modes := [VK_PRESENT_MODE_FIFO_KHR, VK_PRESENT_MODE_FIFO_RELAXED_KHR,
      VK_PRESENT_MODE_IMMEDIATE_KHR]
    swapchain := driver_three_images }

/-- The same machine with two integrated GPUs (handles 10 and 20) and no discrete
one. -/
def two_integrated_driver : InitializeDriver :=
  { example_initialize_driver with
    device_type := fun device =>
      if device = 10 ∨ device = 20 then VK_PHYSICAL_DEVICE_TYPE_INTEGRATED_GPU else 0 }

/-- A memory table with three types: host-visible (flags 6), device-local (flags 1)
and device-local host-visible (flags 7). -/
def example_memory_properties : VkPhysicalDeviceMemoryProperties :=
  { memoryTypeCount := 3, memoryTypes := [6, 1, 7] }

/-- A connected headset that reports the given display frequency. -/
def hmd_reports (display_frequency : ℚ) : HmdDriver :=
  { connected := true, property_error := 0, display_frequency := display_frequency }

/-- A headset that is not connected. -/
def hmd_disconnected : HmdDriver :=
  { connected := false, property_error := 0, display_frequency := 0 }

/-- A connected headset whose display frequency cannot be read (error code 1). -/
def hmd_property_error : HmdDriver :=
  { connected := true, property_error := 1, display_frequency := 0 }

/-- The same machine where every queue family of every GPU is a compute family (flags
2) without the graphics bit. -/
def compute_only_driver : InitializeDriver :=
  { example_initialize_driver with queue_flags := fun _ => [2, 2] }

/-- A compositor that asks for two instance extensions, on a driver that reports both
and one more. -/
def example_extension_driver : ExtensionDriver :=
  { compositor := true
    buffer_len := 36
    extensions := "VK_KHR_surface VK_KHR_win32_surface".data ++ [Char.ofNat 0]
    extension_properties := ["VK_KHR_win32_surface", "VK_EXT_debug_report", "VK_KHR_surface"] }

/-- The same compositor on a driver that lacks the second extension. -/
def missing_extension_driver : ExtensionDriver :=
  { example_extension_driver with
    extension_properties := ["VK_EXT_debug_report", "VK_KHR_surface"] }

/-- The init record of an overlay of 1280 by 720 with handle 7. -/
def example_init_info : ImGui_ImplOpenVR_InitInfo := { handle := 7, width := 1280, height := 720 }

/-- A platform without `_WIN32`. -/
def example_platform : BackendPlatform :=
  { WIN32 := false, perf_frequency := none, current_time := none }

/-- A frame in which the overlay is visible and the UI wants text input. -/
def frame_wants_text : FrameInput :=
  { WantTextInput := true, overlay_visible := true, current_time := 100 }

/-- The answers of the driver while the 1280 by 720 offscreen target is set up: the
handles of `example_overlay_renderer`, on the memory table with flags 6, 1, 7. -/
def example_overlay_driver : OverlayDriver :=
  { command_pool := 31, command_buffer := 32, fence := 33, queue := 4, texture := 34,
    memory_properties := example_memory_properties, memoryTypeBits := 7, size := 3686400,
    texture_memory := 36, texture_view := 35 }

/-- A run of the window path: the first build yields three images, three frames are
rendered and presented, the fourth acquire is out of date, and the rebuild yields two
images. -/
def shrinking_rebuild_steps : List WindowStep :=
  [WindowStep.SetupSwapchain driver_three_images 800 600,
   WindowStep.RenderWindow acquire_success, WindowStep.Present VK_SUCCESS,
   WindowStep.RenderWindow acquire_success, WindowStep.Present VK_SUCCESS,
   WindowStep.RenderWindow acquire_success, WindowStep.Present VK_SUCCESS,
   WindowStep.RenderWindow acquire_out_of_date, WindowStep.Present VK_SUCCESS,
   WindowStep.SetupSwapchain driver_two_images_only 800 600]

/-! ## Auxiliary facts -/

/-- The assertion of `VK_VALIDATE_RESULT` is only reached for a positive value, which
is nonzero: it never stops the run. -/
theorem VK_VALIDATE_RESULT_assertion_holds (e : Int) :
    (VK_VALIDATE_RESULT e).assertion_holds = true := by
  unfold VK_VALIDATE_RESULT
  by_cases h : e > 0
  · have : e ≠ 0 := by omega
    simp [h, this]
  · simp [h]

/-- No swapchain is created before the surface capability query has been issued. -/
theorem create_not_mem_teardown_calls (r : VulkanRenderer) (window : Vulkan_Window)
    (device : Nat) (info : VkSwapchainCreateInfoKHR) :
    Call.vkCreateSwapchainKHR device info ∉ teardown_calls r window := by
  simp [teardown_calls, DestroyFrames_calls, destroy_semaphore_calls, destroy_frame_calls,
    List.mem_flatMap]

/-- `SetupSwapchain` issues exactly one swapchain creation, with the create info of
lines 570-590. -/
theorem create_mem_calls_iff (d : SwapchainDriver) (r : VulkanRenderer) (window : Vulkan_Window)
    (width height device : Nat) (info : VkSwapchainCreateInfoKHR) :
    Call.vkCreateSwapchainKHR device info ∈ (SetupSwapchain d r window width height).calls ↔
      device = r.vulkan_device_ ∧ info = swapchain_create_info d r window width height := by
  have h := create_not_mem_teardown_calls r window device info
  unfold SetupSwapchain
  simp only [VK_VALIDATE_RESULT_assertion_holds]
  split_ifs <;>
    simp [h, create_semaphore_calls, create_frame_calls, List.mem_flatMap]

/-- Whatever way `SetupSwapchain` ends, the renderer holds the latched minimum. -/
theorem SetupSwapchain_minimum (d : SwapchainDriver) (r : VulkanRenderer)
    (window : Vulkan_Window) (width height : Nat) :
    (SetupSwapchain d r window width height).renderer.minimum_concurrent_image_count_ =
      latch_minimum_concurrent_image_count r.minimum_concurrent_image_count_
        window.present_mode := by
  unfold SetupSwapchain
  simp only [VK_VALIDATE_RESULT_assertion_holds]
  split_ifs <;> simp

/-- The table values are between 1 and 3. -/
theorem set_minimum_concurrent_image_count_bounds (mode : Nat) :
    1 ≤ set_minimum_concurrent_image_count mode ∧ set_minimum_concurrent_image_count mode ≤ 3 := by
  unfold set_minimum_concurrent_image_count
  split_ifs <;> omega

/-- The element-wise update loop keeps the length of the vector. -/
theorem length_update_each {α : Type} (zero : α) (f : Nat → α → α) (count : Nat) (v : List α) :
    (update_each zero f count v).length = v.length := by
  unfold update_each
  generalize List.range count = indices
  induction indices generalizing v with
  | nil => rfl
  | cons idx rest ih => rw [List.foldl_cons, ih, List.length_set]

/-- Zeroing the elements keeps the length of the vector. -/
theorem length_memset_zero {α : Type} (zero : α) (v : List α) :
    (memset_zero zero v).length = v.length := by
  simp [memset_zero]

/-- After `resize(n)` the vector has `n` elements, whatever it held before. -/
theorem length_vector_resize {α : Type} (zero : α) (v : List α) (n : Nat) :
    (vector_resize zero v n).length = n := by
  simp [vector_resize]
  omega

/-- `SetupSwapchain` returns exactly when the reported image count passes the two
assertions of lines 600-601. -/
theorem SetupSwapchain_status (d : SwapchainDriver) (r : VulkanRenderer) (window : Vulkan_Window)
    (width height : Nat) :
    (SetupSwapchain d r window width height).status =
      if latch_minimum_concurrent_image_count r.minimum_concurrent_image_count_
            window.present_mode ≤ d.image_count ∧ d.image_count < BACKBUFFER_CAPACITY then
        Status.returned
      else Status.assertion_failed := by
  by_cases h1 : latch_minimum_concurrent_image_count r.minimum_concurrent_image_count_
      window.present_mode ≤ d.image_count <;>
    by_cases h2 : d.image_count < BACKBUFFER_CAPACITY <;>
    simp [SetupSwapchain, VK_VALIDATE_RESULT_assertion_holds, vkGetSwapchainImagesKHR, h1, h2]

/-- The counts and vector sizes of the window after a `SetupSwapchain` that returned. -/
theorem SetupSwapchain_window_of_returned (d : SwapchainDriver) (r : VulkanRenderer)
    (window : Vulkan_Window) (width height : Nat)
    (hreturned : (SetupSwapchain d r window width height).status = Status.returned) :
    (SetupSwapchain d r window width height).window.image_count = d.image_count
      ∧ (SetupSwapchain d r window width height).window.semaphore_count = d.image_count + 1
      ∧ (SetupSwapchain d r window width height).window.frames.length = d.image_count
      ∧ (SetupSwapchain d r window width height).window.semaphores.length
          = d.image_count + 1 := by
  rw [SetupSwapchain_status] at hreturned
  split_ifs at hreturned with h
  obtain ⟨h1, h2⟩ := h
  have h3 : (d.image_count + 1) % UINT32_RANGE = d.image_count + 1 :=
    Nat.mod_eq_of_lt (by simp only [BACKBUFFER_CAPACITY, UINT32_RANGE] at h2 ⊢; omega)
  simp [SetupSwapchain, VK_VALIDATE_RESULT_assertion_holds, vkGetSwapchainImagesKHR, h1, h2,
    length_update_each, length_memset_zero, length_vector_resize, h3]

/-- In a list `front ++ c :: rest`, an element `x` that is neither in `front` nor
equal to `c` can only occur after `c`. -/
theorem mem_before_of_split {α : Type} (front : List α) (c : α) (rest pre post : List α) (x : α)
    (hfront : x ∉ front) (hne : x ≠ c)
    (hsplit : front ++ c :: rest = pre ++ x :: post) : c ∈ pre := by
  rcases List.append_eq_append_iff.1 hsplit with ⟨mid, hpre, hmid⟩ | ⟨mid, hfront', hmid⟩
  · cases mid with
    | nil =>
      simp at hmid
      exact absurd hmid.1.symm hne
    | cons m mid' =>
      simp at hmid
      rw [hpre, hmid.1]
      simp
  · cases mid with
    | nil =>
      simp at hmid
      exact absurd hmid.1 hne
    | cons m mid' =>
      simp at hmid
      exfalso
      apply hfront
      rw [hfront', ← hmid.1]
      simp

/-- When the list holds a discrete GPU, the loop ends with the first one. -/
theorem select_physical_device_of_discrete (device_type : Nat → Nat) (current : Nat)
    (device_list : List Nat) (device : Nat)
    (hfirst : device_list.find?
      (fun dv => decide (device_type dv = VK_PHYSICAL_DEVICE_TYPE_DISCRETE_GPU)) = some device) :
    select_physical_device device_type current device_list = device := by
  induction device_list generalizing current with
  | nil => simp at hfirst
  | cons head rest ih =>
    unfold select_physical_device
    by_cases hdiscrete : device_type head = VK_PHYSICAL_DEVICE_TYPE_DISCRETE_GPU
    · have hnot : device_type head ≠ VK_PHYSICAL_DEVICE_TYPE_INTEGRATED_GPU := by
        rw [hdiscrete]; decide
      simp [List.find?_cons, hdiscrete] at hfirst
      subst hfirst
      simp [hnot, hdiscrete]
    · simp [List.find?_cons, hdiscrete] at hfirst
      by_cases hintegrated : device_type head = VK_PHYSICAL_DEVICE_TYPE_INTEGRATED_GPU
      · simp only [hintegrated, if_true]
        exact ih head hfirst
      · simp only [hintegrated, hdiscrete, if_false]
        exact ih current hfirst

/-- When the list holds no discrete GPU, the loop ends with the last integrated GPU,
or with the value it started from when there is none. -/
theorem select_physical_device_of_no_discrete (device_type : Nat → Nat) (current : Nat)
    (device_list : List Nat)
    (hnone : device_list.find?
      (fun dv => decide (device_type dv = VK_PHYSICAL_DEVICE_TYPE_DISCRETE_GPU)) = none) :
    select_physical_device device_type current device_list =
      ((device_list.filter
        (fun dv => decide (device_type dv = VK_PHYSICAL_DEVICE_TYPE_INTEGRATED_GPU))).getLast?).getD
        current := by
  induction device_list generalizing current with
  | nil => simp [select_physical_device]
  | cons head rest ih =>
    unfold select_physical_device
    have hdiscrete : device_type head ≠ VK_PHYSICAL_DEVICE_TYPE_DISCRETE_GPU := by
      intro h
      simp [List.find?_cons, h] at hnone
    have hrest : rest.find?
        (fun dv => decide (device_type dv = VK_PHYSICAL_DEVICE_TYPE_DISCRETE_GPU)) = none := by
      simpa [List.find?_cons, hdiscrete] using hnone
    by_cases hintegrated : device_type head = VK_PHYSICAL_DEVICE_TYPE_INTEGRATED_GPU
    · simp only [hintegrated, if_true]
      rw [ih head hrest]
      simp [List.filter_cons, hintegrated, List.getLast?_cons]
    · simp only [hintegrated, hdiscrete, if_false]
      rw [ih current hrest]
      simp [List.filter_cons, hintegrated]

/-- The conjunction with `2 ^ i` is nonzero exactly when bit `i` is set. -/
theorem and_two_pow_ne_zero_iff (a i : Nat) : a &&& 2 ^ i ≠ 0 ↔ a.testBit i = true := by
  constructor
  · intro h
    by_contra hbit
    apply h
    apply Nat.eq_of_testBit_eq
    intro j
    simp only [Nat.testBit_and, Nat.testBit_two_pow, Nat.zero_testBit]
    by_cases hij : i = j
    · subst hij; simp [hbit]
    · simp [hij]
  · intro hbit h
    have := congrArg (fun x => x.testBit i) h
    simp [Nat.testBit_and, Nat.testBit_two_pow, hbit] at this

/-- The equation `a & b == b` says that every bit of `b` is a bit of `a`. -/
theorem and_eq_right_iff_testBit (a b : Nat) :
    a &&& b = b ↔ ∀ k, b.testBit k = true → a.testBit k = true := by
  constructor
  · intro h k hk
    have := congrArg (fun x => x.testBit k) h
    simp [Nat.testBit_and, hk] at this
    exact this
  · intro h
    apply Nat.eq_of_testBit_eq
    intro k
    rw [Nat.testBit_and]
    by_cases hk : b.testBit k = true
    · simp [hk, h k hk]
    · simp [hk]

/-- The test of line 420, for an index of the array, in terms of bits. -/
theorem memory_type_matches_iff (memory : VkPhysicalDeviceMemoryProperties)
    (type properties i : Nat) (hi : i < VK_MAX_MEMORY_TYPES) :
    memory_type_matches memory type properties i = true ↔
      type.testBit i = true
        ∧ ∀ k, properties.testBit k = true → (memory.memoryTypes.getD i 0).testBit k = true := by
  have hpow : (1 <<< i) % UINT32_RANGE = 2 ^ i := by
    rw [Nat.one_shiftLeft]
    exact Nat.mod_eq_of_lt (Nat.pow_lt_pow_right (by decide) hi)
  unfold memory_type_matches
  rw [hpow, Bool.and_eq_true, decide_eq_true_iff, decide_eq_true_iff,
    and_two_pow_ne_zero_iff, and_eq_right_iff_testBit]

/-- The loop returns `k` exactly when `k` is the first matching index of its range. -/
theorem find_memory_type_index_from_eq_some (memory : VkPhysicalDeviceMemoryProperties)
    (type properties : Nat) (i remaining k : Nat) :
    find_memory_type_index_from memory type properties i remaining = some k ↔
      i ≤ k ∧ k < i + remaining ∧ memory_type_matches memory type properties k = true
        ∧ ∀ j, i ≤ j → j < k → memory_type_matches memory type properties j = false := by
  induction remaining generalizing i with
  | zero =>
    simp [find_memory_type_index_from]
    intro h1 h2
    omega
  | succ n ih =>
    unfold find_memory_type_index_from
    by_cases hmatch : memory_type_matches memory type properties i = true
    · simp only [hmatch, if_true, Option.some.injEq]
      constructor
      · intro h
        subst h
        exact ⟨le_rfl, by omega, hmatch, fun j h1 h2 => by omega⟩
      · rintro ⟨h1, -, -, h4⟩
        by_contra hne
        have hlt : i < k := lt_of_le_of_ne h1 hne
        have := h4 i le_rfl hlt
        rw [hmatch] at this
        cases this
    · have hfalse : memory_type_matches memory type properties i = false := by
        simpa using hmatch
      simp only [hfalse, Bool.false_eq_true, if_false]
      rw [ih (i + 1)]
      constructor
      · rintro ⟨h1, h2, h3, h4⟩
        refine ⟨by omega, by omega, h3, fun j hj1 hj2 => ?_⟩
        by_cases hji : j = i
        · rw [hji]; exact hfalse
        · exact h4 j (by omega) hj2
      · rintro ⟨h1, h2, h3, h4⟩
        have hne : i ≠ k := by
          intro h
          rw [h] at hfalse
          rw [hfalse] at h3
          cases h3
        exact ⟨by omega, by omega, h3, fun j hj1 hj2 => h4 j (by omega) hj2⟩

/-- The loop throws exactly when no index of its range matches. -/
theorem find_memory_type_index_from_eq_none (memory : VkPhysicalDeviceMemoryProperties)
    (type properties : Nat) (i remaining : Nat) :
    find_memory_type_index_from memory type properties i remaining = none ↔
      ∀ j, i ≤ j → j < i + remaining → memory_type_matches memory type properties j = false := by
  induction remaining generalizing i with
  | zero =>
    simp [find_memory_type_index_from]
    intro j h1 h2
    omega
  | succ n ih =>
    unfold find_memory_type_index_from
    by_cases hmatch : memory_type_matches memory type properties i = true
    · simp only [hmatch, if_true]
      constructor
      · intro h; cases h
      · intro h
        have := h i le_rfl (by omega)
        rw [hmatch] at this
        cases this
    · have hfalse : memory_type_matches memory type properties i = false := by
        simpa using hmatch
      simp only [hfalse, Bool.false_eq_true, if_false]
      rw [ih (i + 1)]
      constructor
      · intro h j hj1 hj2
        by_cases hji : j = i
        · rw [hji]; exact hfalse
        · exact h j (by omega) (by omega)
      · intro h j hj1 hj2
        exact h j (by omega) (by omega)

/-- The queue submissions of one `RenderOverlay` call. -/
theorem RenderOverlay_submissions (tick : OverlayTick) (r : VulkanRenderer) :
    queue_submissions (RenderOverlay tick r).calls =
      if tick.visible = false then []
      else if tick.set_texture_result > VR_NO_ERROR then
        [Call.vkQueueSubmit r.vulkan_overlay_.queue r.vulkan_overlay_.command_buffer
          r.vulkan_overlay_.fence]
      else
        [Call.vkQueueSubmit r.vulkan_overlay_.queue r.vulkan_overlay_.command_buffer
          r.vulkan_overlay_.fence,
         Call.vkQueueSubmit r.vulkan_overlay_.queue r.vulkan_overlay_.command_buffer
          r.vulkan_overlay_.fence] := by
  unfold RenderOverlay
  by_cases hv : tick.visible = false
  · simp [hv, queue_submissions, Call.is_queue_submit]
  · by_cases hs : tick.set_texture_result > VR_NO_ERROR <;>
      simp [hv, hs, SetTexture, queue_submissions, Call.is_queue_submit, overlay_render_calls,
        overlay_restore_calls, List.filter_cons]

/-- The function `RenderOverlay` always returns. -/
theorem RenderOverlay_status (tick : OverlayTick) (r : VulkanRenderer) :
    (RenderOverlay tick r).status = Status.returned := by
  unfold RenderOverlay
  by_cases hv : tick.visible = false
  · simp [hv]
  · by_cases hs : SetTexture tick.set_texture_result = false <;> simp [hv, hs]

/-- In a list `front ++ [x]`, nothing follows an element that does not occur in `front`. -/
theorem nothing_after_last {α : Type} (front : List α) (x y : α) (before after : List α)
    (hfront : y ∉ front) (hsplit : front ++ [x] = before ++ y :: after) : after = [] := by
  rcases List.append_eq_append_iff.1 hsplit with ⟨mid, -, hmid⟩ | ⟨mid, hfront', hmid⟩
  · cases mid with
    | nil =>
      simp at hmid
      exact hmid.2
    | cons m mid' =>
      simp at hmid
  · cases mid with
    | nil =>
      simp at hmid
      exact hmid.2
    | cons m mid' =>
      simp at hmid
      exfalso
      apply hfront
      rw [hfront', ← hmid.1]
      simp

/-- A defined target time is a `uint64_t` value. -/
theorem target_time_lt (rate : ℚ) (target : Nat) (htarget : target_time rate = some target) :
    target < UINT64_RANGE := by
  unfold target_time at htarget
  split_ifs at htarget
  unfold float_to_uint64 at htarget
  simp only at htarget
  split_ifs at htarget with hfits
  cases htarget
  exact hfits

/-- The `uint64_t` subtraction of line 309 does not wrap. -/
theorem frame_delay_eq (target elapsed : Nat) (htarget : target < UINT64_RANGE) :
    frame_delay target elapsed = if elapsed < target then some (target - elapsed) else none := by
  unfold frame_delay
  by_cases h : elapsed < target
  · simp only [h, if_true]
    congr 1
    have : target + UINT64_RANGE - elapsed = (target - elapsed) + UINT64_RANGE := by omega
    rw [this, Nat.add_mod_right]
    exact Nat.mod_eq_of_lt (by omega)
  · simp [h]

/-- The function `SetupSwapchain` leaves the accessor values as they are. -/
theorem SetupSwapchain_accessors (d : SwapchainDriver) (r : VulkanRenderer)
    (window : Vulkan_Window) (width height : Nat) :
    (SetupSwapchain d r window width height).renderer.accessors = r.accessors := by
  by_cases h1 : latch_minimum_concurrent_image_count r.minimum_concurrent_image_count_
      window.present_mode ≤ d.image_count <;>
    by_cases h2 : d.image_count < BACKBUFFER_CAPACITY <;>
    simp [SetupSwapchain, VK_VALIDATE_RESULT_assertion_holds, vkGetSwapchainImagesKHR, h1, h2,
      VulkanRenderer.accessors]

/-- The function `Present` leaves the accessor values as they are. -/
theorem Present_accessors (present_result : Int) (r : VulkanRenderer) (window : Vulkan_Window) :
    (Present present_result r window).renderer.accessors = r.accessors := by
  unfold Present
  simp only [VK_VALIDATE_RESULT_assertion_holds]
  split_ifs <;> simp [VulkanRenderer.accessors]

/-- The function `RenderWindow` leaves the accessor values as they are. -/
theorem RenderWindow_accessors (d : AcquireDriver) (r : VulkanRenderer) (window : Vulkan_Window) :
    (RenderWindow d r window).renderer.accessors = r.accessors := by
  unfold RenderWindow
  simp only [VK_VALIDATE_RESULT_assertion_holds]
  split_ifs <;> simp [VulkanRenderer.accessors]

/-- The function `SetupWindow` leaves the accessor values as they are. -/
theorem SetupWindow_accessors (build : Build) (d : WindowDriver) (r : VulkanRenderer)
    (window : Vulkan_Window) (surface width height : Nat) :
    (SetupWindow build d r window surface width height).renderer.accessors = r.accessors := by
  unfold SetupWindow
  simp only
  split_ifs
  · rfl
  · exact SetupSwapchain_accessors _ _ _ _ _
  · rfl

/-- The function `SetupOverlay` leaves the accessor values as they are. -/
theorem SetupOverlay_accessors (d : OverlayDriver) (r : VulkanRenderer) (width height : Nat)
    (format : VkSurfaceFormatKHR) :
    (SetupOverlay d r width height format).renderer.accessors = r.accessors := by
  unfold SetupOverlay
  simp only
  split <;> rfl

/-- The function `RenderOverlay` leaves the accessor values as they are. -/
theorem RenderOverlay_accessors (tick : OverlayTick) (r : VulkanRenderer) :
    (RenderOverlay tick r).renderer.accessors = r.accessors := by
  unfold RenderOverlay
  simp only
  split_ifs <;> rfl

/-- The handles `Initialize_objects` stores and the ones it keeps. -/
theorem Initialize_objects_renderer (d : InitializeDriver) (r : VulkanRenderer)
    (calls : List Call) :
    (Initialize_objects d r calls).renderer.vulkan_instance_ = r.vulkan_instance_
      ∧ (Initialize_objects d r calls).renderer.vulkan_physical_device_
          = r.vulkan_physical_device_
      ∧ (Initialize_objects d r calls).renderer.vulkan_pipeline_cache_
          = r.vulkan_pipeline_cache_
      ∧ (Initialize_objects d r calls).renderer.vulkan_device_ = d.device
      ∧ (Initialize_objects d r calls).renderer.vulkan_queue_ = d.queue
      ∧ (Initialize_objects d r calls).renderer.vulkan_descriptor_pool_
          = d.descriptor_pool := by
  unfold Initialize_objects
  simp only
  split_ifs <;> exact ⟨rfl, rfl, rfl, rfl, rfl, rfl⟩

/-- The handles the second half of `Initialize` stores and the ones it keeps. -/
theorem Initialize_device_renderer (build : Build) (d : InitializeDriver)
    (r : VulkanRenderer) (calls : List Call) :
    (Initialize_device build d r calls).renderer.vulkan_instance_ = r.vulkan_instance_
      ∧ (Initialize_device build d r calls).renderer.vulkan_physical_device_
          = r.vulkan_physical_device_
      ∧ (Initialize_device build d r calls).renderer.vulkan_pipeline_cache_
          = r.vulkan_pipeline_cache_
      ∧ ((Initialize_device build d r calls).status = Status.returned →
        (Initialize_device build d r calls).renderer.vulkan_device_ = d.device
          ∧ (Initialize_device build d r calls).renderer.vulkan_queue_ = d.queue
          ∧ (Initialize_device build d r calls).renderer.vulkan_descriptor_pool_
              = d.descriptor_pool) := by
  unfold Initialize_device
  cases d.openvr_device_extensions r.vulkan_physical_device_ with
  | none => exact ⟨rfl, rfl, rfl, fun h => by cases h⟩
  | some extensions =>
    simp only
    split_ifs <;>
      first
        | exact ⟨rfl, rfl, rfl, fun h => by cases h⟩
        | exact ⟨(Initialize_objects_renderer d _ _).1, (Initialize_objects_renderer d _ _).2.1,
            (Initialize_objects_renderer d _ _).2.2.1,
            fun _ => (Initialize_objects_renderer d _ _).2.2.2⟩

/-- The function `Initialize` never assigns the pipeline cache; when it returns the renderer holds the
instance, the selected physical device, the device, the queue and the descriptor pool. -/
theorem Initialize_renderer (build : Build) (d : InitializeDriver) (r : VulkanRenderer) :
    (Initialize build d r).renderer.vulkan_pipeline_cache_ = r.vulkan_pipeline_cache_
      ∧ ((Initialize build d r).status = Status.returned →
        (Initialize build d r).renderer.vulkan_instance_ = d.vulkan_instance
          ∧ (Initialize build d r).renderer.vulkan_physical_device_
              = select_physical_device d.device_type r.vulkan_physical_device_ d.device_list
          ∧ (Initialize build d r).renderer.vulkan_physical_device_ ≠ VK_NULL_HANDLE
          ∧ (Initialize build d r).renderer.vulkan_device_ = d.device
          ∧ (Initialize build d r).renderer.vulkan_queue_ = d.queue
          ∧ (Initialize build d r).renderer.vulkan_descriptor_pool_ = d.descriptor_pool) := by
  unfold Initialize
  cases d.openvr_instance_extensions with
  | none => exact ⟨rfl, fun h => by cases h⟩
  | some extensions =>
    simp only
    split_ifs <;>
      first
        | exact ⟨rfl, fun h => by cases h⟩
        | (refine ⟨(Initialize_device_renderer build d _ _).2.2.1, fun h => ?_⟩
           obtain ⟨h1, h2, -, h4⟩ := Initialize_device_renderer build d _ _
           obtain ⟨h5, h6, h7⟩ := h4 h
           refine ⟨h1, h2, ?_, h5, h6, h7⟩
           rw [h2]
           assumption)

/-- A `Present` call that succeeds on a shown window without a pending rebuild moves
the semaphore index by one slot and changes nothing else. -/
theorem Present_success (r : VulkanRenderer) (window : Vulkan_Window)
    (hrebuild : r.should_rebuild_swapchain_ = false) (hminimized : window.is_minimized = false) :
    (Present VK_SUCCESS r window).renderer = r
      ∧ (Present VK_SUCCESS r window).window =
          { window with semaphore_index :=
              ((window.semaphore_index + 1) % UINT32_RANGE) % window.semaphore_count } := by
  have hne0 : VK_SUCCESS ≠ VK_ERROR_OUT_OF_DATE_KHR := by decide
  have hne1 : VK_SUCCESS ≠ VK_SUBOPTIMAL_KHR := by decide
  simp [Present, hrebuild, hminimized, hne0, hne1, VK_VALIDATE_RESULT_assertion_holds]

/-- After `k` successful `Present` calls the semaphore index has moved by `k` slots. -/
theorem Present_sequence_success (k : Nat) (r : VulkanRenderer) (window : Vulkan_Window)
    (hrebuild : r.should_rebuild_swapchain_ = false) (hminimized : window.is_minimized = false)
    (hindex : window.semaphore_index < window.semaphore_count)
    (hcount : window.semaphore_count < UINT32_RANGE) :
    Present_sequence r window (List.replicate k VK_SUCCESS)
      = (r, { window with semaphore_index :=
                (window.semaphore_index + k) % window.semaphore_count }) := by
  induction k generalizing window with
  | zero =>
    simp [Present_sequence, Nat.mod_eq_of_lt hindex]
  | succ k ih =>
    have hstep := Present_success r window hrebuild hminimized
    have hpos : 0 < window.semaphore_count := by omega
    have hwrap : (window.semaphore_index + 1) % UINT32_RANGE = window.semaphore_index + 1 :=
      Nat.mod_eq_of_lt (by omega)
    simp only [List.replicate_succ, Present_sequence]
    rw [hstep.1, hstep.2, hwrap]
    rw [ih { window with semaphore_index :=
              (window.semaphore_index + 1) % window.semaphore_count }
          hminimized (Nat.mod_lt _ hpos) hcount]
    simp only [Nat.mod_add_mod]
    have : window.semaphore_index + 1 + k = window.semaphore_index + (k + 1) := by omega
    rw [this]

/-- Moving by `k` slots around `n` slots comes back to the start exactly when `n`
divides `k`. -/
theorem add_mod_eq_self_iff (i k n : Nat) (hi : i < n) : (i + k) % n = i ↔ n ∣ k := by
  constructor
  · intro h
    have h1 : (i + k) % n = i % n := by rw [h, Nat.mod_eq_of_lt hi]
    have h2 : (i + k) ≡ (i + 0) [MOD n] := by simpa [Nat.ModEq] using h1
    have h3 := Nat.ModEq.add_left_cancel' i h2
    exact (Nat.modEq_zero_iff_dvd).1 h3
  · rintro ⟨c, rfl⟩
    rw [Nat.add_mul_mod_self_left, Nat.mod_eq_of_lt hi]

/-- Once `minimum_concurrent_image_count_` is not 0, no `SetupSwapchain` call changes
it. -/
theorem SetupSwapchain_sequence_latched (r : VulkanRenderer) (window : Vulkan_Window)
    (calls : List SwapchainRebuild) (hlatched : r.minimum_concurrent_image_count_ ≠ 0) :
    (SetupSwapchain_sequence r window calls).1.minimum_concurrent_image_count_
      = r.minimum_concurrent_image_count_ := by
  induction calls generalizing r window with
  | nil => rfl
  | cons call rest ih =>
    have hstep := SetupSwapchain_minimum call.driver r
      { window with present_mode := call.present_mode } call.width call.height
    have hkeep : latch_minimum_concurrent_image_count r.minimum_concurrent_image_count_
        call.present_mode = r.minimum_concurrent_image_count_ := by
      simp [latch_minimum_concurrent_image_count, hlatched]
    simp only [SetupSwapchain_sequence]
    rw [ih _ _ (by rw [hstep, hkeep]; exact hlatched), hstep, hkeep]

/-- The function `RenderWindow` returns for every answer of the driver. -/
theorem RenderWindow_status (d : AcquireDriver) (r : VulkanRenderer) (window : Vulkan_Window) :
    (RenderWindow d r window).status = Status.returned := by
  unfold RenderWindow
  by_cases hm : window.is_minimized = true
  · simp [hm]
  · by_cases ho : d.acquire_result = VK_ERROR_OUT_OF_DATE_KHR
    · simp [hm, ho]
    · simp [hm, ho, VK_VALIDATE_RESULT_assertion_holds]

/-- The function `Present` returns for every answer of the driver. -/
theorem Present_status (present_result : Int) (r : VulkanRenderer) (window : Vulkan_Window) :
    (Present present_result r window).status = Status.returned := by
  unfold Present
  by_cases hs : r.should_rebuild_swapchain_ = true ∨ window.is_minimized = true
  · simp [hs]
  · by_cases ho : present_result = VK_ERROR_OUT_OF_DATE_KHR
    · simp [hs, ho]
    · simp [hs, ho, VK_VALIDATE_RESULT_assertion_holds]

/-- The function `RenderWindow` moves neither the semaphore index nor the count. -/
theorem RenderWindow_semaphore_index (d : AcquireDriver) (r : VulkanRenderer)
    (window : Vulkan_Window) :
    (RenderWindow d r window).window.semaphore_index = window.semaphore_index
      ∧ (RenderWindow d r window).window.semaphore_count = window.semaphore_count := by
  unfold RenderWindow
  by_cases hm : window.is_minimized = true
  · simp [hm]
  · by_cases ho : d.acquire_result = VK_ERROR_OUT_OF_DATE_KHR
    · simp [hm, ho]
    · simp [hm, ho, VK_VALIDATE_RESULT_assertion_holds]

/-- The calls of a `RenderWindow` call that reaches recording. -/
theorem RenderWindow_calls_of_recording (d : AcquireDriver) (r : VulkanRenderer)
    (window : Vulkan_Window) (hminimized : window.is_minimized = false)
    (hrecording : d.acquire_result ≠ VK_ERROR_OUT_OF_DATE_KHR) :
    (RenderWindow d r window).calls
      = Call.vkAcquireNextImageKHR r.vulkan_device_ window.swapchain
          (window.semaphores.getD window.semaphore_index
            Vulkan_FrameSemaphore.zero).image_acquired_semaphore
        :: record_and_submit_calls r { window with frame_index := d.image_index }
            (window.semaphores.getD window.semaphore_index Vulkan_FrameSemaphore.zero)
            (window.frames.getD d.image_index Vulkan_Frame.zero) := by
  simp [RenderWindow, hminimized, hrecording, VK_VALIDATE_RESULT_assertion_holds]

/-- With no graphics family from position `idx` on, the selection stays as it was. -/
theorem select_queue_family_of_none (current idx : Nat) (queue_flags : List Nat)
    (hnone : ∀ i, i < queue_flags.length →
      queue_flags.getD i 0 &&& VK_QUEUE_GRAPHICS_BIT = 0) :
    select_queue_family current idx queue_flags = current := by
  induction queue_flags generalizing idx with
  | nil => rfl
  | cons flags rest ih =>
    have h0 := hnone 0 (by simp)
    simp only [List.getD_cons_zero] at h0
    simp only [select_queue_family, h0, ne_eq, not_true_eq_false, if_false]
    apply ih
    intro i hi
    have := hnone (i + 1) (by simpa using hi)
    simpa using this

/-- The selection is the position of the first graphics family, counted from `idx`. -/
theorem select_queue_family_of_first (current idx : Nat) (queue_flags : List Nat) (i : Nat)
    (hi : i < queue_flags.length)
    (hgraphics : queue_flags.getD i 0 &&& VK_QUEUE_GRAPHICS_BIT ≠ 0)
    (hfirst : ∀ j, j < i → queue_flags.getD j 0 &&& VK_QUEUE_GRAPHICS_BIT = 0) :
    select_queue_family current idx queue_flags = (idx + i) % UINT32_RANGE := by
  induction queue_flags generalizing idx i with
  | nil => simp at hi
  | cons flags rest ih =>
    cases i with
    | zero =>
      simp only [List.getD_cons_zero] at hgraphics
      simp only [select_queue_family]
      rw [if_pos hgraphics]
      simp
    | succ i =>
      have h0 := hfirst 0 (by omega)
      simp only [List.getD_cons_zero] at h0
      simp only [select_queue_family, h0, ne_eq, not_true_eq_false, if_false]
      rw [ih (idx + 1) i (by simpa using hi) (by simpa using hgraphics)
        (fun j hj => by simpa using hfirst (j + 1) (by omega))]
      congr 1
      omega

/-- Every list has a first graphics family or none. -/
theorem first_graphics_family (queue_flags : List Nat) :
    (∀ i, i < queue_flags.length → queue_flags.getD i 0 &&& VK_QUEUE_GRAPHICS_BIT = 0)
      ∨ ∃ i, i < queue_flags.length
          ∧ queue_flags.getD i 0 &&& VK_QUEUE_GRAPHICS_BIT ≠ 0
          ∧ ∀ j, j < i → queue_flags.getD j 0 &&& VK_QUEUE_GRAPHICS_BIT = 0 := by
  by_cases h : ∃ i, i < queue_flags.length
      ∧ queue_flags.getD i 0 &&& VK_QUEUE_GRAPHICS_BIT ≠ 0
  · right
    refine ⟨Nat.find h, (Nat.find_spec h).1, (Nat.find_spec h).2, fun j hj => ?_⟩
    have hmin := Nat.find_min h hj
    by_contra hne
    exact hmin ⟨lt_trans hj (Nat.find_spec h).1, hne⟩
  · left
    intro i hi
    by_contra hne
    exact h ⟨i, hi, hne⟩

/-- The second half of `Initialize` leaves the queue family as it is. -/
theorem Initialize_device_queue_family (build : Build) (d : InitializeDriver)
    (r : VulkanRenderer) (calls : List Call) :
    (Initialize_device build d r calls).renderer.vulkan_queue_family_
      = r.vulkan_queue_family_ := by
  have hobjects : ∀ (r2 : VulkanRenderer) (calls2 : List Call),
      (Initialize_objects d r2 calls2).renderer.vulkan_queue_family_
        = r2.vulkan_queue_family_ := by
    intro r2 calls2
    unfold Initialize_objects
    simp only
    split_ifs <;> rfl
  unfold Initialize_device
  cases d.openvr_device_extensions r.vulkan_physical_device_ with
  | none => rfl
  | some extensions =>
    simp only
    split_ifs <;> first | rfl | exact hobjects _ _

/-- The queue family `Initialize` holds when it returns, and the assertion that ends
it when the selection is `(uint32_t)-1`. -/
theorem Initialize_queue_family (build : Build) (d : InitializeDriver) (r : VulkanRenderer) :
    ((Initialize build d r).status = Status.returned →
        (Initialize build d r).renderer.vulkan_queue_family_
            = select_queue_family r.vulkan_queue_family_ 0
                (d.queue_flags
                  (select_physical_device d.device_type r.vulkan_physical_device_
                    d.device_list))
          ∧ (Initialize build d r).renderer.vulkan_queue_family_ ≠ UINT32_RANGE - 1)
      ∧ (d.openvr_instance_extensions ≠ none →
          select_physical_device d.device_type r.vulkan_physical_device_ d.device_list
            ≠ VK_NULL_HANDLE →
          select_queue_family r.vulkan_queue_family_ 0
              (d.queue_flags
                (select_physical_device d.device_type r.vulkan_physical_device_
                  d.device_list)) = UINT32_RANGE - 1 →
          (Initialize build d r).status = Status.assertion_failed) := by
  unfold Initialize
  cases d.openvr_instance_extensions with
  | none => exact ⟨fun h => (by cases h), fun h => absurd rfl h⟩
  | some extensions =>
    simp only
    by_cases hdevice : select_physical_device d.device_type r.vulkan_physical_device_
        d.device_list = VK_NULL_HANDLE
    · simp [hdevice]
    · by_cases hfamily : select_queue_family r.vulkan_queue_family_ 0
          (d.queue_flags (select_physical_device d.device_type r.vulkan_physical_device_
            d.device_list)) = UINT32_RANGE - 1
      · simp [hdevice, hfamily]
      · refine ⟨fun _ => ?_, fun _ _ h => absurd h hfamily⟩
        simp only [hdevice, hfamily, if_false]
        rw [Initialize_device_queue_family]
        exact ⟨rfl, hfamily⟩

/-- An available extension is one of the reported names. -/
theorem IsVulkanInstanceExtensionAvailable_iff (extension_properties : List String)
    (extension : String) :
    IsVulkanInstanceExtensionAvailable extension_properties extension = some true ↔
      extension ∈ extension_properties := by
  unfold IsVulkanInstanceExtensionAvailable
  by_cases hlength : extension_properties.length > 0
  · simp [hlength]
  · have hnil : extension_properties = [] := by
      cases extension_properties with
      | nil => rfl
      | cons a l => simp at hlength
    simp [hnil]

/-- An available device extension is one of the reported names. -/
theorem IsVulkanDeviceExtensionAvailable_iff (extension_properties : List String)
    (extension : String) :
    IsVulkanDeviceExtensionAvailable extension_properties extension = some true ↔
      extension ∈ extension_properties := by
  unfold IsVulkanDeviceExtensionAvailable
  by_cases hlength : extension_properties.length > 0
  · simp [hlength]
  · have hnil : extension_properties = [] := by
      cases extension_properties with
      | nil => rfl
      | cons a l => simp at hlength
    simp [hnil]

/-- The loop over the tokens returns them all, after what `result` held, when each is
available, and ends the process when one is not. -/
theorem collect_extensions_eq (available : String → Option Bool) (tokens result : List String) :
    ((∀ token ∈ tokens, available token = some true) →
        collect_extensions available tokens result = some (result ++ tokens))
      ∧ ((∃ token ∈ tokens, available token ≠ some true) →
        collect_extensions available tokens result = none) := by
  induction tokens generalizing result with
  | nil => simp [collect_extensions]
  | cons token rest ih =>
    by_cases htoken : available token = some true
    · simp only [collect_extensions, htoken, if_true]
      constructor
      · intro hall
        rw [(ih (result ++ [token])).1 (fun t ht => hall t (List.mem_cons_of_mem _ ht))]
        simp
      · rintro ⟨t, ht, hnot⟩
        rcases List.mem_cons.1 ht with rfl | ht
        · exact absurd htoken hnot
        · exact (ih (result ++ [token])).2 ⟨t, ht, hnot⟩
    · constructor
      · intro hall
        exact absurd (hall token (List.mem_cons_self _ _)) htoken
      · intro _
        simp [collect_extensions, htoken]

/-- The tokens read from a stream, each followed by a space and concatenated, give
back what the running token and the stream held, closed by a space. -/
theorem getline_tokens_join (stream token : List Char) :
    (getline_tokens stream token).flatMap (fun t => t.data ++ [SPACE])
      = if stream = [] then (if token = [] then [] else token ++ [SPACE])
        else if stream.getLast? = some SPACE then token ++ stream
        else token ++ stream ++ [SPACE] := by
  induction stream generalizing token with
  | nil =>
    by_cases htoken : token = []
    · simp [getline_tokens, htoken]
    · simp [getline_tokens, htoken]
  | cons c rest ih =>
    by_cases hc : c = SPACE
    · subst hc
      simp only [getline_tokens, if_true, List.flatMap_cons, ih []]
      cases rest with
      | nil => simp
      | cons c2 rest2 =>
        simp only [List.getLast?_cons_cons]
        by_cases hlast : (c2 :: rest2).getLast? = some SPACE
        · simp [hlast]
        · simp [hlast]
    · simp only [getline_tokens, hc, if_false, ih (token ++ [c])]
      cases rest with
      | nil =>
        have hne : ¬ (c = Char.ofNat 32) := hc
        simp [hne]
      | cons c2 rest2 =>
        simp only [List.getLast?_cons_cons]
        by_cases hlast : (c2 :: rest2).getLast? = some SPACE
        · simp [hlast]
        · simp [hlast]

/-- No token read from a stream holds a space, when the running token holds none. -/
theorem getline_tokens_no_space (stream token : List Char) (htoken : SPACE ∉ token) :
    ∀ t ∈ getline_tokens stream token, SPACE ∉ t.data := by
  induction stream generalizing token with
  | nil =>
    intro t ht
    by_cases hempty : token = []
    · simp [getline_tokens, hempty] at ht
    · simp only [getline_tokens, hempty, if_false, List.mem_singleton] at ht
      subst ht
      exact htoken
  | cons c rest ih =>
    intro t ht
    by_cases hc : c = SPACE
    · simp only [getline_tokens, hc, if_true, List.mem_cons] at ht
      rcases ht with rfl | ht
      · exact htoken
      · exact ih [] (by simp) t ht
    · simp only [getline_tokens, hc, if_false] at ht
      refine ih (token ++ [c]) ?_ t ht
      intro hmem
      rcases List.mem_append.1 hmem with h | h
      · exact htoken h
      · exact hc (List.mem_singleton.1 h).symm

/-- A conjunction with a mask below 8 reads the three low bits only. -/
theorem and_low_bits (button k : Nat) (hk : k < 2 ^ 3) :
    button &&& k = (button % 2 ^ 3) &&& k := by
  apply Nat.eq_of_testBit_eq
  intro i
  simp only [Nat.testBit_and, Nat.testBit_mod_two_pow]
  by_cases hi : i < 3
  · simp [hi]
  · have hbit : k.testBit i = false :=
      Nat.testBit_lt_two_pow
        (lt_of_lt_of_le hk (Nat.pow_le_pow_right (by decide) (by omega)))
    simp [hbit]

/-- The calls of a mouse-button event depend on the three low bits of the mask. -/
theorem mouse_button_event_low_bits (button : Nat) (down : Bool) :
    mouse_button_event button down = mouse_button_event (button % 2 ^ 3) down := by
  unfold mouse_button_event more_than_one_button mouse_button
  rw [and_low_bits button (VRMouseButton_Left ||| VRMouseButton_Right ||| VRMouseButton_Middle)
      (by decide),
    and_low_bits button VRMouseButton_Left (by decide),
    and_low_bits button VRMouseButton_Right (by decide),
    and_low_bits button VRMouseButton_Middle (by decide)]

/-- The calls of a mouse-button event for each value of the three low bits. -/
theorem mouse_button_event_table (down : Bool) :
    mouse_button_event 0 down = []
      ∧ mouse_button_event 1 down = [BackendCall.AddMouseButtonEvent ImGuiMouseButton_Left down]
      ∧ mouse_button_event 2 down = [BackendCall.AddMouseButtonEvent ImGuiMouseButton_Right down]
      ∧ mouse_button_event 3 down = []
      ∧ mouse_button_event 4 down = [BackendCall.AddMouseButtonEvent ImGuiMouseButton_Middle down]
      ∧ mouse_button_event 5 down = []
      ∧ mouse_button_event 6 down = []
      ∧ mouse_button_event 7 down = [] := by
  cases down <;> decide

/-- The function `ImGui_ImplOpenVR_NewFrame` keeps the overlay handle and never sets
`keyboard_active`. -/
theorem NewFrame_keyboard_active (input : FrameInput) (bd : ImGui_ImplOpenVR_Data) :
    (ImGui_ImplOpenVR_NewFrame input bd).bd.handle = bd.handle
      ∧ (bd.keyboard_active = false →
          (ImGui_ImplOpenVR_NewFrame input bd).bd.keyboard_active = false) := by
  refine ⟨rfl, fun h => ?_⟩
  simp [ImGui_ImplOpenVR_NewFrame, h]

/-- No sequence of backend calls changes the overlay handle or sets
`keyboard_active`. -/
theorem run_backend_steps_keyboard_active (bd : ImGui_ImplOpenVR_Data)
    (steps : List BackendStep) (hinactive : bd.keyboard_active = false) :
    (run_backend_steps bd steps).handle = bd.handle
      ∧ (run_backend_steps bd steps).keyboard_active = false := by
  induction steps generalizing bd with
  | nil => exact ⟨rfl, hinactive⟩
  | cons step rest ih =>
    cases step with
    | NewFrame input =>
      have hstep := NewFrame_keyboard_active input bd
      have hrest := ih (ImGui_ImplOpenVR_NewFrame input bd).bd (hstep.2 hinactive)
      exact ⟨hrest.1.trans hstep.1, hrest.2⟩
    | ProcessOverlayEvent display_height vr_overlay event =>
      exact ih bd hinactive

/-- The backend data `ImGui_ImplOpenVR_Init` installs has the handle of the caller and
`keyboard_active` false, whatever the function returns. -/
theorem Init_keyboard_active (platform : BackendPlatform) (initInfo : ImGui_ImplOpenVR_InitInfo) :
    (ImGui_ImplOpenVR_Init platform initInfo).2.handle = initInfo.handle
      ∧ (ImGui_ImplOpenVR_Init platform initInfo).2.keyboard_active = false := by
  unfold ImGui_ImplOpenVR_Init
  by_cases hwin : platform.WIN32 = true
  · simp only [hwin, if_true]
    cases platform.perf_frequency <;> cases platform.current_time <;> exact ⟨rfl, rfl⟩
  · simp only [hwin, if_false]
    exact ⟨rfl, rfl⟩

/-- The layout the barriers of one `RenderOverlay` call leave the offscreen image in,
and the layout it is in when the render pass of the call begins. -/
theorem RenderOverlay_layout (tick : OverlayTick) (r : VulkanRenderer) (layout : Nat) :
    image_layout_after r.vulkan_overlay_.texture layout (RenderOverlay tick r).calls
        = (if tick.visible = false then layout
           else if tick.set_texture_result > VR_NO_ERROR then
             VK_IMAGE_LAYOUT_TRANSFER_SRC_OPTIMAL
           else VK_IMAGE_LAYOUT_COLOR_ATTACHMENT_OPTIMAL)
      ∧ render_pass_layouts r.vulkan_overlay_.texture r.vulkan_overlay_.texture_view layout
          (RenderOverlay tick r).calls
        = (if tick.visible = false then [] else [layout]) := by
  by_cases hvisible : tick.visible = false
  · simp [RenderOverlay, hvisible, image_layout_after, render_pass_layouts]
  · by_cases hfailed : tick.set_texture_result > VR_NO_ERROR
    · simp [RenderOverlay, hvisible, hfailed, SetTexture, overlay_render_calls,
        image_layout_after, render_pass_layouts]
    · simp [RenderOverlay, hvisible, hfailed, SetTexture, overlay_render_calls,
        overlay_restore_calls, image_layout_after, render_pass_layouts]

/-- The width and height `SetupSwapchain` leaves in the window are the resolved
extent of lines 555-564, whatever way the call ends. -/
theorem SetupSwapchain_extent (d : SwapchainDriver) (r : VulkanRenderer)
    (window : Vulkan_Window) (width height : Nat) :
    (SetupSwapchain d r window width height).window.width
        = (resolve_extent d.surface_capabilities width height).1
      ∧ (SetupSwapchain d r window width height).window.height
        = (resolve_extent d.surface_capabilities width height).2 := by
  unfold SetupSwapchain
  simp only [VK_VALIDATE_RESULT_assertion_holds]
  split_ifs <;> simp [DestroyFrames_window]

/-- C3: the minimum concurrent image count computed from a present mode is 3 for
mailbox, 2 for FIFO and for relaxed FIFO, 1 for immediate, and 1 for every other
mode value. -/
theorem minimum_concurrent_image_count_table (mode : Nat) :
    set_minimum_concurrent_image_count VK_PRESENT_MODE_MAILBOX_KHR = 3
      ∧ set_minimum_concurrent_image_count VK_PRESENT_MODE_FIFO_KHR = 2
      ∧ set_minimum_concurrent_image_count VK_PRESENT_MODE_FIFO_RELAXED_KHR = 2
      ∧ set_minimum_concurrent_image_count VK_PRESENT_MODE_IMMEDIATE_KHR = 1
      ∧ set_minimum_concurrent_image_count mode =
          (if mode = VK_PRESENT_MODE_MAILBOX_KHR then 3
           else if mode = VK_PRESENT_MODE_FIFO_KHR ∨ mode = VK_PRESENT_MODE_FIFO_RELAXED_KHR
             then 2
           else 1) := by
  refine ⟨by decide, by decide, by decide, by decide, ?_⟩
  unfold set_minimum_concurrent_image_count
  split_ifs <;> simp_all

/-- C1, as stated, fails. Mailbox mode (minimum 3) on a surface that allows exactly
two images requests 2 images, fewer than the minimum; FIFO mode (minimum 2) on a
surface reporting `maxImageCount = 0` requests 0 images, fewer than both the surface
minimum and the renderer minimum; a surface minimum of 16 makes the request 16. -/
theorem requested_image_count_bounds_counterexample :
    (Call.vkCreateSwapchainKHR 3
          (swapchain_create_info driver_two_images_only example_renderer
            (example_window VK_PRESENT_MODE_MAILBOX_KHR) 800 600)
        ∈ (SetupSwapchain driver_two_images_only example_renderer
            (example_window VK_PRESENT_MODE_MAILBOX_KHR) 800 600).calls
      ∧ (SetupSwapchain driver_two_images_only example_renderer
            (example_window VK_PRESENT_MODE_MAILBOX_KHR) 800 600).renderer.minimum_concurrent_image_count_
          = 3
      ∧ (swapchain_create_info driver_two_images_only example_renderer
            (example_window VK_PRESENT_MODE_MAILBOX_KHR) 800 600).minImageCount = 2
      ∧ ¬ ((SetupSwapchain driver_two_images_only example_renderer
            (example_window VK_PRESENT_MODE_MAILBOX_KHR) 800 600).renderer.minimum_concurrent_image_count_
          ≤ (swapchain_create_info driver_two_images_only example_renderer
            (example_window VK_PRESENT_MODE_MAILBOX_KHR) 800 600).minImageCount))
    ∧ (Call.vkCreateSwapchainKHR 3
          (swapchain_create_info driver_no_image_limit example_renderer
            (example_window VK_PRESENT_MODE_FIFO_KHR) 800 600)
        ∈ (SetupSwapchain driver_no_image_limit example_renderer
            (example_window VK_PRESENT_MODE_FIFO_KHR) 800 600).calls
      ∧ (SetupSwapchain driver_no_image_limit example_renderer
            (example_window VK_PRESENT_MODE_FIFO_KHR) 800 600).renderer.minimum_concurrent_image_count_
          = 2
      ∧ (swapchain_create_info driver_no_image_limit example_renderer
            (example_window VK_PRESENT_MODE_FIFO_KHR) 800 600).minImageCount = 0
      ∧ ¬ (driver_no_image_limit.surface_capabilities.minImageCount
          ≤ (swapchain_create_info driver_no_image_limit example_renderer
            (example_window VK_PRESENT_MODE_FIFO_KHR) 800 600).minImageCount))
    ∧ (Call.vkCreateSwapchainKHR 3
          (swapchain_create_info driver_sixteen_images example_renderer
            (example_window VK_PRESENT_MODE_FIFO_KHR) 800 600)
        ∈ (SetupSwapchain driver_sixteen_images example_renderer
            (example_window VK_PRESENT_MODE_FIFO_KHR) 800 600).calls
      ∧ (swapchain_create_info driver_sixteen_images example_renderer
            (example_window VK_PRESENT_MODE_FIFO_KHR) 800 600).minImageCount = 16
      ∧ ¬ ((swapchain_create_info driver_sixteen_images example_renderer
            (example_window VK_PRESENT_MODE_FIFO_KHR) 800 600).minImageCount < 16)) := by
  decide

/-- C1, amended: for a present mode other than the two shared-refresh modes and
surface limits with `surfaceMin ≤ surfaceMax` and
`minimumConcurrentImageCount ≤ surfaceMax`, the image count requested at swapchain
creation satisfies `surfaceMin ≤ count ≤ surfaceMax` and
`minimumConcurrentImageCount ≤ count`; it is below 16 exactly when `surfaceMin` and
`minimumConcurrentImageCount` both are. -/
theorem requested_image_count_bounds (d : SwapchainDriver) (r : VulkanRenderer)
    (window : Vulkan_Window) (width height : Nat)
    (hdemand : window.present_mode ≠ VK_PRESENT_MODE_SHARED_DEMAND_REFRESH_KHR)
    (hcontinuous : window.present_mode ≠ VK_PRESENT_MODE_SHARED_CONTINUOUS_REFRESH_KHR)
    (hsurface : d.surface_capabilities.minImageCount ≤ d.surface_capabilities.maxImageCount)
    (hfits : (SetupSwapchain d r window width height).renderer.minimum_concurrent_image_count_
      ≤ d.surface_capabilities.maxImageCount) :
    (∃ info, Call.vkCreateSwapchainKHR r.vulkan_device_ info
        ∈ (SetupSwapchain d r window width height).calls)
      ∧ ∀ device info, Call.vkCreateSwapchainKHR device info
          ∈ (SetupSwapchain d r window width height).calls →
        d.surface_capabilities.minImageCount ≤ info.minImageCount
          ∧ info.minImageCount ≤ d.surface_capabilities.maxImageCount
          ∧ (SetupSwapchain d r window width height).renderer.minimum_concurrent_image_count_
              ≤ info.minImageCount
          ∧ (info.minImageCount < 16 ↔
              d.surface_capabilities.minImageCount < 16
                ∧ (SetupSwapchain d r window width height).renderer.minimum_concurrent_image_count_
                    < 16) := by
  refine ⟨⟨_, (create_mem_calls_iff d r window width height _ _).2 ⟨rfl, rfl⟩⟩, ?_⟩
  intro device info hmem
  obtain ⟨-, rfl⟩ := (create_mem_calls_iff d r window width height device info).1 hmem
  rw [SetupSwapchain_minimum] at hfits ⊢
  simp only [swapchain_create_info, min_image_count]
  split_ifs <;> omega

/-- Witness for the amended C1: mailbox mode on a surface with two to eight images
requests exactly one chain, with a count between 2 and 8 that is at least 3. -/
theorem requested_image_count_bounds_witness :
    VK_PRESENT_MODE_MAILBOX_KHR ≠ VK_PRESENT_MODE_SHARED_DEMAND_REFRESH_KHR
      ∧ VK_PRESENT_MODE_MAILBOX_KHR ≠ VK_PRESENT_MODE_SHARED_CONTINUOUS_REFRESH_KHR
      ∧ (2 : Nat) ≤ 8
      ∧ (SetupSwapchain driver_three_images example_renderer
          (example_window VK_PRESENT_MODE_MAILBOX_KHR) 800 600).renderer.minimum_concurrent_image_count_
          ≤ 8
      ∧ ((∃ info, Call.vkCreateSwapchainKHR 3 info
            ∈ (SetupSwapchain driver_three_images example_renderer
                (example_window VK_PRESENT_MODE_MAILBOX_KHR) 800 600).calls)
          ∧ ∀ device info, Call.vkCreateSwapchainKHR device info
              ∈ (SetupSwapchain driver_three_images example_renderer
                  (example_window VK_PRESENT_MODE_MAILBOX_KHR) 800 600).calls →
            2 ≤ info.minImageCount ∧ info.minImageCount ≤ 8 ∧ 3 ≤ info.minImageCount
              ∧ (info.minImageCount < 16 ↔ 2 < 16 ∧ 3 < 16)) :=
  ⟨by decide, by decide, by decide, by decide,
    requested_image_count_bounds driver_three_images example_renderer
      (example_window VK_PRESENT_MODE_MAILBOX_KHR) 800 600 (by decide) (by decide) (by decide)
      (by decide)⟩

/-- C2: for every present mode other than the two shared-refresh modes and all
surface limits, the image count requested at swapchain creation is
`min (max minimumConcurrentImageCount surfaceMin) surfaceMax`. -/
theorem requested_image_count_is_clamp (d : SwapchainDriver) (r : VulkanRenderer)
    (window : Vulkan_Window) (width height : Nat)
    (hdemand : window.present_mode ≠ VK_PRESENT_MODE_SHARED_DEMAND_REFRESH_KHR)
    (hcontinuous : window.present_mode ≠ VK_PRESENT_MODE_SHARED_CONTINUOUS_REFRESH_KHR) :
    (∃ info, Call.vkCreateSwapchainKHR r.vulkan_device_ info
        ∈ (SetupSwapchain d r window width height).calls)
      ∧ ∀ device info, Call.vkCreateSwapchainKHR device info
          ∈ (SetupSwapchain d r window width height).calls →
        info.minImageCount =
          min (max (SetupSwapchain d r window width height).renderer.minimum_concurrent_image_count_
                d.surface_capabilities.minImageCount)
            d.surface_capabilities.maxImageCount := by
  refine ⟨⟨_, (create_mem_calls_iff d r window width height _ _).2 ⟨rfl, rfl⟩⟩, ?_⟩
  intro device info hmem
  obtain ⟨-, rfl⟩ := (create_mem_calls_iff d r window width height device info).1 hmem
  rw [SetupSwapchain_minimum]
  simp only [swapchain_create_info, min_image_count]
  split_ifs <;> omega

/-- Witness for C2: FIFO mode (minimum 2) on a surface with sixteen to thirty-two
images requests `min (max 2 16) 32` images. -/
theorem requested_image_count_is_clamp_witness :
    VK_PRESENT_MODE_FIFO_KHR ≠ VK_PRESENT_MODE_SHARED_DEMAND_REFRESH_KHR
      ∧ VK_PRESENT_MODE_FIFO_KHR ≠ VK_PRESENT_MODE_SHARED_CONTINUOUS_REFRESH_KHR
      ∧ ((∃ info, Call.vkCreateSwapchainKHR 3 info
            ∈ (SetupSwapchain driver_sixteen_images example_renderer
                (example_window VK_PRESENT_MODE_FIFO_KHR) 800 600).calls)
          ∧ ∀ device info, Call.vkCreateSwapchainKHR device info
              ∈ (SetupSwapchain driver_sixteen_images example_renderer
                  (example_window VK_PRESENT_MODE_FIFO_KHR) 800 600).calls →
            info.minImageCount = min (max 2 16) 32) :=
  ⟨by decide, by decide,
    requested_image_count_is_clamp driver_sixteen_images example_renderer
      (example_window VK_PRESENT_MODE_FIFO_KHR) 800 600 (by decide) (by decide)⟩

/-- The scenario of the undefined extent: the surface reports
`(0xffffffff, 0xffffffff)` and the window takes the caller's `(800, 480)`. -/
theorem undefined_extent_scenario :
    (SetupSwapchain driver_undefined_extent example_renderer
        (example_window VK_PRESENT_MODE_FIFO_KHR) 800 480).status = Status.returned
      ∧ (SetupSwapchain driver_undefined_extent example_renderer
          (example_window VK_PRESENT_MODE_FIFO_KHR) 800 480).window.width = 800
      ∧ (SetupSwapchain driver_undefined_extent example_renderer
          (example_window VK_PRESENT_MODE_FIFO_KHR) 800 480).window.height = 480 := by
  decide

/-- C4: for every extent the surface reports, its two components being `0xffffffff`
together (the undefined-extent pair that the comment of line 558 names) or not at
all, and every caller-supplied width and height: if the surface reports the
undefined-extent pair `(0xffffffff, 0xffffffff)` the target's width and height become
the caller-supplied values, and otherwise they become the reported extent; the
swapchain is created with that extent. -/
theorem extent_resolution (d : SwapchainDriver) (r : VulkanRenderer) (window : Vulkan_Window)
    (width height : Nat)
    (hextent : d.surface_capabilities.currentExtent_width = 0xffffffff
      ↔ d.surface_capabilities.currentExtent_height = 0xffffffff) :
    ((SetupSwapchain d r window width height).window.width,
        (SetupSwapchain d r window width height).window.height)
        = (if (d.surface_capabilities.currentExtent_width,
                d.surface_capabilities.currentExtent_height) = (0xffffffff, 0xffffffff) then
            (width, height)
          else (d.surface_capabilities.currentExtent_width,
                d.surface_capabilities.currentExtent_height))
      ∧ Call.vkCreateSwapchainKHR r.vulkan_device_
            (swapchain_create_info d r window width height)
          ∈ (SetupSwapchain d r window width height).calls
      ∧ (swapchain_create_info d r window width height).imageExtent_width
          = (SetupSwapchain d r window width height).window.width
      ∧ (swapchain_create_info d r window width height).imageExtent_height
          = (SetupSwapchain d r window width height).window.height := by
  have hwindow := SetupSwapchain_extent d r window width height
  refine ⟨?_, (create_mem_calls_iff d r window width height _ _).2 ⟨rfl, rfl⟩, ?_, ?_⟩
  · rw [hwindow.1, hwindow.2]
    unfold resolve_extent
    by_cases hw : d.surface_capabilities.currentExtent_width = 0xffffffff
    · have hh := hextent.1 hw
      simp [hw, hh]
    · have hh : ¬ d.surface_capabilities.currentExtent_height = 0xffffffff :=
        fun h => hw (hextent.2 h)
      simp [hw, hh]
  · rw [hwindow.1]; rfl
  · rw [hwindow.2]; rfl

/-- Witness for C4: a surface that reports the undefined-extent pair leaves the
window at the caller's `(800, 480)`; a surface that reports `(800, 600)` leaves it at
`(800, 600)` although the caller asked for `(1024, 768)`. -/
theorem extent_resolution_witness :
    (driver_undefined_extent.surface_capabilities.currentExtent_width = 0xffffffff
        ↔ driver_undefined_extent.surface_capabilities.currentExtent_height = 0xffffffff)
      ∧ ((SetupSwapchain driver_undefined_extent example_renderer
            (example_window VK_PRESENT_MODE_FIFO_KHR) 800 480).window.width,
          (SetupSwapchain driver_undefined_extent example_renderer
            (example_window VK_PRESENT_MODE_FIFO_KHR) 800 480).window.height) = (800, 480)
      ∧ ((SetupSwapchain driver_three_images example_renderer
            (example_window VK_PRESENT_MODE_FIFO_KHR) 1024 768).window.width,
          (SetupSwapchain driver_three_images example_renderer
            (example_window VK_PRESENT_MODE_FIFO_KHR) 1024 768).window.height) = (800, 600) :=
  have hundefined := extent_resolution driver_undefined_extent example_renderer
    (example_window VK_PRESENT_MODE_FIFO_KHR) 800 480 (by decide)
  have hreported := extent_resolution driver_three_images example_renderer
    (example_window VK_PRESENT_MODE_FIFO_KHR) 1024 768 (by decide)
  ⟨by decide, hundefined.1.trans (by decide), hreported.1.trans (by decide)⟩

/-- C5: after every `SetupSwapchain` call that returns, for every prior window state,
`semaphore_count == image_count + 1`, `frames.size() == image_count` and
`semaphores.size() == semaphore_count`. -/
theorem swapchain_sizes (d : SwapchainDriver) (r : VulkanRenderer) (window : Vulkan_Window)
    (width height : Nat)
    (hreturned : (SetupSwapchain d r window width height).status = Status.returned) :
    (SetupSwapchain d r window width height).window.semaphore_count
        = (SetupSwapchain d r window width height).window.image_count + 1
      ∧ (SetupSwapchain d r window width height).window.frames.length
        = (SetupSwapchain d r window width height).window.image_count
      ∧ (SetupSwapchain d r window width height).window.semaphores.length
        = (SetupSwapchain d r window width height).window.semaphore_count := by
  obtain ⟨h1, h2, h3, h4⟩ := SetupSwapchain_window_of_returned d r window width height hreturned
  rw [h1, h2, h3, h4]
  exact ⟨rfl, rfl, rfl⟩

/-- Witness for C5: a window holding a two-image chain (two frames, three semaphore
pairs) is rebuilt onto a three-image chain; the call returns with three frames and
four semaphore pairs. -/
theorem swapchain_sizes_witness :
    (SetupSwapchain driver_three_images example_latched_renderer example_rebuilt_window
        800 600).status = Status.returned
      ∧ example_rebuilt_window.image_count = 2
      ∧ (SetupSwapchain driver_three_images example_latched_renderer example_rebuilt_window
          800 600).window.image_count = 3
      ∧ ((SetupSwapchain driver_three_images example_latched_renderer example_rebuilt_window
            800 600).window.semaphore_count
          = (SetupSwapchain driver_three_images example_latched_renderer example_rebuilt_window
            800 600).window.image_count + 1
        ∧ (SetupSwapchain driver_three_images example_latched_renderer example_rebuilt_window
            800 600).window.frames.length
          = (SetupSwapchain driver_three_images example_latched_renderer example_rebuilt_window
            800 600).window.image_count
        ∧ (SetupSwapchain driver_three_images example_latched_renderer example_rebuilt_window
            800 600).window.semaphores.length
          = (SetupSwapchain driver_three_images example_latched_renderer example_rebuilt_window
            800 600).window.semaphore_count) :=
  ⟨by decide, by decide, by decide,
    swapchain_sizes driver_three_images example_latched_renderer example_rebuilt_window 800 600
      (by decide)⟩

/-- C7: `SetupSwapchain` completes normally only if the image count the driver
reports lies in `[minimumConcurrentImageCount, 16)`, any other count stops the run
at the assertions; when it completes, every `idx < image_count` is a valid index
of the 16-entry backbuffer array and of `frames`. -/
theorem image_count_contract (d : SwapchainDriver) (r : VulkanRenderer) (window : Vulkan_Window)
    (width height : Nat) :
    ((SetupSwapchain d r window width height).status = Status.returned ↔
        (SetupSwapchain d r window width height).renderer.minimum_concurrent_image_count_
            ≤ d.image_count ∧ d.image_count < 16)
      ∧ ((SetupSwapchain d r window width height).status = Status.assertion_failed ↔
        ¬ ((SetupSwapchain d r window width height).renderer.minimum_concurrent_image_count_
            ≤ d.image_count ∧ d.image_count < 16))
      ∧ ((SetupSwapchain d r window width height).status = Status.returned →
        (SetupSwapchain d r window width height).window.image_count = d.image_count
          ∧ (SetupSwapchain d r window width height).renderer.minimum_concurrent_image_count_
              ≤ (SetupSwapchain d r window width height).window.image_count
          ∧ (SetupSwapchain d r window width height).window.image_count < 16
          ∧ (backbuffers d (SetupSwapchain d r window width height).window.image_count).length
              = 16
          ∧ ∀ idx, idx < (SetupSwapchain d r window width height).window.image_count →
              idx < (backbuffers d
                  (SetupSwapchain d r window width height).window.image_count).length
                ∧ idx < (SetupSwapchain d r window width height).window.frames.length) := by
  have hstatus := SetupSwapchain_status d r window width height
  rw [SetupSwapchain_minimum]
  by_cases h : latch_minimum_concurrent_image_count r.minimum_concurrent_image_count_
      window.present_mode ≤ d.image_count ∧ d.image_count < BACKBUFFER_CAPACITY
  · rw [if_pos h] at hstatus
    obtain ⟨h1, -, h3, -⟩ := SetupSwapchain_window_of_returned d r window width height hstatus
    have hlen : ∀ n, (backbuffers d n).length = 16 := by
      intro n; simp [backbuffers]
    refine ⟨⟨fun _ => h, fun _ => hstatus⟩, ⟨fun hfail => ?_, fun hnot => absurd h hnot⟩, ?_⟩
    · rw [hstatus] at hfail; cases hfail
    · intro _
      rw [h1, h3, hlen]
      refine ⟨rfl, h.1, h.2, rfl, fun idx hidx => ⟨lt_trans hidx h.2, hidx⟩⟩
  · rw [if_neg h] at hstatus
    refine ⟨⟨fun hret => ?_, fun hin => absurd hin h⟩, ⟨fun _ => h, fun _ => hstatus⟩, ?_⟩
    · rw [hstatus] at hret; cases hret
    · intro hret
      rw [hstatus] at hret; cases hret

/-- C8: for every window state with the rebuild flag clear and the window not
minimized, `Present` with an out-of-date result issues its present call, sets the
needs-rebuild flag and returns with `semaphore_index` (and the whole window)
unchanged. -/
theorem present_out_of_date (r : VulkanRenderer) (window : Vulkan_Window)
    (hflag : r.should_rebuild_swapchain_ = false) (hminimized : window.is_minimized = false) :
    (Present VK_ERROR_OUT_OF_DATE_KHR r window).status = Status.returned
      ∧ (Present VK_ERROR_OUT_OF_DATE_KHR r window).calls
          = [Call.vkQueuePresentKHR r.vulkan_queue_
              (window.semaphores.getD window.semaphore_index
                Vulkan_FrameSemaphore.zero).render_complete_semaphore
              window.swapchain window.frame_index]
      ∧ (Present VK_ERROR_OUT_OF_DATE_KHR r window).renderer.should_rebuild_swapchain_ = true
      ∧ (Present VK_ERROR_OUT_OF_DATE_KHR r window).window.semaphore_index
          = window.semaphore_index
      ∧ (Present VK_ERROR_OUT_OF_DATE_KHR r window).window = window := by
  simp [Present, hflag, hminimized]

/-- Witness for C8: presenting image 1 of the three-image window with the flag clear. -/
theorem present_out_of_date_witness :
    example_idle_renderer.should_rebuild_swapchain_ = false
      ∧ example_presenting_window.is_minimized = false
      ∧ ((Present VK_ERROR_OUT_OF_DATE_KHR example_idle_renderer
            example_presenting_window).status = Status.returned
        ∧ (Present VK_ERROR_OUT_OF_DATE_KHR example_idle_renderer
            example_presenting_window).calls = [Call.vkQueuePresentKHR 4 207 11 1]
        ∧ (Present VK_ERROR_OUT_OF_DATE_KHR example_idle_renderer
            example_presenting_window).renderer.should_rebuild_swapchain_ = true
        ∧ (Present VK_ERROR_OUT_OF_DATE_KHR example_idle_renderer
            example_presenting_window).window.semaphore_index = 3
        ∧ (Present VK_ERROR_OUT_OF_DATE_KHR example_idle_renderer
            example_presenting_window).window = example_presenting_window) :=
  ⟨by decide, by decide,
    present_out_of_date example_idle_renderer example_presenting_window (by decide) (by decide)⟩

/-- C9: when `Present` is not skipped and `semaphore_index` is a valid slot
(`semaphore_index < semaphore_count`, a `uint32_t`), a success result sets
`semaphore_index` to `(semaphore_index + 1) mod semaphore_count` and leaves the
needs-rebuild flag false; the new index is the same for every window and renderer
with the same `semaphore_index` and `semaphore_count`, in particular for every
`frame_index`; a suboptimal result sets the flag and advances the index in the same
way. -/
theorem present_advances_semaphore_index (r : VulkanRenderer) (window : Vulkan_Window)
    (hflag : r.should_rebuild_swapchain_ = false) (hminimized : window.is_minimized = false)
    (hindex : window.semaphore_index < window.semaphore_count)
    (hcount : window.semaphore_count < UINT32_RANGE) :
    ((Present VK_SUCCESS r window).status = Status.returned
        ∧ (Present VK_SUCCESS r window).window.semaphore_index
            = (window.semaphore_index + 1) % window.semaphore_count
        ∧ (Present VK_SUCCESS r window).renderer.should_rebuild_swapchain_ = false)
      ∧ (∀ (r2 : VulkanRenderer) (window2 : Vulkan_Window),
          r2.should_rebuild_swapchain_ = false → window2.is_minimized = false →
          window2.semaphore_index = window.semaphore_index →
          window2.semaphore_count = window.semaphore_count →
            (Present VK_SUCCESS r2 window2).window.semaphore_index
              = (Present VK_SUCCESS r window).window.semaphore_index)
      ∧ (∀ frame_index : Nat,
          (Present VK_SUCCESS r { window with frame_index := frame_index }).window.semaphore_index
            = (Present VK_SUCCESS r window).window.semaphore_index)
      ∧ ((Present VK_SUBOPTIMAL_KHR r window).status = Status.returned
        ∧ (Present VK_SUBOPTIMAL_KHR r window).window.semaphore_index
            = (window.semaphore_index + 1) % window.semaphore_count
        ∧ (Present VK_SUBOPTIMAL_KHR r window).renderer.should_rebuild_swapchain_ = true) := by
  have hwrap : (window.semaphore_index + 1) % UINT32_RANGE = window.semaphore_index + 1 :=
    Nat.mod_eq_of_lt (by omega)
  refine ⟨?_, ?_, ?_, ?_⟩
  · simp [Present, hflag, hminimized, VK_VALIDATE_RESULT_assertion_holds, hwrap]
  · intro r2 window2 hflag2 hminimized2 hsame_index hsame_count
    simp [Present, hflag, hminimized, hflag2, hminimized2, VK_VALIDATE_RESULT_assertion_holds,
      hsame_index, hsame_count]
  · intro frame_index
    simp [Present, hflag, hminimized, VK_VALIDATE_RESULT_assertion_holds]
  · have hne : VK_SUBOPTIMAL_KHR ≠ VK_ERROR_OUT_OF_DATE_KHR := by decide
    simp [Present, hflag, hminimized, VK_VALIDATE_RESULT_assertion_holds, hwrap, hne]

/-- Witness for C9: from the last of four semaphore slots a successful present wraps
the index to 0, whatever image was acquired. -/
theorem present_advances_semaphore_index_witness :
    example_idle_renderer.should_rebuild_swapchain_ = false
      ∧ example_presenting_window.is_minimized = false
      ∧ example_presenting_window.semaphore_index < example_presenting_window.semaphore_count
      ∧ example_presenting_window.semaphore_count < UINT32_RANGE
      ∧ (Present VK_SUCCESS example_idle_renderer example_presenting_window).window.semaphore_index
          = (3 + 1) % 4
      ∧ (Present VK_SUCCESS example_idle_renderer
          example_presenting_window).renderer.should_rebuild_swapchain_ = false
      ∧ (Present VK_SUCCESS example_idle_renderer
          { example_presenting_window with frame_index := 2 }).window.semaphore_index
          = (Present VK_SUCCESS example_idle_renderer example_presenting_window).window.semaphore_index
      ∧ (Present VK_SUBOPTIMAL_KHR example_idle_renderer
          example_presenting_window).window.semaphore_index = (3 + 1) % 4
      ∧ (Present VK_SUBOPTIMAL_KHR example_idle_renderer
          example_presenting_window).renderer.should_rebuild_swapchain_ = true :=
  have h := present_advances_semaphore_index example_idle_renderer example_presenting_window
    (by decide) (by decide) (by decide) (by decide)
  ⟨by decide, by decide, by decide, by decide, h.1.2.1, h.1.2.2, h.2.2.1 2, h.2.2.2.2.1,
    h.2.2.2.2.2⟩

/-- C10: for every presentation result and every window and renderer state with
`should_rebuild_swapchain_` true or `is_minimized` true, `Present` issues no present
call and returns with `semaphore_index`, `frame_index` and the rebuild flag (indeed
the whole window and renderer) unchanged. -/
theorem present_skipped (present_result : Int) (r : VulkanRenderer) (window : Vulkan_Window)
    (hskip : r.should_rebuild_swapchain_ = true ∨ window.is_minimized = true) :
    (Present present_result r window).status = Status.returned
      ∧ (Present present_result r window).calls = []
      ∧ (Present present_result r window).window.semaphore_index = window.semaphore_index
      ∧ (Present present_result r window).window.frame_index = window.frame_index
      ∧ (Present present_result r window).renderer.should_rebuild_swapchain_
          = r.should_rebuild_swapchain_
      ∧ (Present present_result r window).window = window
      ∧ (Present present_result r window).renderer = r := by
  simp [Present, hskip]

/-- Witness for C10: with a rebuild pending, and with the window minimized, a present
that would succeed is not issued. -/
theorem present_skipped_witness :
    (example_latched_renderer.should_rebuild_swapchain_ = true
        ∨ example_presenting_window.is_minimized = true)
      ∧ (Present VK_SUCCESS example_latched_renderer example_presenting_window).calls = []
      ∧ (Present VK_SUCCESS example_latched_renderer
          example_presenting_window).window.semaphore_index = 3
      ∧ (Present VK_SUCCESS example_latched_renderer
          example_presenting_window).window.frame_index = 1
      ∧ (Present VK_SUCCESS example_latched_renderer
          example_presenting_window).renderer.should_rebuild_swapchain_ = true
      ∧ (Present VK_SUCCESS example_idle_renderer
          { example_presenting_window with is_minimized := true }).calls = [] :=
  have h := present_skipped VK_SUCCESS example_latched_renderer example_presenting_window
    (Or.inl (by decide))
  have hminimized := present_skipped VK_SUCCESS example_idle_renderer
    { example_presenting_window with is_minimized := true } (Or.inr (by decide))
  ⟨Or.inl (by decide), h.2.1, h.2.2.1, h.2.2.2.1, h.2.2.2.2.1, hminimized.2.1⟩

/-- C11: in `RenderWindow` with the target not minimized, an out-of-date acquire
result sets the needs-rebuild flag and ends the call after the acquire (no fence
wait, no command-pool reset, no queue submission); a suboptimal result sets the flag
and the acquired frame is still recorded (fence wait and reset, command-pool reset,
the command buffer begun, the render pass, the command buffer ended) and submitted
exactly once, with the semaphores of the slot and the fence of the frame; a success
result leaves the flag as it was and records and submits in the same way, exactly
once. -/
theorem render_window_acquire_results (d : AcquireDriver) (r : VulkanRenderer)
    (window : Vulkan_Window) (hminimized : window.is_minimized = false) :
    (d.acquire_result = VK_ERROR_OUT_OF_DATE_KHR →
        (RenderWindow d r window).status = Status.returned
          ∧ (RenderWindow d r window).renderer.should_rebuild_swapchain_ = true
          ∧ (RenderWindow d r window).calls
              = [Call.vkAcquireNextImageKHR r.vulkan_device_ window.swapchain
                  (window.semaphores.getD window.semaphore_index
                    Vulkan_FrameSemaphore.zero).image_acquired_semaphore]
          ∧ queue_submissions (RenderWindow d r window).calls = [])
      ∧ (d.acquire_result = VK_SUBOPTIMAL_KHR →
        (RenderWindow d r window).status = Status.returned
          ∧ (RenderWindow d r window).renderer.should_rebuild_swapchain_ = true
          ∧ (RenderWindow d r window).calls
              = [Call.vkAcquireNextImageKHR r.vulkan_device_ window.swapchain
                  (window.semaphores.getD window.semaphore_index
                    Vulkan_FrameSemaphore.zero).image_acquired_semaphore,
                 Call.vkWaitForFences r.vulkan_device_
                  (window.frames.getD d.image_index Vulkan_Frame.zero).fence,
                 Call.vkResetFences r.vulkan_device_
                  (window.frames.getD d.image_index Vulkan_Frame.zero).fence,
                 Call.vkResetCommandPool r.vulkan_device_
                  (window.frames.getD d.image_index Vulkan_Frame.zero).command_pool,
                 Call.vkBeginCommandBuffer
                  (window.frames.getD d.image_index Vulkan_Frame.zero).command_buffer,
                 Call.vkCmdBeginRenderingKHR
                  (window.frames.getD d.image_index Vulkan_Frame.zero).command_buffer
                  (window.frames.getD d.image_index Vulkan_Frame.zero).backbuffer_view
                  window.width window.height,
                 Call.ImGui_ImplVulkan_RenderDrawData
                  (window.frames.getD d.image_index Vulkan_Frame.zero).command_buffer,
                 Call.vkCmdEndRenderingKHR
                  (window.frames.getD d.image_index Vulkan_Frame.zero).command_buffer,
                 Call.vkEndCommandBuffer
                  (window.frames.getD d.image_index Vulkan_Frame.zero).command_buffer,
                 Call.vkQueueSubmit_synchronized r.vulkan_queue_
                  (window.semaphores.getD window.semaphore_index
                    Vulkan_FrameSemaphore.zero).image_acquired_semaphore
                  (window.frames.getD d.image_index Vulkan_Frame.zero).command_buffer
                  (window.semaphores.getD window.semaphore_index
                    Vulkan_FrameSemaphore.zero).render_complete_semaphore
                  (window.frames.getD d.image_index Vulkan_Frame.zero).fence]
          ∧ queue_submissions (RenderWindow d r window).calls
              = [Call.vkQueueSubmit_synchronized r.vulkan_queue_
                  (window.semaphores.getD window.semaphore_index
                    Vulkan_FrameSemaphore.zero).image_acquired_semaphore
                  (window.frames.getD d.image_index Vulkan_Frame.zero).command_buffer
                  (window.semaphores.getD window.semaphore_index
                    Vulkan_FrameSemaphore.zero).render_complete_semaphore
                  (window.frames.getD d.image_index Vulkan_Frame.zero).fence])
      ∧ (d.acquire_result = VK_SUCCESS →
        (RenderWindow d r window).status = Status.returned
          ∧ (RenderWindow d r window).renderer.should_rebuild_swapchain_
              = r.should_rebuild_swapchain_
          ∧ (RenderWindow d r window).calls
              = [Call.vkAcquireNextImageKHR r.vulkan_device_ window.swapchain
                  (window.semaphores.getD window.semaphore_index
                    Vulkan_FrameSemaphore.zero).image_acquired_semaphore,
                 Call.vkWaitForFences r.vulkan_device_
                  (window.frames.getD d.image_index Vulkan_Frame.zero).fence,
                 Call.vkResetFences r.vulkan_device_
                  (window.frames.getD d.image_index Vulkan_Frame.zero).fence,
                 Call.vkResetCommandPool r.vulkan_device_
                  (window.frames.getD d.image_index Vulkan_Frame.zero).command_pool,
                 Call.vkBeginCommandBuffer
                  (window.frames.getD d.image_index Vulkan_Frame.zero).command_buffer,
                 Call.vkCmdBeginRenderingKHR
                  (window.frames.getD d.image_index Vulkan_Frame.zero).command_buffer
                  (window.frames.getD d.image_index Vulkan_Frame.zero).backbuffer_view
                  window.width window.height,
                 Call.ImGui_ImplVulkan_RenderDrawData
                  (window.frames.getD d.image_index Vulkan_Frame.zero).command_buffer,
                 Call.vkCmdEndRenderingKHR
                  (window.frames.getD d.image_index Vulkan_Frame.zero).command_buffer,
                 Call.vkEndCommandBuffer
                  (window.frames.getD d.image_index Vulkan_Frame.zero).command_buffer,
                 Call.vkQueueSubmit_synchronized r.vulkan_queue_
                  (window.semaphores.getD window.semaphore_index
                    Vulkan_FrameSemaphore.zero).image_acquired_semaphore
                  (window.frames.getD d.image_index Vulkan_Frame.zero).command_buffer
                  (window.semaphores.getD window.semaphore_index
                    Vulkan_FrameSemaphore.zero).render_complete_semaphore
                  (window.frames.getD d.image_index Vulkan_Frame.zero).fence]
          ∧ queue_submissions (RenderWindow d r window).calls
              = [Call.vkQueueSubmit_synchronized r.vulkan_queue_
                  (window.semaphores.getD window.semaphore_index
                    Vulkan_FrameSemaphore.zero).image_acquired_semaphore
                  (window.frames.getD d.image_index Vulkan_Frame.zero).command_buffer
                  (window.semaphores.getD window.semaphore_index
                    Vulkan_FrameSemaphore.zero).render_complete_semaphore
                  (window.frames.getD d.image_index Vulkan_Frame.zero).fence]) := by
  have hne : VK_SUBOPTIMAL_KHR ≠ VK_ERROR_OUT_OF_DATE_KHR := by decide
  have hne0 : VK_SUCCESS ≠ VK_ERROR_OUT_OF_DATE_KHR := by decide
  have hne1 : VK_SUCCESS ≠ VK_SUBOPTIMAL_KHR := by decide
  refine ⟨fun h => ?_, fun h => ?_, fun h => ?_⟩
  · simp [RenderWindow, hminimized, h, queue_submissions, Call.is_queue_submit]
  · have hcalls := RenderWindow_calls_of_recording d r window hminimized (by rw [h]; exact hne)
    simp only [record_and_submit_calls] at hcalls
    refine ⟨RenderWindow_status d r window, ?_, hcalls, ?_⟩
    · simp [RenderWindow, hminimized, h, hne, VK_VALIDATE_RESULT_assertion_holds]
    · rw [hcalls]
      simp [queue_submissions, Call.is_queue_submit]
  · have hcalls := RenderWindow_calls_of_recording d r window hminimized (by rw [h]; exact hne0)
    simp only [record_and_submit_calls] at hcalls
    refine ⟨RenderWindow_status d r window, ?_, hcalls, ?_⟩
    · simp [RenderWindow, hminimized, h, hne0, hne1, VK_VALIDATE_RESULT_assertion_holds]
    · rw [hcalls]
      simp [queue_submissions, Call.is_queue_submit]

/-- Witness for C11: the three acquire results on the three-image window, which uses
semaphore pair 3 (handles 206 and 207) and is handed image 1 (fence 601, command pool
401, command buffer 501, view 301). -/
theorem render_window_acquire_results_witness :
    example_presenting_window.is_minimized = false
      ∧ (RenderWindow acquire_out_of_date example_idle_renderer example_presenting_window).calls
          = [Call.vkAcquireNextImageKHR 3 11 206]
      ∧ (RenderWindow acquire_out_of_date example_idle_renderer
          example_presenting_window).renderer.should_rebuild_swapchain_ = true
      ∧ (RenderWindow acquire_suboptimal example_idle_renderer
          example_presenting_window).renderer.should_rebuild_swapchain_ = true
      ∧ (RenderWindow acquire_suboptimal example_idle_renderer example_presenting_window).calls
          = [Call.vkAcquireNextImageKHR 3 11 206, Call.vkWaitForFences 3 601,
             Call.vkResetFences 3 601, Call.vkResetCommandPool 3 401,
             Call.vkBeginCommandBuffer 501, Call.vkCmdBeginRenderingKHR 501 301 800 600,
             Call.ImGui_ImplVulkan_RenderDrawData 501, Call.vkCmdEndRenderingKHR 501,
             Call.vkEndCommandBuffer 501, Call.vkQueueSubmit_synchronized 4 206 501 207 601]
      ∧ queue_submissions (RenderWindow acquire_suboptimal example_idle_renderer
          example_presenting_window).calls
          = [Call.vkQueueSubmit_synchronized 4 206 501 207 601]
      ∧ (RenderWindow acquire_success example_idle_renderer
          example_presenting_window).renderer.should_rebuild_swapchain_ = false
      ∧ queue_submissions (RenderWindow acquire_success example_idle_renderer
          example_presenting_window).calls
          = [Call.vkQueueSubmit_synchronized 4 206 501 207 601] :=
  have hout := (render_window_acquire_results acquire_out_of_date example_idle_renderer
    example_presenting_window (by decide)).1 rfl
  have hsub := (render_window_acquire_results acquire_suboptimal example_idle_renderer
    example_presenting_window (by decide)).2.1 rfl
  have hok := (render_window_acquire_results acquire_success example_idle_renderer
    example_presenting_window (by decide)).2.2 rfl
  ⟨by decide, hout.2.2.1, hout.2.1, hsub.2.1, hsub.2.2.1.trans (by decide),
    hsub.2.2.2.trans (by decide), hok.2.1, hok.2.2.2.trans (by decide)⟩

/-- C13: when the overlay is visible and `SetTexture` raises, `RenderOverlay` returns
normally, and the hand-off is its last call: no fence wait, command-pool reset,
recording or queue submission follows it; the only submission of the call is the one
made before the hand-off. -/
theorem render_overlay_failed_handoff (tick : OverlayTick) (r : VulkanRenderer)
    (hvisible : tick.visible = true) (hfailed : tick.set_texture_result > VR_NO_ERROR) :
    SetTexture tick.set_texture_result = false
      ∧ (RenderOverlay tick r).status = Status.returned
      ∧ (RenderOverlay tick r).calls
          = Call.IsOverlayVisible
            :: overlay_render_calls r (RenderOverlay tick r).renderer.vulkan_overlay_
            ++ [Call.SetOverlayTexture r.vulkan_overlay_.texture r.vulkan_overlay_.width
                  r.vulkan_overlay_.height r.vulkan_overlay_.texture_format.format]
      ∧ (∀ before after image width height format,
          (RenderOverlay tick r).calls
              = before ++ Call.SetOverlayTexture image width height format :: after →
            after = [])
      ∧ queue_submissions (RenderOverlay tick r).calls = [overlay_submission r] := by
  have hcalls : (RenderOverlay tick r).calls
      = Call.IsOverlayVisible
        :: overlay_render_calls r (RenderOverlay tick r).renderer.vulkan_overlay_
        ++ [Call.SetOverlayTexture r.vulkan_overlay_.texture r.vulkan_overlay_.width
              r.vulkan_overlay_.height r.vulkan_overlay_.texture_format.format] := by
    simp [RenderOverlay, hvisible, hfailed, SetTexture, overlay_render_calls]
  refine ⟨by simp [SetTexture, hfailed], RenderOverlay_status tick r, hcalls, ?_, ?_⟩
  · intro before after image width height format hsplit
    rw [hcalls] at hsplit
    exact nothing_after_last _ _ _ before after (by simp [overlay_render_calls]) hsplit
  · rw [RenderOverlay_submissions]
    simp [hvisible, hfailed, overlay_submission]

/-- Witness for C13: the compositor refuses the texture of the 1280 by 720 overlay
with error 10; the call returns with the hand-off as its last call. -/
theorem render_overlay_failed_handoff_witness :
    tick_handoff_fails.visible = true
      ∧ tick_handoff_fails.set_texture_result > VR_NO_ERROR
      ∧ (RenderOverlay tick_handoff_fails example_overlay_renderer).status = Status.returned
      ∧ (RenderOverlay tick_handoff_fails example_overlay_renderer).calls.getLast?
          = some (Call.SetOverlayTexture 34 1280 720 43)
      ∧ queue_submissions (RenderOverlay tick_handoff_fails example_overlay_renderer).calls
          = [Call.vkQueueSubmit 4 32 33] :=
  have h := render_overlay_failed_handoff tick_handoff_fails example_overlay_renderer
    (by decide) (by decide)
  ⟨by decide, by decide, h.2.1, by decide, h.2.2.2.2⟩

/-- C14, as stated, fails: the device list holds two integrated GPUs, handles 10 and
20, and no discrete one; `Initialize` returns with the second one selected, not the
first integrated GPU of the list. -/
theorem device_selection_counterexample :
    two_integrated_driver.device_list = [10, 20]
      ∧ two_integrated_driver.device_list.find?
          (fun device => decide (two_integrated_driver.device_type device
            = VK_PHYSICAL_DEVICE_TYPE_DISCRETE_GPU)) = none
      ∧ two_integrated_driver.device_list.find?
          (fun device => decide (two_integrated_driver.device_type device
            = VK_PHYSICAL_DEVICE_TYPE_INTEGRATED_GPU)) = some 10
      ∧ (Initialize example_build two_integrated_driver VulkanRenderer.constructed).status
          = Status.returned
      ∧ (Initialize example_build two_integrated_driver
          VulkanRenderer.constructed).renderer.vulkan_physical_device_ = 20 := by
  decide

/-- C14, amended: for every enumerated device list, if the list contains a discrete
GPU the selected device is the first discrete GPU in the list; otherwise, if it
contains an integrated GPU, the selected device is the last integrated GPU in the
list (and with neither the selection stays as it was); `Initialize`, when it returns,
holds that selection. -/
theorem device_selection (build : Build) (d : InitializeDriver) (r : VulkanRenderer) :
    (∀ device, d.device_list.find?
          (fun dv => decide (d.device_type dv = VK_PHYSICAL_DEVICE_TYPE_DISCRETE_GPU))
          = some device →
        select_physical_device d.device_type r.vulkan_physical_device_ d.device_list = device)
      ∧ (d.device_list.find?
          (fun dv => decide (d.device_type dv = VK_PHYSICAL_DEVICE_TYPE_DISCRETE_GPU)) = none →
        select_physical_device d.device_type r.vulkan_physical_device_ d.device_list
          = ((d.device_list.filter
              (fun dv => decide (d.device_type dv
                = VK_PHYSICAL_DEVICE_TYPE_INTEGRATED_GPU))).getLast?).getD
              r.vulkan_physical_device_)
      ∧ ((Initialize build d r).status = Status.returned →
        (Initialize build d r).renderer.vulkan_physical_device_
          = select_physical_device d.device_type r.vulkan_physical_device_ d.device_list) :=
  ⟨fun device h => select_physical_device_of_discrete _ _ _ device h,
    fun h => select_physical_device_of_no_discrete _ _ _ h,
    fun h => ((Initialize_renderer build d r).2 h).2.1⟩

/-- Witness for C14: with the integrated GPU 10 listed before the discrete GPU 20,
`Initialize` returns with the discrete GPU 20 selected. -/
theorem device_selection_witness :
    example_initialize_driver.device_list.find?
          (fun dv => decide (example_initialize_driver.device_type dv
            = VK_PHYSICAL_DEVICE_TYPE_DISCRETE_GPU)) = some 20
      ∧ (Initialize example_build example_initialize_driver VulkanRenderer.constructed).status
          = Status.returned
      ∧ (Initialize example_build example_initialize_driver
          VulkanRenderer.constructed).renderer.vulkan_physical_device_ = 20 :=
  have h := device_selection example_build example_initialize_driver VulkanRenderer.constructed
  ⟨by decide, by decide, (h.2.2 (by decide)).trans (h.1 20 (by decide))⟩

/-- C15: for every list of present modes the surface advertises, the selected mode is
mailbox if mailbox is in the list, otherwise relaxed FIFO if relaxed FIFO is in the
list, otherwise FIFO; `SetupWindow` stores that mode in the window. -/
theorem present_mode_preference (m_modes : List Nat) :
    select_present_mode m_modes =
        (if VK_PRESENT_MODE_MAILBOX_KHR ∈ m_modes then VK_PRESENT_MODE_MAILBOX_KHR
         else if VK_PRESENT_MODE_FIFO_RELAXED_KHR ∈ m_modes then
           VK_PRESENT_MODE_FIFO_RELAXED_KHR
         else VK_PRESENT_MODE_FIFO_KHR)
      ∧ ∀ (build : Build) (d : WindowDriver) (r : VulkanRenderer) (window : Vulkan_Window)
          (surface width height : Nat),
          d.present_modes = m_modes → d.surface_support = VK_TRUE →
            (SetupWindow build d r window surface width height).window.present_mode
              = select_present_mode m_modes := by
  constructor
  · unfold select_present_mode
    by_cases hm : VK_PRESENT_MODE_MAILBOX_KHR ∈ m_modes <;>
      by_cases hr : VK_PRESENT_MODE_FIFO_RELAXED_KHR ∈ m_modes <;>
      simp [hm, hr]
  · intro build d r window surface width height hmodes hsupport
    subst hmodes
    unfold SetupWindow
    by_cases hb : build.IMGUI_SDL_PLATFORM_BACKEND = true
    · simp only [hsupport, hb, ne_eq, not_true_eq_false, if_false, if_true]
      by_cases h1 : latch_minimum_concurrent_image_count r.minimum_concurrent_image_count_
          (select_present_mode d.present_modes) ≤ d.swapchain.image_count <;>
        by_cases h2 : d.swapchain.image_count < BACKBUFFER_CAPACITY <;>
        simp [SetupSwapchain, VK_VALIDATE_RESULT_assertion_holds, vkGetSwapchainImagesKHR, h1,
          h2, DestroyFrames_window]
    · simp [hsupport, hb]

/-- Witness for C15: a surface that advertises FIFO, relaxed FIFO and immediate
presentation, but not mailbox, is given relaxed FIFO, and `SetupWindow` stores it. -/
theorem present_mode_preference_witness :
    example_window_driver.surface_support = VK_TRUE
      ∧ select_present_mode example_window_driver.present_modes
          = VK_PRESENT_MODE_FIFO_RELAXED_KHR
      ∧ (SetupWindow example_build example_window_driver example_renderer
          (example_window VK_PRESENT_MODE_IMMEDIATE_KHR) 9 800 600).window.present_mode
          = VK_PRESENT_MODE_FIFO_RELAXED_KHR :=
  have h := present_mode_preference example_window_driver.present_modes
  ⟨by decide, h.1.trans (by decide),
    (h.2 example_build example_window_driver example_renderer
      (example_window VK_PRESENT_MODE_IMMEDIATE_KHR) 9 800 600 rfl (by decide)).trans
      (h.1.trans (by decide))⟩

/-- C16: for every memory-type table (at most `VK_MAX_MEMORY_TYPES` = 32 entries),
type-bit mask and required property flags, `find_memory_type_index` returns the least
index `i < memoryTypeCount` whose bit is set in the mask and whose property flags
include all required flags, and it raises exactly when no such index exists. -/
theorem find_memory_type_index_least (memory : VkPhysicalDeviceMemoryProperties)
    (type properties : Nat) (hcount : memory.memoryTypeCount ≤ VK_MAX_MEMORY_TYPES) :
    (∀ i, find_memory_type_index memory type properties = some i ↔
        i < memory.memoryTypeCount
          ∧ (type.testBit i = true
            ∧ ∀ k, properties.testBit k = true →
                (memory.memoryTypes.getD i 0).testBit k = true)
          ∧ ∀ j, j < i →
              ¬ (type.testBit j = true
                ∧ ∀ k, properties.testBit k = true →
                    (memory.memoryTypes.getD j 0).testBit k = true))
      ∧ (find_memory_type_index memory type properties = none ↔
        ∀ j, j < memory.memoryTypeCount →
          ¬ (type.testBit j = true
            ∧ ∀ k, properties.testBit k = true →
                (memory.memoryTypes.getD j 0).testBit k = true)) := by
  unfold find_memory_type_index
  constructor
  · intro i
    rw [find_memory_type_index_from_eq_some]
    constructor
    · rintro ⟨-, hlt, hmatch, hfirst⟩
      have hi : i < memory.memoryTypeCount := by omega
      refine ⟨hi, (memory_type_matches_iff memory type properties i (by omega)).1 hmatch, ?_⟩
      intro j hj hsuitable
      have := hfirst j (Nat.zero_le j) hj
      rw [(memory_type_matches_iff memory type properties j (by omega)).2 hsuitable] at this
      cases this
    · rintro ⟨hi, hsuitable, hfirst⟩
      refine ⟨Nat.zero_le i, by omega,
        (memory_type_matches_iff memory type properties i (by omega)).2 hsuitable, ?_⟩
      intro j _ hj
      by_contra hne
      have htrue : memory_type_matches memory type properties j = true := by
        simpa using hne
      exact hfirst j hj ((memory_type_matches_iff memory type properties j (by omega)).1 htrue)
  · rw [find_memory_type_index_from_eq_none]
    constructor
    · intro h j hj hsuitable
      have := h j (Nat.zero_le j) (by omega)
      rw [(memory_type_matches_iff memory type properties j (by omega)).2 hsuitable] at this
      cases this
    · intro h j _ hj
      by_contra hne
      have htrue : memory_type_matches memory type properties j = true := by
        simpa using hne
      exact h j (by omega)
        ((memory_type_matches_iff memory type properties j (by omega)).1 htrue)

/-- Witness for C16: in the table with flags 6, 1, 7, a mask allowing every type
selects the device-local type 1, a mask allowing only types 0 and 2 selects type 2,
and a mask allowing only type 0 raises. -/
theorem find_memory_type_index_least_witness :
    example_memory_properties.memoryTypeCount ≤ VK_MAX_MEMORY_TYPES
      ∧ find_memory_type_index example_memory_properties 7 VK_MEMORY_PROPERTY_DEVICE_LOCAL_BIT
          = some 1
      ∧ find_memory_type_index example_memory_properties 5 VK_MEMORY_PROPERTY_DEVICE_LOCAL_BIT
          = some 2
      ∧ find_memory_type_index example_memory_properties 1 VK_MEMORY_PROPERTY_DEVICE_LOCAL_BIT
          = none
      ∧ (∀ j, j < example_memory_properties.memoryTypeCount →
          ¬ ((1 : Nat).testBit j = true
            ∧ ∀ k, (VK_MEMORY_PROPERTY_DEVICE_LOCAL_BIT : Nat).testBit k = true →
                (example_memory_properties.memoryTypes.getD j 0).testBit k = true)) :=
  ⟨by decide, by decide, by decide, by decide,
    (find_memory_type_index_least example_memory_properties 1
      VK_MEMORY_PROPERTY_DEVICE_LOCAL_BIT (by decide)).2.1 (by decide)⟩

/-- C17, as stated, fails: at 60 Hz the target time is 16,666,667 ns, the
single-precision quotient, not floor(1e9 / 60) = 16,666,666 ns; with 2,000,000 ns
elapsed the loop sleeps 14,666,667 ns, not 14,666,666 ns. -/
theorem frame_pacer_sleep_counterexample :
    target_time 60 = some 16666667
      ∧ (1000000000 / 60 : Nat) = 16666666
      ∧ frame_duration 2000000 0 = 2000000
      ∧ frame_pacer 60 2000000 0 = some (some 14666667)
      ∧ (14666667 : Nat) ≠ 1000000000 / 60 - 2000000 := by
  decide

/-- C17, amended: with target the single-precision quotient of 1e9 by the refresh
rate, truncated to an integer, and elapsed the measured time since the last tick, the
loop sleeps exactly target - elapsed when elapsed < target and does not sleep at all
when elapsed >= target, so the sleep duration is positive and never wraps around; for
90 Hz the target is 11,111,111 ns and with 2,000,000 ns elapsed the sleep is
9,111,111 ns. -/
theorem frame_pacer_sleep (rate : ℚ) (target now last : Nat)
    (htarget : target_time rate = some target) :
    frame_pacer rate now last
        = some (if frame_duration now last < target then
            some (target - frame_duration now last) else none)
      ∧ (∀ sleep, frame_pacer rate now last = some (some sleep) →
          sleep + frame_duration now last = target ∧ 0 < sleep ∧ sleep < UINT64_RANGE)
      ∧ (frame_duration now last ≥ target → frame_pacer rate now last = some none)
      ∧ target_time 90 = some 11111111
      ∧ frame_pacer 90 2000000 0 = some (some 9111111) := by
  have hlt := target_time_lt rate target htarget
  have hpacer : frame_pacer rate now last
      = some (if frame_duration now last < target then
          some (target - frame_duration now last) else none) := by
    unfold frame_pacer
    rw [htarget, Option.map_some', frame_delay_eq _ _ hlt]
  refine ⟨hpacer, ?_, ?_, by decide, by decide⟩
  · intro sleep hsleep
    rw [hpacer] at hsleep
    by_cases h : frame_duration now last < target
    · simp only [h, if_true, Option.some.injEq] at hsleep
      omega
    · simp [h] at hsleep
  · intro h
    rw [hpacer]
    simp [Nat.not_lt.2 h]

/-- Witness for C17: at 72 Hz the target is 13,888,889 ns; a tick that took
3,000,000 ns is followed by a sleep of 10,888,889 ns. -/
theorem frame_pacer_sleep_witness :
    target_time 72 = some 13888889
      ∧ frame_pacer 72 5000000 2000000 = some (some 10888889)
      ∧ (∀ sleep, frame_pacer 72 5000000 2000000 = some (some sleep) →
          sleep + frame_duration 5000000 2000000 = 13888889 ∧ 0 < sleep
            ∧ sleep < UINT64_RANGE) :=
  have h := frame_pacer_sleep 72 13888889 5000000 2000000 (by decide)
  ⟨by decide, by decide, h.2.1⟩

/-- C18, as stated, fails: a first call obtains a refresh rate of exactly 24 Hz, so a
rate is known; a second call finds the headset disconnected and ends the process. -/
theorem refresh_rate_counterexample :
    (UpdateApplicationRefreshRate (hmd_reports 24) DEFAULT_REFRESH_RATE).status = Status.returned
      ∧ (UpdateApplicationRefreshRate (hmd_reports 24) DEFAULT_REFRESH_RATE).g_hmd_refresh_rate
          = 24
      ∧ CheckConnection hmd_disconnected = false
      ∧ (UpdateApplicationRefreshRate hmd_disconnected
          (UpdateApplicationRefreshRate (hmd_reports 24)
            DEFAULT_REFRESH_RATE).g_hmd_refresh_rate).status = Status.exited := by
  decide

/-- C18, amended: when the refresh rate cannot be obtained (the headset is not
connected or the property read fails), the process terminates if and only if the
stored rate equals 24.0, the initial value that stands for "no rate known", and
otherwise continues with the stored rate unchanged; when it can be obtained, the
stored rate becomes the fetched value. -/
theorem refresh_rate_update (d : HmdDriver) (g_hmd_refresh_rate : ℚ) :
    (CheckConnection d = false ∨ GetFloat d = none →
        ((UpdateApplicationRefreshRate d g_hmd_refresh_rate).status = Status.exited ↔
            g_hmd_refresh_rate = DEFAULT_REFRESH_RATE)
          ∧ ((UpdateApplicationRefreshRate d g_hmd_refresh_rate).status = Status.returned ↔
            g_hmd_refresh_rate ≠ DEFAULT_REFRESH_RATE)
          ∧ (UpdateApplicationRefreshRate d g_hmd_refresh_rate).g_hmd_refresh_rate
              = g_hmd_refresh_rate)
      ∧ (∀ value, CheckConnection d = true → GetFloat d = some value →
        (UpdateApplicationRefreshRate d g_hmd_refresh_rate).status = Status.returned
          ∧ (UpdateApplicationRefreshRate d g_hmd_refresh_rate).g_hmd_refresh_rate = value) := by
  constructor
  · intro hfail
    have hcall : UpdateApplicationRefreshRate d g_hmd_refresh_rate
        = refresh_rate_unavailable g_hmd_refresh_rate := by
      unfold UpdateApplicationRefreshRate
      rcases hfail with h | h
      · simp [h]
      · by_cases hc : CheckConnection d = false
        · simp [hc]
        · simp [hc, h]
    rw [hcall]
    unfold refresh_rate_unavailable
    by_cases h24 : g_hmd_refresh_rate = DEFAULT_REFRESH_RATE <;> simp [h24]
  · intro value hc hv
    simp [UpdateApplicationRefreshRate, hc, hv]

/-- Witness for C18: a headset that reports 90 Hz replaces the initial rate; with 90
Hz stored a failed property read leaves 90 Hz and the call returns; with the initial
rate stored a disconnected headset ends the process. -/
theorem refresh_rate_update_witness :
    (UpdateApplicationRefreshRate (hmd_reports 90) DEFAULT_REFRESH_RATE).g_hmd_refresh_rate = 90
      ∧ GetFloat hmd_property_error = none
      ∧ (UpdateApplicationRefreshRate hmd_property_error 90).status = Status.returned
      ∧ (UpdateApplicationRefreshRate hmd_property_error 90).g_hmd_refresh_rate = 90
      ∧ CheckConnection hmd_disconnected = false
      ∧ (UpdateApplicationRefreshRate hmd_disconnected DEFAULT_REFRESH_RATE).status
          = Status.exited :=
  have hfetched := (refresh_rate_update (hmd_reports 90) DEFAULT_REFRESH_RATE).2 90
    (by decide) (by decide)
  have hkept := (refresh_rate_update hmd_property_error 90).1 (Or.inr (by decide))
  have hexit := (refresh_rate_update hmd_disconnected DEFAULT_REFRESH_RATE).1
    (Or.inl (by decide))
  ⟨hfetched.2, by decide, hkept.2.1.2 (by decide), hkept.2.2, by decide, hexit.1.2 rfl⟩

/-- C19, as stated, fails: on a machine where `Initialize` returns, with the device
and descriptor pool created, `PipelineCache()` returns the null handle. -/
theorem initialize_pipeline_cache_counterexample :
    (Initialize example_build example_initialize_driver VulkanRenderer.constructed).status
        = Status.returned
      ∧ (Initialize example_build example_initialize_driver
          VulkanRenderer.constructed).renderer.PipelineCache = VK_NULL_HANDLE
      ∧ (Initialize example_build example_initialize_driver
          VulkanRenderer.constructed).renderer.vulkan_device_ = 3
      ∧ (Initialize example_build example_initialize_driver
          VulkanRenderer.constructed).renderer.vulkan_descriptor_pool_ = 5 := by
  decide

/-- C19, amended: `Initialize` never assigns the pipeline cache: whatever way it
ends, `PipelineCache()` returns what it returned before, which is the null handle for
a renderer fresh from its constructor; when `Initialize` returns, the objects it
created and stored are the instance, the device, the queue and the descriptor
pool. -/
theorem initialize_pipeline_cache (build : Build) (d : InitializeDriver) (r : VulkanRenderer) :
    (Initialize build d r).renderer.PipelineCache = r.PipelineCache
      ∧ (Initialize build d VulkanRenderer.constructed).renderer.PipelineCache = VK_NULL_HANDLE
      ∧ ((Initialize build d r).status = Status.returned →
        (Initialize build d r).renderer.vulkan_instance_ = d.vulkan_instance
          ∧ (Initialize build d r).renderer.vulkan_device_ = d.device
          ∧ (Initialize build d r).renderer.vulkan_queue_ = d.queue
          ∧ (Initialize build d r).renderer.vulkan_descriptor_pool_ = d.descriptor_pool) := by
  refine ⟨(Initialize_renderer build d r).1, ?_, fun h => ?_⟩
  · exact (Initialize_renderer build d VulkanRenderer.constructed).1
  · obtain ⟨h1, -, -, h4, h5, h6⟩ := (Initialize_renderer build d r).2 h
    exact ⟨h1, h4, h5, h6⟩

/-- Witness for C19: in the validation build of the same machine `Initialize` returns
with instance 1, device 3, queue 4 and descriptor pool 5 stored, and the pipeline
cache still null. -/
theorem initialize_pipeline_cache_witness :
    (Initialize { example_build with ENABLE_VULKAN_VALIDATION := true } example_initialize_driver
        VulkanRenderer.constructed).status = Status.returned
      ∧ (Initialize { example_build with ENABLE_VULKAN_VALIDATION := true }
          example_initialize_driver VulkanRenderer.constructed).renderer.PipelineCache
          = VK_NULL_HANDLE
      ∧ (Initialize { example_build with ENABLE_VULKAN_VALIDATION := true }
          example_initialize_driver VulkanRenderer.constructed).renderer.vulkan_device_ = 3 :=
  have h := initialize_pipeline_cache { example_build with ENABLE_VULKAN_VALIDATION := true }
    example_initialize_driver VulkanRenderer.constructed
  ⟨by decide, h.2.1, (h.2.2 (by decide)).2.1⟩

/-- C20: every one of `SetupWindow`, `SetupSwapchain`, `SetupOverlay`, `RenderWindow`,
`RenderOverlay` and `Present` leaves the values returned by the accessors `Instance`,
`PhysicalDevice`, `QueueFamily`, `Allocator`, `Device`, `Queue`, `DescriptorPool` and
`PipelineCache` unchanged, whatever way the call ends. -/
theorem accessors_unchanged (build : Build) (window_driver : WindowDriver)
    (swapchain_driver : SwapchainDriver) (overlay_driver : OverlayDriver)
    (acquire_driver : AcquireDriver) (tick : OverlayTick) (present_result : Int)
    (r : VulkanRenderer) (window : Vulkan_Window) (surface width height : Nat)
    (format : VkSurfaceFormatKHR) :
    (SetupWindow build window_driver r window surface width height).renderer.accessors
        = r.accessors
      ∧ (SetupSwapchain swapchain_driver r window width height).renderer.accessors = r.accessors
      ∧ (SetupOverlay overlay_driver r width height format).renderer.accessors = r.accessors
      ∧ (RenderWindow acquire_driver r window).renderer.accessors = r.accessors
      ∧ (RenderOverlay tick r).renderer.accessors = r.accessors
      ∧ (Present present_result r window).renderer.accessors = r.accessors
      ∧ r.accessors = [r.vulkan_instance_, r.vulkan_physical_device_, r.vulkan_queue_family_,
          r.vulkan_allocator_, r.vulkan_device_, r.vulkan_queue_, r.vulkan_descriptor_pool_,
          r.vulkan_pipeline_cache_] :=
  ⟨SetupWindow_accessors _ _ _ _ _ _ _, SetupSwapchain_accessors _ _ _ _ _,
    SetupOverlay_accessors _ _ _ _ _, RenderWindow_accessors _ _ _, RenderOverlay_accessors _ _,
    Present_accessors _ _ _, rfl⟩

/-- C22: starting from any `semaphore_index` below `semaphore_count`, which is
`image_count + 1`, after `k` consecutive successful `Present` calls the index is
`(i + k) mod semaphore_count`; it is back at `i` after `image_count + 1` calls and
after no smaller positive number of calls. `RenderWindow`, which reads the acquire
semaphore of the slot, moves neither the index nor the count. -/
theorem semaphore_slot_reuse (r : VulkanRenderer) (window : Vulkan_Window)
    (hrebuild : r.should_rebuild_swapchain_ = false) (hminimized : window.is_minimized = false)
    (hcount : window.semaphore_count = window.image_count + 1)
    (hbound : window.semaphore_count < UINT32_RANGE)
    (hindex : window.semaphore_index < window.semaphore_count) :
    (∀ k, (Present_sequence r window (List.replicate k VK_SUCCESS)).2.semaphore_index
        = (window.semaphore_index + k) % window.semaphore_count)
      ∧ (Present_sequence r window
          (List.replicate (window.image_count + 1) VK_SUCCESS)).2.semaphore_index
          = window.semaphore_index
      ∧ (∀ k, 0 < k → k < window.image_count + 1 →
          (Present_sequence r window (List.replicate k VK_SUCCESS)).2.semaphore_index
            ≠ window.semaphore_index)
      ∧ (∀ d : AcquireDriver,
          (RenderWindow d r window).window.semaphore_index = window.semaphore_index
            ∧ (RenderWindow d r window).window.semaphore_count = window.semaphore_count) := by
  have hseq : ∀ k, (Present_sequence r window (List.replicate k VK_SUCCESS)).2.semaphore_index
      = (window.semaphore_index + k) % window.semaphore_count := by
    intro k
    rw [Present_sequence_success k r window hrebuild hminimized hindex hbound]
  refine ⟨hseq, ?_, ?_, fun d => RenderWindow_semaphore_index d r window⟩
  · rw [hseq, ← hcount]
    exact (add_mod_eq_self_iff _ _ _ hindex).2 (dvd_refl _)
  · intro k hpos hlt hback
    rw [hseq] at hback
    have hdvd := (add_mod_eq_self_iff _ _ _ hindex).1 hback
    have := Nat.le_of_dvd hpos hdvd
    omega

/-- Witness for C22: on the three-image window with four semaphore pairs, at slot 3,
one successful `Present` moves to slot 0 and four bring the index back to slot 3. -/
theorem semaphore_slot_reuse_witness :
    example_presenting_window.semaphore_index = 3
      ∧ example_presenting_window.image_count = 3
      ∧ (Present_sequence example_idle_renderer example_presenting_window
          (List.replicate 1 VK_SUCCESS)).2.semaphore_index = 0
      ∧ (Present_sequence example_idle_renderer example_presenting_window
          (List.replicate 4 VK_SUCCESS)).2.semaphore_index = 3 :=
  have h := semaphore_slot_reuse example_idle_renderer example_presenting_window
    (by decide) (by decide) (by decide) (by decide) (by decide)
  ⟨by decide, by decide, (h.1 1).trans (by decide), h.2.1⟩

/-- C23: in every `RenderWindow` call that reaches recording (the target is not
minimized and the acquire is not out of date), the calls after the acquire are, for
the acquired frame: wait on its fence, reset that fence, reset its command pool, begin
its command buffer, the render pass, end the command buffer, submit with the same
fence. So in that call the wait on the fence comes before the reset of the command
pool, and both come before the command buffer is begun. The submission that
`SetupSwapchain` makes for a frame it creates names the fence of that frame too. -/
theorem render_window_call_order (d : AcquireDriver) (r : VulkanRenderer)
    (window : Vulkan_Window) (hminimized : window.is_minimized = false)
    (hrecording : d.acquire_result ≠ VK_ERROR_OUT_OF_DATE_KHR) :
    (RenderWindow d r window).calls
        = [Call.vkAcquireNextImageKHR r.vulkan_device_ window.swapchain
            (window.semaphores.getD window.semaphore_index
              Vulkan_FrameSemaphore.zero).image_acquired_semaphore,
           Call.vkWaitForFences r.vulkan_device_
            (window.frames.getD d.image_index Vulkan_Frame.zero).fence,
           Call.vkResetFences r.vulkan_device_
            (window.frames.getD d.image_index Vulkan_Frame.zero).fence,
           Call.vkResetCommandPool r.vulkan_device_
            (window.frames.getD d.image_index Vulkan_Frame.zero).command_pool,
           Call.vkBeginCommandBuffer
            (window.frames.getD d.image_index Vulkan_Frame.zero).command_buffer,
           Call.vkCmdBeginRenderingKHR
            (window.frames.getD d.image_index Vulkan_Frame.zero).command_buffer
            (window.frames.getD d.image_index Vulkan_Frame.zero).backbuffer_view
            window.width window.height,
           Call.ImGui_ImplVulkan_RenderDrawData
            (window.frames.getD d.image_index Vulkan_Frame.zero).command_buffer,
           Call.vkCmdEndRenderingKHR
            (window.frames.getD d.image_index Vulkan_Frame.zero).command_buffer,
           Call.vkEndCommandBuffer
            (window.frames.getD d.image_index Vulkan_Frame.zero).command_buffer,
           Call.vkQueueSubmit_synchronized r.vulkan_queue_
            (window.semaphores.getD window.semaphore_index
              Vulkan_FrameSemaphore.zero).image_acquired_semaphore
            (window.frames.getD d.image_index Vulkan_Frame.zero).command_buffer
            (window.semaphores.getD window.semaphore_index
              Vulkan_FrameSemaphore.zero).render_complete_semaphore
            (window.frames.getD d.image_index Vulkan_Frame.zero).fence]
      ∧ (∀ before after device command_pool,
          (RenderWindow d r window).calls
              = before ++ Call.vkResetCommandPool device command_pool :: after →
            Call.vkWaitForFences r.vulkan_device_
              (window.frames.getD d.image_index Vulkan_Frame.zero).fence ∈ before)
      ∧ (∀ before after command_buffer,
          (RenderWindow d r window).calls
              = before ++ Call.vkBeginCommandBuffer command_buffer :: after →
            Call.vkWaitForFences r.vulkan_device_
                (window.frames.getD d.image_index Vulkan_Frame.zero).fence ∈ before
              ∧ Call.vkResetCommandPool r.vulkan_device_
                (window.frames.getD d.image_index Vulkan_Frame.zero).command_pool ∈ before)
      ∧ (∀ (created : SwapchainDriver) (images : List Nat) (idx : Nat) (fd : Vulkan_Frame),
          Call.vkQueueSubmit r.vulkan_queue_ (created_frame created images idx fd).command_buffer
            (created_frame created images idx fd).fence
              ∈ create_frame_calls created r images idx) := by
  have hcalls := RenderWindow_calls_of_recording d r window hminimized hrecording
  simp only [record_and_submit_calls] at hcalls
  refine ⟨hcalls, ?_, ?_, fun created images idx fd => by
    simp [create_frame_calls, created_frame]⟩
  · intro before after device command_pool hsplit
    rw [hcalls] at hsplit
    exact mem_before_of_split [_] _ _ before after _ (by simp) (by simp) hsplit
  · intro before after command_buffer hsplit
    rw [hcalls] at hsplit
    exact ⟨mem_before_of_split [_] _ _ before after _ (by simp) (by simp) hsplit,
      mem_before_of_split [_, _, _] _ _ before after _ (by simp) (by simp) hsplit⟩

/-- Witness for C23: a successful acquire of image 1 on the three-image window; the
frame has fence 601, command pool 401 and command buffer 501. -/
theorem render_window_call_order_witness :
    example_presenting_window.is_minimized = false
      ∧ acquire_success.acquire_result ≠ VK_ERROR_OUT_OF_DATE_KHR
      ∧ (RenderWindow acquire_success example_idle_renderer example_presenting_window).calls
          = [Call.vkAcquireNextImageKHR 3 11 206, Call.vkWaitForFences 3 601,
             Call.vkResetFences 3 601, Call.vkResetCommandPool 3 401,
             Call.vkBeginCommandBuffer 501, Call.vkCmdBeginRenderingKHR 501 301 800 600,
             Call.ImGui_ImplVulkan_RenderDrawData 501, Call.vkCmdEndRenderingKHR 501,
             Call.vkEndCommandBuffer 501, Call.vkQueueSubmit_synchronized 4 206 501 207 601] :=
  ⟨by decide, by decide,
    (render_window_call_order acquire_success example_idle_renderer example_presenting_window
      (by decide) (by decide)).1.trans (by decide)⟩

/-- C27: for every `VkResult` value `e`, `VK_VALIDATE_RESULT(e)` prints its error line
if and only if `e != VK_SUCCESS`, and its assertion never fails, so control goes on to
the next statement. Hence `RenderWindow` and `Present` return whatever the driver
reports, and the result of `vkCreateSwapchainKHR` has no influence on the way
`SetupSwapchain` ends. -/
theorem validate_result_never_stops (e : Int) :
    ((VK_VALIDATE_RESULT e).logged = true ↔ e ≠ VK_SUCCESS)
      ∧ (VK_VALIDATE_RESULT e).assertion_holds = true
      ∧ (∀ (r : VulkanRenderer) (window : Vulkan_Window) (image_index : Nat),
          (RenderWindow { acquire_result := e, image_index := image_index } r window).status
            = Status.returned)
      ∧ (∀ (r : VulkanRenderer) (window : Vulkan_Window),
          (Present e r window).status = Status.returned)
      ∧ (∀ (d : SwapchainDriver) (r : VulkanRenderer) (window : Vulkan_Window)
          (width height : Nat),
          (SetupSwapchain { d with create_result := e } r window width height).status
            = (SetupSwapchain d r window width height).status) := by
  refine ⟨?_, VK_VALIDATE_RESULT_assertion_holds e, fun r window image_index =>
    RenderWindow_status _ r window, fun r window => Present_status e r window, ?_⟩
  · simp [VK_VALIDATE_RESULT]
  · intro d r window width height
    rw [SetupSwapchain_status, SetupSwapchain_status]

/-- C28: `minimum_concurrent_image_count_` is 0 in a renderer fresh from its
constructor; the first `SetupSwapchain` call on a renderer where it is 0 sets it to the
table value of the present mode of that call, and every later `SetupSwapchain` call
leaves it at that value, whatever present mode the window then has. -/
theorem minimum_image_count_latched (r : VulkanRenderer) (window : Vulkan_Window)
    (first : SwapchainRebuild) (later : List SwapchainRebuild)
    (hfresh : r.minimum_concurrent_image_count_ = 0) :
    VulkanRenderer.constructed.minimum_concurrent_image_count_ = 0
      ∧ (SetupSwapchain first.driver r { window with present_mode := first.present_mode }
          first.width first.height).renderer.minimum_concurrent_image_count_
          = set_minimum_concurrent_image_count first.present_mode
      ∧ (SetupSwapchain_sequence r window (first :: later)).1.minimum_concurrent_image_count_
          = set_minimum_concurrent_image_count first.present_mode := by
  have hfirst : (SetupSwapchain first.driver r { window with present_mode := first.present_mode }
      first.width first.height).renderer.minimum_concurrent_image_count_
      = set_minimum_concurrent_image_count first.present_mode := by
    rw [SetupSwapchain_minimum]
    simp [latch_minimum_concurrent_image_count, hfresh]
  refine ⟨rfl, hfirst, ?_⟩
  simp only [SetupSwapchain_sequence]
  rw [SetupSwapchain_sequence_latched _ _ _ (by
    rw [hfirst]
    have := (set_minimum_concurrent_image_count_bounds first.present_mode).1
    omega), hfirst]

/-- Witness for C28: the first call runs in FIFO mode and latches 2; a later call in
mailbox mode, whose table value is 3, leaves 2. -/
theorem minimum_image_count_latched_witness :
    example_renderer.minimum_concurrent_image_count_ = 0
      ∧ set_minimum_concurrent_image_count VK_PRESENT_MODE_MAILBOX_KHR = 3
      ∧ (SetupSwapchain_sequence example_renderer (example_window VK_PRESENT_MODE_FIFO_KHR)
          [{ driver := driver_three_images, present_mode := VK_PRESENT_MODE_FIFO_KHR,
             width := 800, height := 600 },
           { driver := driver_three_images, present_mode := VK_PRESENT_MODE_MAILBOX_KHR,
             width := 800, height := 600 }]).1.minimum_concurrent_image_count_ = 2 :=
  ⟨by decide, by decide,
    (minimum_image_count_latched example_renderer (example_window VK_PRESENT_MODE_FIFO_KHR)
      { driver := driver_three_images, present_mode := VK_PRESENT_MODE_FIFO_KHR,
        width := 800, height := 600 }
      [{ driver := driver_three_images, present_mode := VK_PRESENT_MODE_MAILBOX_KHR,
         width := 800, height := 600 }] (by decide)).2.2.trans (by decide)⟩

/-- C24: for every list of queue families (its length is a `uint32_t`), the selected
family is the least index whose flags include the graphics bit, and a selection that
starts at the sentinel `(uint32_t)-1` of the constructor stays there exactly when no
family has the graphics bit. `Initialize` on a constructed renderer then stops at the
assertion of line 159, and when it returns it holds the selection. -/
theorem queue_family_selection (build : Build) (d : InitializeDriver) (queue_flags : List Nat)
    (hlength : queue_flags.length < UINT32_RANGE) :
    (∀ current i, i < queue_flags.length →
        queue_flags.getD i 0 &&& VK_QUEUE_GRAPHICS_BIT ≠ 0 →
        (∀ j, j < i → queue_flags.getD j 0 &&& VK_QUEUE_GRAPHICS_BIT = 0) →
        select_queue_family current 0 queue_flags = i)
      ∧ (select_queue_family (UINT32_RANGE - 1) 0 queue_flags = UINT32_RANGE - 1 ↔
          ∀ i, i < queue_flags.length → queue_flags.getD i 0 &&& VK_QUEUE_GRAPHICS_BIT = 0)
      ∧ (d.queue_flags (select_physical_device d.device_type VK_NULL_HANDLE d.device_list)
            = queue_flags →
          ((Initialize build d VulkanRenderer.constructed).status = Status.returned →
            (Initialize build d VulkanRenderer.constructed).renderer.vulkan_queue_family_
              = select_queue_family (UINT32_RANGE - 1) 0 queue_flags)
          ∧ (d.openvr_instance_extensions ≠ none →
              select_physical_device d.device_type VK_NULL_HANDLE d.device_list
                ≠ VK_NULL_HANDLE →
              (∀ i, i < queue_flags.length →
                queue_flags.getD i 0 &&& VK_QUEUE_GRAPHICS_BIT = 0) →
              (Initialize build d VulkanRenderer.constructed).status
                = Status.assertion_failed)) := by
  have hfirst : ∀ current i, i < queue_flags.length →
      queue_flags.getD i 0 &&& VK_QUEUE_GRAPHICS_BIT ≠ 0 →
      (∀ j, j < i → queue_flags.getD j 0 &&& VK_QUEUE_GRAPHICS_BIT = 0) →
      select_queue_family current 0 queue_flags = i := by
    intro current i hi hgraphics hbefore
    rw [select_queue_family_of_first current 0 queue_flags i hi hgraphics hbefore,
      Nat.zero_add, Nat.mod_eq_of_lt (by omega)]
  refine ⟨hfirst, ⟨fun hsentinel => ?_, select_queue_family_of_none _ 0 queue_flags⟩,
    fun hflags => ⟨fun hreturned => ?_, fun hsome hdevice hnone => ?_⟩⟩
  · rcases first_graphics_family queue_flags with hnone | ⟨i, hi, hgraphics, hbefore⟩
    · exact hnone
    · rw [hfirst _ i hi hgraphics hbefore] at hsentinel
      omega
  · have h := ((Initialize_queue_family build d VulkanRenderer.constructed).1 hreturned).1
    rw [h]
    show select_queue_family (UINT32_RANGE - 1) 0
      (d.queue_flags (select_physical_device d.device_type VK_NULL_HANDLE d.device_list)) = _
    rw [hflags]
  · apply (Initialize_queue_family build d VulkanRenderer.constructed).2 hsome hdevice
    show select_queue_family (UINT32_RANGE - 1) 0
      (d.queue_flags (select_physical_device d.device_type VK_NULL_HANDLE d.device_list)) = _
    rw [hflags]
    exact select_queue_family_of_none _ 0 queue_flags hnone

/-- Witness for C24: the selected GPU has a compute family (flags 2) followed by a
graphics family (flags 1); family 1 is selected and `Initialize` returns with it. A
device with compute families alone leaves the sentinel and stops at the assertion. -/
theorem queue_family_selection_witness :
    select_queue_family (UINT32_RANGE - 1) 0 [2, 1] = 1
      ∧ (Initialize example_build example_initialize_driver VulkanRenderer.constructed).status
          = Status.returned
      ∧ (Initialize example_build example_initialize_driver
          VulkanRenderer.constructed).renderer.vulkan_queue_family_ = 1
      ∧ select_queue_family (UINT32_RANGE - 1) 0 [2, 2] = UINT32_RANGE - 1
      ∧ (Initialize example_build compute_only_driver VulkanRenderer.constructed).status
          = Status.assertion_failed :=
  have h := queue_family_selection example_build example_initialize_driver [2, 1] (by decide)
  have hcompute := queue_family_selection example_build compute_only_driver [2, 2] (by decide)
  ⟨h.1 _ 1 (by decide) (by decide) (by decide), by decide,
    ((h.2.2 rfl).1 (by decide)).trans (h.1 _ 1 (by decide) (by decide) (by decide)),
    hcompute.2.1.2 (by decide),
    (hcompute.2.2 rfl).2 (by decide) (by decide) (by decide)⟩

/-- C21: when the compositor is there and reports a list of positive length, the
result of `GetVulkanInstanceExtensionsRequiredByOpenVR`, and of its device
counterpart, is the list of the tokens of the extension string in their order when
every token names an available extension, and the process exits when some token does
not; it exits when the reported length is zero. The tokens are the pieces between
the spaces: none holds a space, and each followed by a space, concatenated, they give
the string back (closed by a space when it does not end with one). -/
theorem required_extensions_are_tokens (d : ExtensionDriver)
    (hcompositor : d.compositor = true) :
    (0 < d.buffer_len →
        (∀ token ∈ getline_tokens (c_string (d.extensions.take d.buffer_len)) [],
          token ∈ d.extension_properties) →
        GetVulkanInstanceExtensionsRequiredByOpenVR d
            = some (getline_tokens (c_string (d.extensions.take d.buffer_len)) [])
          ∧ GetVulkanDeviceExtensionsRequiredByOpenVR d
            = some (getline_tokens (c_string (d.extensions.take d.buffer_len)) []))
      ∧ (0 < d.buffer_len →
        (∃ token ∈ getline_tokens (c_string (d.extensions.take d.buffer_len)) [],
          token ∉ d.extension_properties) →
        GetVulkanInstanceExtensionsRequiredByOpenVR d = none
          ∧ GetVulkanDeviceExtensionsRequiredByOpenVR d = none)
      ∧ (d.buffer_len = 0 →
        GetVulkanInstanceExtensionsRequiredByOpenVR d = none
          ∧ GetVulkanDeviceExtensionsRequiredByOpenVR d = none)
      ∧ (∀ token ∈ getline_tokens (c_string (d.extensions.take d.buffer_len)) [],
          SPACE ∉ token.data)
      ∧ (getline_tokens (c_string (d.extensions.take d.buffer_len)) []).flatMap
            (fun token => token.data ++ [SPACE])
          = if c_string (d.extensions.take d.buffer_len) = []
              ∨ (c_string (d.extensions.take d.buffer_len)).getLast? = some SPACE then
              c_string (d.extensions.take d.buffer_len)
            else c_string (d.extensions.take d.buffer_len) ++ [SPACE] := by
  refine ⟨fun hlen hall => ?_, fun hlen hsome => ?_, fun hlen => ?_,
    getline_tokens_no_space _ [] (by simp), ?_⟩
  · constructor
    · simp only [GetVulkanInstanceExtensionsRequiredByOpenVR, hcompositor, hlen, if_true]
      simpa using (collect_extensions_eq _ _ []).1
        (fun token ht => (IsVulkanInstanceExtensionAvailable_iff _ _).2 (hall token ht))
    · simp only [GetVulkanDeviceExtensionsRequiredByOpenVR, hcompositor, hlen, if_true]
      simpa using (collect_extensions_eq _ _ []).1
        (fun token ht => (IsVulkanDeviceExtensionAvailable_iff _ _).2 (hall token ht))
  · obtain ⟨token, ht, hnot⟩ := hsome
    constructor
    · simp only [GetVulkanInstanceExtensionsRequiredByOpenVR, hcompositor, hlen, if_true]
      simpa using (collect_extensions_eq _ _ []).2
        ⟨token, ht, fun h => hnot ((IsVulkanInstanceExtensionAvailable_iff _ _).1 h)⟩
    · simp only [GetVulkanDeviceExtensionsRequiredByOpenVR, hcompositor, hlen, if_true]
      simpa using (collect_extensions_eq _ _ []).2
        ⟨token, ht, fun h => hnot ((IsVulkanDeviceExtensionAvailable_iff _ _).1 h)⟩
  · simp [GetVulkanInstanceExtensionsRequiredByOpenVR,
      GetVulkanDeviceExtensionsRequiredByOpenVR, hcompositor, hlen]
  · rw [getline_tokens_join]
    by_cases hempty : c_string (d.extensions.take d.buffer_len) = []
    · simp [hempty]
    · by_cases hlast : (c_string (d.extensions.take d.buffer_len)).getLast? = some SPACE
      · simp [hempty, hlast]
      · simp [hempty, hlast]

/-- Witness for C21: the compositor asks for `VK_KHR_surface VK_KHR_win32_surface`; a
driver that reports both gives the two names in that order, a driver without the
second one ends the process. -/
theorem required_extensions_are_tokens_witness :
    example_extension_driver.compositor = true
      ∧ GetVulkanInstanceExtensionsRequiredByOpenVR example_extension_driver
          = some ["VK_KHR_surface", "VK_KHR_win32_surface"]
      ∧ GetVulkanDeviceExtensionsRequiredByOpenVR missing_extension_driver = none :=
  have h := required_extensions_are_tokens example_extension_driver (by decide)
  have hmissing := required_extensions_are_tokens missing_extension_driver (by decide)
  ⟨by decide, ((h.1 (by decide) (by decide)).1).trans (by decide),
    (hmissing.2.1 (by decide) (by decide)).2⟩

/-- C29: for every button bitmask, a `MouseButtonDown` or `MouseButtonUp` event makes
`ImGui_ImplOpenVR_ProcessOverlayEvent` return true, and it forwards a mouse-button
event to the UI if and only if exactly one of the Left, Right and Middle bits is set
in the mask; the forwarded button is then the one whose bit is set, pressed for Down
and released for Up. -/
theorem mouse_button_forwarding (bd : ImGui_ImplOpenVR_Data) (display_height : Nat)
    (vr_overlay : Bool) (button : Nat) :
    ImGui_ImplOpenVR_ProcessOverlayEvent bd display_height vr_overlay
        (VREvent.MouseButtonDown button) = (true, mouse_button_event button true)
      ∧ ImGui_ImplOpenVR_ProcessOverlayEvent bd display_height vr_overlay
        (VREvent.MouseButtonUp button) = (true, mouse_button_event button false)
      ∧ ∀ down : Bool,
          (mouse_button_event button down ≠ [] ↔
            (button &&& VRMouseButton_Left ≠ 0 ∧ button &&& VRMouseButton_Right = 0
                ∧ button &&& VRMouseButton_Middle = 0)
              ∨ (button &&& VRMouseButton_Left = 0 ∧ button &&& VRMouseButton_Right ≠ 0
                ∧ button &&& VRMouseButton_Middle = 0)
              ∨ (button &&& VRMouseButton_Left = 0 ∧ button &&& VRMouseButton_Right = 0
                ∧ button &&& VRMouseButton_Middle ≠ 0))
          ∧ (button &&& VRMouseButton_Left ≠ 0 → button &&& VRMouseButton_Right = 0 →
              button &&& VRMouseButton_Middle = 0 →
              mouse_button_event button down
                = [BackendCall.AddMouseButtonEvent ImGuiMouseButton_Left down])
          ∧ (button &&& VRMouseButton_Left = 0 → button &&& VRMouseButton_Right ≠ 0 →
              button &&& VRMouseButton_Middle = 0 →
              mouse_button_event button down
                = [BackendCall.AddMouseButtonEvent ImGuiMouseButton_Right down])
          ∧ (button &&& VRMouseButton_Left = 0 → button &&& VRMouseButton_Right = 0 →
              button &&& VRMouseButton_Middle ≠ 0 →
              mouse_button_event button down
                = [BackendCall.AddMouseButtonEvent ImGuiMouseButton_Middle down]) := by
  refine ⟨rfl, rfl, fun down => ?_⟩
  rw [mouse_button_event_low_bits button down,
    and_low_bits button VRMouseButton_Left (by decide),
    and_low_bits button VRMouseButton_Right (by decide),
    and_low_bits button VRMouseButton_Middle (by decide)]
  have hlt : button % 2 ^ 3 < 8 := Nat.mod_lt _ (by decide)
  generalize button % 2 ^ 3 = low at hlt
  cases down <;> interval_cases low <;> decide

/-- Witness for C29: a mask with the Right bit and bits outside the three (`0x12`)
forwards the right button, pressed; a mask with Left and Right (`3`) forwards
nothing. -/
theorem mouse_button_forwarding_witness :
    (18 : Nat) &&& VRMouseButton_Right ≠ 0
      ∧ ImGui_ImplOpenVR_ProcessOverlayEvent ImGui_ImplOpenVR_Data.zero 720 true
          (VREvent.MouseButtonDown 18)
          = (true, [BackendCall.AddMouseButtonEvent ImGuiMouseButton_Right true])
      ∧ ImGui_ImplOpenVR_ProcessOverlayEvent ImGui_ImplOpenVR_Data.zero 720 true
          (VREvent.MouseButtonUp 3) = (true, []) :=
  have h := mouse_button_forwarding ImGui_ImplOpenVR_Data.zero 720 true 18
  have hboth := mouse_button_forwarding ImGui_ImplOpenVR_Data.zero 720 true 3
  ⟨by decide,
    h.1.trans (congrArg (Prod.mk true)
      ((h.2.2 true).2.2.1 (by decide) (by decide) (by decide))),
    hboth.2.1.trans (by decide)⟩

/-- C30: in every state reached from `ImGui_ImplOpenVR_Init` by any sequence of
`ImGui_ImplOpenVR_NewFrame` and `ImGui_ImplOpenVR_ProcessOverlayEvent` calls,
`keyboard_active` is false. So a `KeyboardClosed_Global` event makes no call there (no
Enter key press, no `HideKeyboard`), and `ImGui_ImplOpenVR_NewFrame` asks for the
virtual keyboard of the overlay on every frame in which the overlay is visible and the
UI wants text input. -/
theorem keyboard_never_active (platform : BackendPlatform)
    (initInfo : ImGui_ImplOpenVR_InitInfo) (steps : List BackendStep) :
    (run_backend_steps (ImGui_ImplOpenVR_Init platform initInfo).2 steps).keyboard_active
        = false
      ∧ (∀ (display_height : Nat) (vr_overlay : Bool) (overlayHandle : Nat),
          (ImGui_ImplOpenVR_ProcessOverlayEvent
            (run_backend_steps (ImGui_ImplOpenVR_Init platform initInfo).2 steps)
            display_height vr_overlay (VREvent.KeyboardClosed_Global overlayHandle)).2 = [])
      ∧ (∀ input : FrameInput, input.overlay_visible = true → input.WantTextInput = true →
          BackendCall.ShowKeyboardForOverlay initInfo.handle ∈
            (ImGui_ImplOpenVR_NewFrame input
              (run_backend_steps (ImGui_ImplOpenVR_Init platform initInfo).2 steps)).calls) := by
  have hinit := Init_keyboard_active platform initInfo
  have hreached := run_backend_steps_keyboard_active
    (ImGui_ImplOpenVR_Init platform initInfo).2 steps hinit.2
  refine ⟨hreached.2, fun display_height vr_overlay overlayHandle => ?_,
    fun input hvisible htext => ?_⟩
  · simp only [ImGui_ImplOpenVR_ProcessOverlayEvent, hreached.2]
    by_cases hoverlay : vr_overlay = false
    · simp [hoverlay]
    · simp [hoverlay]
  · simp [ImGui_ImplOpenVR_NewFrame, hvisible, htext, hreached.2, hreached.1, hinit.1]

/-- Witness for C30: after two frames that want text input, with the keyboard shown
in between, the flag is still false, the keyboard of overlay 7 is asked for again, and
the event that closes the keyboard sends no key. -/
theorem keyboard_never_active_witness :
    (run_backend_steps (ImGui_ImplOpenVR_Init example_platform example_init_info).2
        [BackendStep.NewFrame frame_wants_text,
         BackendStep.NewFrame frame_wants_text]).keyboard_active = false
      ∧ frame_wants_text.overlay_visible = true
      ∧ frame_wants_text.WantTextInput = true
      ∧ (ImGui_ImplOpenVR_NewFrame frame_wants_text
          (run_backend_steps (ImGui_ImplOpenVR_Init example_platform example_init_info).2
            [BackendStep.NewFrame frame_wants_text,
             BackendStep.NewFrame frame_wants_text])).calls
          = [BackendCall.IsOverlayVisible 7, BackendCall.ShowKeyboardForOverlay 7,
             BackendCall.SetOverlayMouseScale 7 1280 720]
      ∧ BackendCall.ShowKeyboardForOverlay 7 ∈
          (ImGui_ImplOpenVR_NewFrame frame_wants_text
            (run_backend_steps (ImGui_ImplOpenVR_Init example_platform example_init_info).2
              [BackendStep.NewFrame frame_wants_text,
               BackendStep.NewFrame frame_wants_text])).calls
      ∧ (ImGui_ImplOpenVR_ProcessOverlayEvent
          (run_backend_steps (ImGui_ImplOpenVR_Init example_platform example_init_info).2
            [BackendStep.NewFrame frame_wants_text,
             BackendStep.NewFrame frame_wants_text])
          720 true (VREvent.KeyboardClosed_Global 7)).2 = [] :=
  have h := keyboard_never_active example_platform example_init_info
    [BackendStep.NewFrame frame_wants_text, BackendStep.NewFrame frame_wants_text]
  ⟨h.1, by decide, by decide, by decide, h.2.2 frame_wants_text (by decide) (by decide),
    h.2.1 720 true 7⟩

/-- C25 does not hold on the code: `SetupSwapchain` never resets `semaphore_index`.
With the minimum of 2 images latched for FIFO mode, the first build yields three
images (four semaphore pairs), three frames are rendered
and presented, which moves the index to 3, the fourth acquire is out of date, and the
rebuild yields two images: the window then has three semaphore pairs and
`semaphore_index` is 3, so the read `semaphores[semaphore_index]` of the next
`RenderWindow` is past the end of the vector (the null handle stands in for it in the
acquire call). -/
theorem semaphore_index_past_end_after_rebuild :
    (run_window_steps example_renderer (example_window VK_PRESENT_MODE_FIFO_KHR)
        shrinking_rebuild_steps.dropLast).window.semaphore_index = 3
      ∧ (run_window_steps example_renderer (example_window VK_PRESENT_MODE_FIFO_KHR)
        shrinking_rebuild_steps.dropLast).window.semaphore_count = 4
      ∧ (run_window_steps example_renderer (example_window VK_PRESENT_MODE_FIFO_KHR)
        shrinking_rebuild_steps).status = Status.returned
      ∧ (run_window_steps example_renderer (example_window VK_PRESENT_MODE_FIFO_KHR)
        shrinking_rebuild_steps).renderer.minimum_concurrent_image_count_ = 2
      ∧ (run_window_steps example_renderer (example_window VK_PRESENT_MODE_FIFO_KHR)
        shrinking_rebuild_steps).window.image_count = 2
      ∧ (run_window_steps example_renderer (example_window VK_PRESENT_MODE_FIFO_KHR)
        shrinking_rebuild_steps).window.semaphore_count = 3
      ∧ (run_window_steps example_renderer (example_window VK_PRESENT_MODE_FIFO_KHR)
        shrinking_rebuild_steps).window.semaphores.length = 3
      ∧ (run_window_steps example_renderer (example_window VK_PRESENT_MODE_FIFO_KHR)
        shrinking_rebuild_steps).window.semaphore_index = 3
      ∧ (RenderWindow acquire_success
          (run_window_steps example_renderer (example_window VK_PRESENT_MODE_FIFO_KHR)
            shrinking_rebuild_steps).renderer
          (run_window_steps example_renderer (example_window VK_PRESENT_MODE_FIFO_KHR)
            shrinking_rebuild_steps).window).calls.head?
          = some (Call.vkAcquireNextImageKHR 3 11 VK_NULL_HANDLE) := by
  decide

/-- C26 does not hold on the code: a `RenderOverlay` call whose hand-off fails returns
before the barrier that restores the layout. For every call, the render pass begins in
the layout the image had before the call, and the call leaves the image in
color-attachment-optimal layout when the hand-off succeeds and in
transfer-source-optimal layout when it fails. After `SetupOverlay`, a visible tick whose
hand-off fails followed by a visible tick, the two render passes begin in
color-attachment-optimal and in transfer-source-optimal layout. -/
theorem overlay_layout_after_failed_handoff :
    (∀ (tick : OverlayTick) (r : VulkanRenderer) (layout : Nat),
        image_layout_after r.vulkan_overlay_.texture layout (RenderOverlay tick r).calls
            = (if tick.visible = false then layout
               else if tick.set_texture_result > VR_NO_ERROR then
                 VK_IMAGE_LAYOUT_TRANSFER_SRC_OPTIMAL
               else VK_IMAGE_LAYOUT_COLOR_ATTACHMENT_OPTIMAL)
          ∧ render_pass_layouts r.vulkan_overlay_.texture r.vulkan_overlay_.texture_view
              layout (RenderOverlay tick r).calls
            = (if tick.visible = false then [] else [layout]))
      ∧ image_layout_after 34 VK_IMAGE_LAYOUT_UNDEFINED
          (SetupOverlay example_overlay_driver example_renderer 1280 720
            { format := VK_FORMAT_R8G8B8A8_SRGB, colorSpace := 0 }).calls
          = VK_IMAGE_LAYOUT_COLOR_ATTACHMENT_OPTIMAL
      ∧ render_pass_layouts 34 35 VK_IMAGE_LAYOUT_UNDEFINED
          (overlay_session_calls example_overlay_driver example_renderer 1280 720
            { format := VK_FORMAT_R8G8B8A8_SRGB, colorSpace := 0 }
            [tick_visible, tick_visible])
          = [VK_IMAGE_LAYOUT_COLOR_ATTACHMENT_OPTIMAL, VK_IMAGE_LAYOUT_COLOR_ATTACHMENT_OPTIMAL]
      ∧ render_pass_layouts 34 35 VK_IMAGE_LAYOUT_UNDEFINED
          (overlay_session_calls example_overlay_driver example_renderer 1280 720
            { format := VK_FORMAT_R8G8B8A8_SRGB, colorSpace := 0 }
            [tick_handoff_fails, tick_visible])
          = [VK_IMAGE_LAYOUT_COLOR_ATTACHMENT_OPTIMAL, VK_IMAGE_LAYOUT_TRANSFER_SRC_OPTIMAL] :=
  ⟨fun tick r layout => RenderOverlay_layout tick r layout, by decide, by decide, by decide⟩

end OverlayRenderer
